import Mathlib

/-!
# The CDS error framework (`sdk/error.go`)

A shallow embedding of the error kinds, the localized catalogs, the classified
error values and the operations of `sdk/error.go`, followed by the properties
established about them.

Conventions of the embedding:

* A Go value of interface type `error` is a `GoError`; the nil interface is
  `GoError.nil`.
* A function whose Go body can stop with a run-time panic (nil dereference,
  failed type assertion, index out of range) returns an `Option`; `none` is the
  panic.
* `callers()` reads the goroutine's call stack.  Every function that can capture
  a stack takes the list `cs` of the function names of the frames above it
  (its caller first); a nested call pushes the name of the calling function.
* The formatting verbs of `fmt` and the language negotiation of
  `golang.org/x/text/language` are library code: they are the fields of `Libs`.
-/

set_option linter.dupNamespace false

namespace sdk

/-- A Go `interface{}` value as far as this file looks at it: the nil interface
or some non-nil payload, identified by its rendering. -/
inductive Any where
  | null
  | val (repr : String)
  deriving DecidableEq, Repr

/-- The struct `Error`. -/
structure Error where
  ID : Int
  Status : Int
  Message : String := ""
  Data : Any := Any.null
  RequestID : String := ""
  StackTrace : String := ""
  From : String := ""
  deriving DecidableEq, Repr

/-! ## Status codes of `net/http` used by the kind declarations -/

def http.StatusBadRequest : Int := 400
def http.StatusUnauthorized : Int := 401
def http.StatusForbidden : Int := 403
def http.StatusNotFound : Int := 404
def http.StatusMethodNotAllowed : Int := 405
def http.StatusRequestTimeout : Int := 408
def http.StatusConflict : Int := 409
def http.StatusGone : Int := 410
def http.StatusUnsupportedMediaType : Int := 415
def http.StatusInternalServerError : Int := 500
def http.StatusNotImplemented : Int := 501
def http.StatusServiceUnavailable : Int := 503

/-! ## Existing CDS errors (`error.go`, the `var ( ... )` block) -/

def ErrUnknownError : Error := { ID := 1, Status := http.StatusInternalServerError }
def ErrActionAlreadyUpdated : Error := { ID := 2, Status := http.StatusBadRequest }
def ErrNoAction : Error := { ID := 3, Status := http.StatusNotFound }
def ErrActionLoop : Error := { ID := 4, Status := http.StatusBadRequest }
def ErrInvalidID : Error := { ID := 5, Status := http.StatusBadRequest }
def ErrInvalidProject : Error := { ID := 6, Status := http.StatusBadRequest }
def ErrInvalidProjectKey : Error := { ID := 7, Status := http.StatusBadRequest }
def ErrProjectHasPipeline : Error := { ID := 8, Status := http.StatusForbidden }
def ErrProjectHasApplication : Error := { ID := 9, Status := http.StatusForbidden }
def ErrUnauthorized : Error := { ID := 10, Status := http.StatusUnauthorized }
def ErrForbidden : Error := { ID := 11, Status := http.StatusForbidden }
def ErrPipelineNotFound : Error := { ID := 12, Status := http.StatusBadRequest }
def ErrPipelineNotAttached : Error := { ID := 13, Status := http.StatusBadRequest }
def ErrNoEnvironmentProvided : Error := { ID := 14, Status := http.StatusBadRequest }
def ErrEnvironmentProvided : Error := { ID := 15, Status := http.StatusBadRequest }
def ErrUnknownEnv : Error := { ID := 16, Status := http.StatusBadRequest }
def ErrEnvironmentExist : Error := { ID := 17, Status := http.StatusForbidden }
def ErrNoPipelineBuild : Error := { ID := 18, Status := http.StatusNotFound }
def ErrInvalidUsername : Error := { ID := 21, Status := http.StatusBadRequest }
def ErrInvalidEmail : Error := { ID := 22, Status := http.StatusBadRequest }
def ErrGroupPresent : Error := { ID := 23, Status := http.StatusBadRequest }
def ErrInvalidName : Error := { ID := 24, Status := http.StatusBadRequest }
def ErrInvalidUser : Error := { ID := 25, Status := http.StatusBadRequest }
def ErrBuildArchived : Error := { ID := 26, Status := http.StatusBadRequest }
def ErrNoEnvironment : Error := { ID := 27, Status := http.StatusNotFound }
def ErrModelNameExist : Error := { ID := 28, Status := http.StatusForbidden }
def ErrNoProject : Error := { ID := 30, Status := http.StatusNotFound }
def ErrVariableExists : Error := { ID := 31, Status := http.StatusForbidden }
def ErrInvalidGroupPattern : Error := { ID := 32, Status := http.StatusBadRequest }
def ErrGroupExists : Error := { ID := 33, Status := http.StatusForbidden }
def ErrNotEnoughAdmin : Error := { ID := 34, Status := http.StatusBadRequest }
def ErrInvalidProjectName : Error := { ID := 35, Status := http.StatusBadRequest }
def ErrInvalidApplicationPattern : Error := { ID := 36, Status := http.StatusBadRequest }
def ErrInvalidPipelinePattern : Error := { ID := 37, Status := http.StatusBadRequest }
def ErrNotFound : Error := { ID := 38, Status := http.StatusNotFound }
def ErrNoHook : Error := { ID := 40, Status := http.StatusNotFound }
def ErrNoAttachedPipeline : Error := { ID := 41, Status := http.StatusNotFound }
def ErrNoReposManager : Error := { ID := 42, Status := http.StatusNotFound }
def ErrNoReposManagerAuth : Error := { ID := 43, Status := http.StatusUnauthorized }
def ErrNoReposManagerClientAuth : Error := { ID := 44, Status := http.StatusForbidden }
def ErrRepoNotFound : Error := { ID := 45, Status := http.StatusNotFound }
def ErrSecretStoreUnreachable : Error := { ID := 46, Status := http.StatusMethodNotAllowed }
def ErrSecretKeyFetchFailed : Error := { ID := 47, Status := http.StatusMethodNotAllowed }
def ErrInvalidGoPath : Error := { ID := 48, Status := http.StatusBadRequest }
def ErrCommitsFetchFailed : Error := { ID := 49, Status := http.StatusNotFound }
def ErrInvalidSecretFormat : Error := { ID := 50, Status := http.StatusInternalServerError }
def ErrNoPreviousSuccess : Error := { ID := 52, Status := http.StatusNotFound }
def ErrNoPermExecution : Error := { ID := 53, Status := http.StatusForbidden }
def ErrSessionNotFound : Error := { ID := 54, Status := http.StatusUnauthorized }
def ErrInvalidSecretValue : Error := { ID := 55, Status := http.StatusBadRequest }
def ErrPipelineHasApplication : Error := { ID := 56, Status := http.StatusBadRequest }
def ErrNoDirectSecretUse : Error := { ID := 57, Status := http.StatusForbidden }
def ErrNoBranch : Error := { ID := 58, Status := http.StatusNotFound }
def ErrLDAPConn : Error := { ID := 59, Status := http.StatusInternalServerError }
def ErrServiceUnavailable : Error := { ID := 60, Status := http.StatusServiceUnavailable }
def ErrParseUserNotification : Error := { ID := 61, Status := http.StatusBadRequest }
def ErrNotSupportedUserNotification : Error := { ID := 62, Status := http.StatusBadRequest }
def ErrGroupNeedAdmin : Error := { ID := 63, Status := http.StatusBadRequest }
def ErrGroupNeedWrite : Error := { ID := 64, Status := http.StatusBadRequest }
def ErrNoVariable : Error := { ID := 65, Status := http.StatusNotFound }
def ErrPluginInvalid : Error := { ID := 66, Status := http.StatusBadRequest }
def ErrApplicationExist : Error := { ID := 69, Status := http.StatusForbidden }
def ErrBranchNameNotProvided : Error := { ID := 70, Status := http.StatusBadRequest }
def ErrInfiniteTriggerLoop : Error := { ID := 71, Status := http.StatusBadRequest }
def ErrInvalidResetUser : Error := { ID := 72, Status := http.StatusBadRequest }
def ErrUserConflict : Error := { ID := 73, Status := http.StatusBadRequest }
def ErrWrongRequest : Error := { ID := 74, Status := http.StatusBadRequest }
def ErrAlreadyExist : Error := { ID := 75, Status := http.StatusForbidden }
def ErrInvalidType : Error := { ID := 76, Status := http.StatusBadRequest }
def ErrParentApplicationAndPipelineMandatory : Error := { ID := 77, Status := http.StatusBadRequest }
def ErrNoParentBuildFound : Error := { ID := 78, Status := http.StatusNotFound }
def ErrParameterExists : Error := { ID := 79, Status := http.StatusForbidden }
def ErrNoHatchery : Error := { ID := 80, Status := http.StatusNotFound }
def ErrInvalidWorkerStatus : Error := { ID := 81, Status := http.StatusNotFound }
def ErrInvalidToken : Error := { ID := 82, Status := http.StatusUnauthorized }
def ErrAppBuildingPipelines : Error := { ID := 83, Status := http.StatusForbidden }
def ErrInvalidTimezone : Error := { ID := 84, Status := http.StatusBadRequest }
def ErrEnvironmentCannotBeDeleted : Error := { ID := 85, Status := http.StatusForbidden }
def ErrInvalidPipeline : Error := { ID := 86, Status := http.StatusBadRequest }
def ErrKeyNotFound : Error := { ID := 87, Status := http.StatusNotFound }
def ErrPipelineAlreadyExists : Error := { ID := 88, Status := http.StatusForbidden }
def ErrJobAlreadyBooked : Error := { ID := 89, Status := http.StatusForbidden }
def ErrPipelineBuildNotFound : Error := { ID := 90, Status := http.StatusNotFound }
def ErrAlreadyTaken : Error := { ID := 91, Status := http.StatusGone }
def ErrWorkflowNodeNotFound : Error := { ID := 93, Status := http.StatusNotFound }
def ErrWorkflowInvalidRoot : Error := { ID := 94, Status := http.StatusBadRequest }
def ErrWorkflowNodeRef : Error := { ID := 95, Status := http.StatusBadRequest }
def ErrWorkflowInvalid : Error := { ID := 96, Status := http.StatusBadRequest }
def ErrWorkflowNodeJoinNotFound : Error := { ID := 97, Status := http.StatusNotFound }
def ErrInvalidJobRequirement : Error := { ID := 98, Status := http.StatusBadRequest }
def ErrNotImplemented : Error := { ID := 99, Status := http.StatusNotImplemented }
def ErrParameterNotExists : Error := { ID := 100, Status := http.StatusNotFound }
def ErrUnknownKeyType : Error := { ID := 101, Status := http.StatusBadRequest }
def ErrInvalidKeyPattern : Error := { ID := 102, Status := http.StatusBadRequest }
def ErrWebhookConfigDoesNotMatch : Error := { ID := 103, Status := http.StatusBadRequest }
def ErrPipelineUsedByWorkflow : Error := { ID := 104, Status := http.StatusBadRequest }
def ErrMethodNotAllowed : Error := { ID := 105, Status := http.StatusMethodNotAllowed }
def ErrInvalidNodeNamePattern : Error := { ID := 106, Status := http.StatusBadRequest }
def ErrWorkflowNodeParentNotRun : Error := { ID := 107, Status := http.StatusForbidden }
def ErrHookNotFound : Error := { ID := 108, Status := http.StatusNotFound }
def ErrDefaultGroupPermission : Error := { ID := 109, Status := http.StatusBadRequest }
def ErrLastGroupWithWriteRole : Error := { ID := 110, Status := http.StatusForbidden }
def ErrInvalidEmailDomain : Error := { ID := 111, Status := http.StatusForbidden }
def ErrWorkflowNodeRunJobNotFound : Error := { ID := 112, Status := http.StatusNotFound }
def ErrBuiltinKeyNotFound : Error := { ID := 113, Status := http.StatusInternalServerError }
def ErrStepNotFound : Error := { ID := 114, Status := http.StatusNotFound }
def ErrWorkerModelAlreadyBooked : Error := { ID := 115, Status := http.StatusForbidden }
def ErrConditionsNotOk : Error := { ID := 116, Status := http.StatusBadRequest }
def ErrDownloadInvalidOS : Error := { ID := 117, Status := http.StatusNotFound }
def ErrDownloadInvalidArch : Error := { ID := 118, Status := http.StatusNotFound }
def ErrDownloadInvalidName : Error := { ID := 119, Status := http.StatusNotFound }
def ErrDownloadDoesNotExist : Error := { ID := 120, Status := http.StatusNotFound }
def ErrTokenNotFound : Error := { ID := 121, Status := http.StatusNotFound }
def ErrWorkflowNotificationNodeRef : Error := { ID := 122, Status := http.StatusBadRequest }
def ErrInvalidJobRequirementDuplicateModel : Error := { ID := 123, Status := http.StatusBadRequest }
def ErrInvalidJobRequirementDuplicateHostname : Error := { ID := 124, Status := http.StatusBadRequest }
def ErrInvalidKeyName : Error := { ID := 125, Status := http.StatusBadRequest }
def ErrRepoOperationTimeout : Error := { ID := 126, Status := http.StatusRequestTimeout }
def ErrInvalidGitBranch : Error := { ID := 127, Status := http.StatusBadRequest }
def ErrInvalidFavoriteType : Error := { ID := 128, Status := http.StatusBadRequest }
def ErrUnsupportedOSArchPlugin : Error := { ID := 129, Status := http.StatusNotFound }
def ErrNoBroadcast : Error := { ID := 130, Status := http.StatusNotFound }
def ErrBroadcastNotFound : Error := { ID := 131, Status := http.StatusNotFound }
def ErrInvalidPatternModel : Error := { ID := 132, Status := http.StatusBadRequest }
def ErrWorkerModelNoAdmin : Error := { ID := 133, Status := http.StatusForbidden }
def ErrWorkerModelNoPattern : Error := { ID := 134, Status := http.StatusForbidden }
def ErrJobNotBooked : Error := { ID := 135, Status := http.StatusBadRequest }
def ErrUserNotFound : Error := { ID := 136, Status := http.StatusNotFound }
def ErrInvalidNumber : Error := { ID := 137, Status := http.StatusBadRequest }
def ErrKeyAlreadyExist : Error := { ID := 138, Status := http.StatusForbidden }
def ErrPipelineNameImport : Error := { ID := 139, Status := http.StatusBadRequest }
def ErrWorkflowNameImport : Error := { ID := 140, Status := http.StatusBadRequest }
def ErrIconBadFormat : Error := { ID := 141, Status := http.StatusBadRequest }
def ErrIconBadSize : Error := { ID := 142, Status := http.StatusBadRequest }
def ErrWorkflowConditionBadOperator : Error := { ID := 143, Status := http.StatusBadRequest }
def ErrColorBadFormat : Error := { ID := 144, Status := http.StatusBadRequest }
def ErrInvalidHookConfiguration : Error := { ID := 145, Status := http.StatusBadRequest }
def ErrWorkerModelDeploymentFailed : Error := { ID := 146, Status := http.StatusBadRequest }
def ErrJobLocked : Error := { ID := 147, Status := http.StatusConflict }
def ErrWorkflowNodeRunLocked : Error := { ID := 148, Status := http.StatusConflict }
def ErrInvalidData : Error := { ID := 149, Status := http.StatusBadRequest }
def ErrInvalidGroupAdmin : Error := { ID := 150, Status := http.StatusForbidden }
def ErrInvalidGroupMember : Error := { ID := 151, Status := http.StatusForbidden }
def ErrWorkflowNotGenerated : Error := { ID := 152, Status := http.StatusForbidden }
def ErrAlreadyLatestTemplate : Error := { ID := 153, Status := http.StatusForbidden }
def ErrInvalidNodeDefaultPayload : Error := { ID := 154, Status := http.StatusBadRequest }
def ErrInvalidApplicationRepoStrategy : Error := { ID := 155, Status := http.StatusBadRequest }
def ErrWorkflowNodeRootUpdate : Error := { ID := 156, Status := http.StatusBadRequest }
def ErrWorkflowAlreadyAsCode : Error := { ID := 157, Status := http.StatusBadRequest }
def ErrNoDBMigrationID : Error := { ID := 158, Status := http.StatusNotFound }
def ErrCannotParseTemplate : Error := { ID := 159, Status := http.StatusBadRequest }
def ErrGroupNotFoundInProject : Error := { ID := 160, Status := http.StatusBadRequest }
def ErrGroupNotFoundInWorkflow : Error := { ID := 161, Status := http.StatusBadRequest }
def ErrWorkflowPermInsufficient : Error := { ID := 162, Status := http.StatusBadRequest }
def ErrApplicationUsedByWorkflow : Error := { ID := 163, Status := http.StatusBadRequest }
def ErrLocked : Error := { ID := 164, Status := http.StatusConflict }
def ErrInvalidJobRequirementWorkerModelPermission : Error := { ID := 165, Status := http.StatusBadRequest }
def ErrInvalidJobRequirementWorkerModelCapabilitites : Error := { ID := 166, Status := http.StatusBadRequest }
def ErrMalformattedStep : Error := { ID := 167, Status := http.StatusBadRequest }
def ErrVCSUsedByApplication : Error := { ID := 168, Status := http.StatusBadRequest }
def ErrApplicationAsCodeOverride : Error := { ID := 169, Status := http.StatusForbidden }
def ErrPipelineAsCodeOverride : Error := { ID := 170, Status := http.StatusForbidden }
def ErrEnvironmentAsCodeOverride : Error := { ID := 171, Status := http.StatusForbidden }
def ErrWorkflowAsCodeOverride : Error := { ID := 172, Status := http.StatusForbidden }
def ErrProjectSecretDataUnknown : Error := { ID := 173, Status := http.StatusBadRequest }
def ErrApplicationMandatoryOnWorkflowAsCode : Error := { ID := 174, Status := http.StatusBadRequest }
def ErrInvalidPassword : Error := { ID := 175, Status := http.StatusBadRequest }
def ErrInvalidPayloadVariable : Error := { ID := 176, Status := http.StatusBadRequest }
def ErrRepositoryUsedByHook : Error := { ID := 177, Status := http.StatusForbidden }
def ErrResourceNotInProject : Error := { ID := 178, Status := http.StatusForbidden }
def ErrEnvironmentNotFound : Error := { ID := 179, Status := http.StatusBadRequest }
def ErrIntegrationtNotFound : Error := { ID := 180, Status := http.StatusBadRequest }
def ErrBadBrokerConfiguration : Error := { ID := 181, Status := http.StatusBadRequest }
def ErrSignupDisabled : Error := { ID := 182, Status := http.StatusForbidden }
def ErrUsernamePresent : Error := { ID := 183, Status := http.StatusBadRequest }
def ErrInvalidJobRequirementNetworkAccess : Error := { ID := 184, Status := http.StatusBadRequest }
def ErrInvalidWorkerModelNamePattern : Error := { ID := 185, Status := http.StatusBadRequest }
def ErrWorkflowAsCodeResync : Error := { ID := 186, Status := http.StatusForbidden }
def ErrWorkflowNodeNameDuplicate : Error := { ID := 187, Status := http.StatusBadRequest }
def ErrUnsupportedMediaType : Error := { ID := 188, Status := http.StatusUnsupportedMediaType }
def ErrNothingToPush : Error := { ID := 189, Status := http.StatusBadRequest }
def ErrWorkerErrorCommand : Error := { ID := 190, Status := http.StatusBadRequest }

/-- Every kind declared in the `var` block, in declaration order. -/
def declaredKinds : List Error :=
  [ErrUnknownError, ErrActionAlreadyUpdated, ErrNoAction,
   ErrActionLoop, ErrInvalidID, ErrInvalidProject,
   ErrInvalidProjectKey, ErrProjectHasPipeline, ErrProjectHasApplication,
   ErrUnauthorized, ErrForbidden, ErrPipelineNotFound,
   ErrPipelineNotAttached, ErrNoEnvironmentProvided, ErrEnvironmentProvided,
   ErrUnknownEnv, ErrEnvironmentExist, ErrNoPipelineBuild,
   ErrInvalidUsername, ErrInvalidEmail, ErrGroupPresent,
   ErrInvalidName, ErrInvalidUser, ErrBuildArchived,
   ErrNoEnvironment, ErrModelNameExist, ErrNoProject,
   ErrVariableExists, ErrInvalidGroupPattern, ErrGroupExists,
   ErrNotEnoughAdmin, ErrInvalidProjectName, ErrInvalidApplicationPattern,
   ErrInvalidPipelinePattern, ErrNotFound, ErrNoHook,
   ErrNoAttachedPipeline, ErrNoReposManager, ErrNoReposManagerAuth,
   ErrNoReposManagerClientAuth, ErrRepoNotFound, ErrSecretStoreUnreachable,
   ErrSecretKeyFetchFailed, ErrInvalidGoPath, ErrCommitsFetchFailed,
   ErrInvalidSecretFormat, ErrNoPreviousSuccess, ErrNoPermExecution,
   ErrSessionNotFound, ErrInvalidSecretValue, ErrPipelineHasApplication,
   ErrNoDirectSecretUse, ErrNoBranch, ErrLDAPConn,
   ErrServiceUnavailable, ErrParseUserNotification, ErrNotSupportedUserNotification,
   ErrGroupNeedAdmin, ErrGroupNeedWrite, ErrNoVariable,
   ErrPluginInvalid, ErrApplicationExist, ErrBranchNameNotProvided,
   ErrInfiniteTriggerLoop, ErrInvalidResetUser, ErrUserConflict,
   ErrWrongRequest, ErrAlreadyExist, ErrInvalidType,
   ErrParentApplicationAndPipelineMandatory, ErrNoParentBuildFound, ErrParameterExists,
   ErrNoHatchery, ErrInvalidWorkerStatus, ErrInvalidToken,
   ErrAppBuildingPipelines, ErrInvalidTimezone, ErrEnvironmentCannotBeDeleted,
   ErrInvalidPipeline, ErrKeyNotFound, ErrPipelineAlreadyExists,
   ErrJobAlreadyBooked, ErrPipelineBuildNotFound, ErrAlreadyTaken,
   ErrWorkflowNodeNotFound, ErrWorkflowInvalidRoot, ErrWorkflowNodeRef,
   ErrWorkflowInvalid, ErrWorkflowNodeJoinNotFound, ErrInvalidJobRequirement,
   ErrNotImplemented, ErrParameterNotExists, ErrUnknownKeyType,
   ErrInvalidKeyPattern, ErrWebhookConfigDoesNotMatch, ErrPipelineUsedByWorkflow,
   ErrMethodNotAllowed, ErrInvalidNodeNamePattern, ErrWorkflowNodeParentNotRun,
   ErrHookNotFound, ErrDefaultGroupPermission, ErrLastGroupWithWriteRole,
   ErrInvalidEmailDomain, ErrWorkflowNodeRunJobNotFound, ErrBuiltinKeyNotFound,
   ErrStepNotFound, ErrWorkerModelAlreadyBooked, ErrConditionsNotOk,
   ErrDownloadInvalidOS, ErrDownloadInvalidArch, ErrDownloadInvalidName,
   ErrDownloadDoesNotExist, ErrTokenNotFound, ErrWorkflowNotificationNodeRef,
   ErrInvalidJobRequirementDuplicateModel, ErrInvalidJobRequirementDuplicateHostname, ErrInvalidKeyName,
   ErrRepoOperationTimeout, ErrInvalidGitBranch, ErrInvalidFavoriteType,
   ErrUnsupportedOSArchPlugin, ErrNoBroadcast, ErrBroadcastNotFound,
   ErrInvalidPatternModel, ErrWorkerModelNoAdmin, ErrWorkerModelNoPattern,
   ErrJobNotBooked, ErrUserNotFound, ErrInvalidNumber,
   ErrKeyAlreadyExist, ErrPipelineNameImport, ErrWorkflowNameImport,
   ErrIconBadFormat, ErrIconBadSize, ErrWorkflowConditionBadOperator,
   ErrColorBadFormat, ErrInvalidHookConfiguration, ErrWorkerModelDeploymentFailed,
   ErrJobLocked, ErrWorkflowNodeRunLocked, ErrInvalidData,
   ErrInvalidGroupAdmin, ErrInvalidGroupMember, ErrWorkflowNotGenerated,
   ErrAlreadyLatestTemplate, ErrInvalidNodeDefaultPayload, ErrInvalidApplicationRepoStrategy,
   ErrWorkflowNodeRootUpdate, ErrWorkflowAlreadyAsCode, ErrNoDBMigrationID,
   ErrCannotParseTemplate, ErrGroupNotFoundInProject, ErrGroupNotFoundInWorkflow,
   ErrWorkflowPermInsufficient, ErrApplicationUsedByWorkflow, ErrLocked,
   ErrInvalidJobRequirementWorkerModelPermission, ErrInvalidJobRequirementWorkerModelCapabilitites, ErrMalformattedStep,
   ErrVCSUsedByApplication, ErrApplicationAsCodeOverride, ErrPipelineAsCodeOverride,
   ErrEnvironmentAsCodeOverride, ErrWorkflowAsCodeOverride, ErrProjectSecretDataUnknown,
   ErrApplicationMandatoryOnWorkflowAsCode, ErrInvalidPassword, ErrInvalidPayloadVariable,
   ErrRepositoryUsedByHook, ErrResourceNotInProject, ErrEnvironmentNotFound,
   ErrIntegrationtNotFound, ErrBadBrokerConfiguration, ErrSignupDisabled,
   ErrUsernamePresent, ErrInvalidJobRequirementNetworkAccess, ErrInvalidWorkerModelNamePattern,
   ErrWorkflowAsCodeResync, ErrWorkflowNodeNameDuplicate, ErrUnsupportedMediaType,
   ErrNothingToPush, ErrWorkerErrorCommand]

/-- The `map[int]string` literal `errorsAmericanEnglish`, as an association list in source order (a Go map literal has no duplicate keys). -/
def errorsAmericanEnglish : List (Int × String) :=
  [(ErrUnknownError.ID, "internal server error"),
   (ErrActionAlreadyUpdated.ID, "action status already updated"),
   (ErrNoAction.ID, "action does not exist"),
   (ErrActionLoop.ID, "action definition contains a recursive loop"),
   (ErrInvalidID.ID, "ID must be an integer"),
   (ErrInvalidProject.ID, "project not provided"),
   (ErrInvalidProjectKey.ID, "project key must contain only upper-case alphanumerical characters"),
   (ErrProjectHasPipeline.ID, "project contains a pipeline"),
   (ErrProjectHasApplication.ID, "project contains an application"),
   (ErrUnauthorized.ID, "not authenticated"),
   (ErrForbidden.ID, "forbidden"),
   (ErrPipelineNotFound.ID, "pipeline does not exist"),
   (ErrPipelineNotAttached.ID, "pipeline is not attached to application"),
   (ErrNoEnvironmentProvided.ID, "deployment and testing pipelines require an environnement"),
   (ErrEnvironmentProvided.ID, "build pipeline are not compatible with environment usage"),
   (ErrUnknownEnv.ID, "unknown environment"),
   (ErrEnvironmentExist.ID, "environment already exists"),
   (ErrNoPipelineBuild.ID, "this pipeline build does not exist"),
   (ErrInvalidUsername.ID, "invalid username"),
   (ErrUsernamePresent.ID, "username already present"),
   (ErrInvalidEmail.ID, "invalid email"),
   (ErrGroupPresent.ID, "group already present"),
   (ErrInvalidName.ID, "invalid name"),
   (ErrInvalidUser.ID, "invalid user or password"),
   (ErrBuildArchived.ID, "Cannot restart this build because it has been archived"),
   (ErrNoEnvironment.ID, "environment does not exist"),
   (ErrModelNameExist.ID, "worker model name already used"),
   (ErrNoProject.ID, "project does not exist"),
   (ErrVariableExists.ID, "variable already exists"),
   (ErrInvalidGroupPattern.ID, "group name must respect \x27^[a-zA-Z0-9.-_-]\x7b1,\x7d$\x27"),
   (ErrGroupExists.ID, "group already exists"),
   (ErrNotEnoughAdmin.ID, "not enough group admin left"),
   (ErrInvalidProjectName.ID, "project name must not be empty"),
   (ErrInvalidApplicationPattern.ID, "application name must respect \x27^[a-zA-Z0-9.-_-]\x7b1,\x7d$\x27"),
   (ErrInvalidWorkerModelNamePattern.ID, "worker model name must respect \x27^[a-zA-Z0-9.-_-]\x7b1,\x7d$\x27"),
   (ErrInvalidPipelinePattern.ID, "pipeline name must respect \x27^[a-zA-Z0-9.-_-]\x7b1,\x7d$\x27"),
   (ErrNotFound.ID, "resource not found"),
   (ErrNoHook.ID, "hook not found"),
   (ErrNoAttachedPipeline.ID, "pipeline not attached to the application"),
   (ErrNoReposManager.ID, "repositories manager not found"),
   (ErrNoReposManagerAuth.ID, "CDS authentication error, please contact CDS administrator"),
   (ErrNoReposManagerClientAuth.ID, "Repository manager authentication error, please unlink and relink your CDS Project to the repository manager"),
   (ErrRepoNotFound.ID, "repository not found"),
   (ErrSecretStoreUnreachable.ID, "could not reach secret backend to fetch secret key"),
   (ErrSecretKeyFetchFailed.ID, "error while fetching key from secret backend"),
   (ErrCommitsFetchFailed.ID, "unable to retrieves commits"),
   (ErrInvalidGoPath.ID, "invalid gopath"),
   (ErrInvalidSecretFormat.ID, "cannot decrypt secret, invalid format"),
   (ErrSessionNotFound.ID, "invalid session"),
   (ErrNoPreviousSuccess.ID, "there is no previous success version for this pipeline"),
   (ErrNoPermExecution.ID, "you don\x27t have execution right"),
   (ErrInvalidSecretValue.ID, "secret value not specified"),
   (ErrPipelineHasApplication.ID, "pipeline still used by an application"),
   (ErrNoDirectSecretUse.ID, "usage of \x27password\x27 parameter is not allowed"),
   (ErrNoBranch.ID, "branch not found in repository"),
   (ErrLDAPConn.ID, "LDAP server connection error"),
   (ErrServiceUnavailable.ID, "service currently unavailable or down for maintenance"),
   (ErrParseUserNotification.ID, "unrecognized user notification settings"),
   (ErrNotSupportedUserNotification.ID, "unsupported user notification"),
   (ErrGroupNeedAdmin.ID, "need at least 1 administrator"),
   (ErrGroupNeedWrite.ID, "need at least 1 group with write permission"),
   (ErrNoVariable.ID, "variable not found"),
   (ErrPluginInvalid.ID, "invalid plugin"),
   (ErrApplicationExist.ID, "application already exists"),
   (ErrBranchNameNotProvided.ID, "git.branch or git.tag parameter must be provided"),
   (ErrInfiniteTriggerLoop.ID, "infinite trigger loop are forbidden"),
   (ErrInvalidResetUser.ID, "invalid user or email"),
   (ErrUserConflict.ID, "this user already exists"),
   (ErrWrongRequest.ID, "wrong request"),
   (ErrAlreadyExist.ID, "already exists"),
   (ErrInvalidType.ID, "invalid type"),
   (ErrParentApplicationAndPipelineMandatory.ID, "parent application and pipeline are mandatory"),
   (ErrNoParentBuildFound.ID, "no parent build found"),
   (ErrParameterExists.ID, "parameter already exists"),
   (ErrNoHatchery.ID, "No hatchery found"),
   (ErrInvalidWorkerStatus.ID, "Worker status is invalid"),
   (ErrInvalidToken.ID, "Invalid token"),
   (ErrAppBuildingPipelines.ID, "Cannot delete application, there are building pipelines"),
   (ErrInvalidTimezone.ID, "Invalid timezone"),
   (ErrEnvironmentCannotBeDeleted.ID, "Environment cannot be deleted. It is still in used"),
   (ErrInvalidPipeline.ID, "Invalid pipeline"),
   (ErrKeyNotFound.ID, "Key not found"),
   (ErrPipelineAlreadyExists.ID, "Pipeline already exists"),
   (ErrJobAlreadyBooked.ID, "Job already booked"),
   (ErrPipelineBuildNotFound.ID, "Pipeline build not found"),
   (ErrAlreadyTaken.ID, "This job is already taken by another worker"),
   (ErrWorkflowNodeNotFound.ID, "Workflow node not found"),
   (ErrWorkflowInvalidRoot.ID, "Invalid workflow root"),
   (ErrWorkflowNodeRef.ID, "Invalid workflow node reference"),
   (ErrWorkflowInvalid.ID, "Invalid workflow"),
   (ErrWorkflowNodeJoinNotFound.ID, "Workflow node join not found"),
   (ErrInvalidJobRequirement.ID, "Invalid job requirement"),
   (ErrNotImplemented.ID, "This functionality isn\x27t implemented"),
   (ErrParameterNotExists.ID, "This parameter doesn\x27t exist"),
   (ErrUnknownKeyType.ID, "Unknown key type"),
   (ErrInvalidKeyPattern.ID, "key name must respect the following pattern: \x27^[a-zA-Z0-9.-_-]\x7b1,\x7d$\x27"),
   (ErrWebhookConfigDoesNotMatch.ID, "Webhook config does not match"),
   (ErrPipelineUsedByWorkflow.ID, "Pipeline still used by a workflow"),
   (ErrMethodNotAllowed.ID, "Method not allowed"),
   (ErrInvalidNodeNamePattern.ID, "Node name must respect the following pattern: \x27^[a-zA-Z0-9.-_-]\x7b1,\x7d$\x27"),
   (ErrWorkflowNodeParentNotRun.ID, "Cannot run a node if their parents have never been launched"),
   (ErrDefaultGroupPermission.ID, "Only read permission is allowed to default group"),
   (ErrLastGroupWithWriteRole.ID, "The last group must have the write permission"),
   (ErrInvalidEmailDomain.ID, "Invalid domain"),
   (ErrWorkflowNodeRunJobNotFound.ID, "Job not found"),
   (ErrBuiltinKeyNotFound.ID, "Encryption Key not found"),
   (ErrStepNotFound.ID, "Step not found"),
   (ErrWorkerModelAlreadyBooked.ID, "Worker Model already booked"),
   (ErrConditionsNotOk.ID, "Cannot run this pipeline because launch conditions aren\x27t ok"),
   (ErrDownloadInvalidOS.ID, "OS Invalid. Should be linux, darwin, freebsd or windows"),
   (ErrDownloadInvalidArch.ID, "Architecture invalid. Should be 386, i386, i686, amd64, x86_64 or arm (depends on OS)"),
   (ErrDownloadInvalidName.ID, "Invalid name"),
   (ErrDownloadDoesNotExist.ID, "File does not exist"),
   (ErrTokenNotFound.ID, "Token does not exist"),
   (ErrWorkflowNotificationNodeRef.ID, "An invalid workflow node reference has been found, if you want to delete a pipeline from your workflow check if this pipeline isn\x27t referenced in your notifications list"),
   (ErrInvalidJobRequirementDuplicateModel.ID, "Invalid job requirements: you can\x27t select multiple worker models"),
   (ErrInvalidJobRequirementDuplicateHostname.ID, "Invalid job requirements: you can\x27t select multiple hostname"),
   (ErrInvalidKeyName.ID, "Invalid key name. Application key must have prefix \x27app-\x27; environment key must have prefix \x27env-\x27"),
   (ErrRepoOperationTimeout.ID, "Analyzing repository took too much time"),
   (ErrInvalidGitBranch.ID, "Invalid git.branch value, you cannot have an empty git.branch value in your default payload"),
   (ErrInvalidFavoriteType.ID, "Invalid favorite type: must be \x27project\x27 or \x27workflow\x27"),
   (ErrUnsupportedOSArchPlugin.ID, "Unsupported os/architecture for this plugin"),
   (ErrNoBroadcast.ID, "Invalid broadcast"),
   (ErrBroadcastNotFound.ID, "Broadcast not found"),
   (ErrInvalidPatternModel.ID, "Invalid worker model pattern: name, type and main command are mandatory"),
   (ErrWorkerModelNoAdmin.ID, "Forbidden: you are neither a CDS administrator or the administrator for the group in which you want to create the worker model"),
   (ErrWorkerModelNoPattern.ID, "Forbidden: you must select a pattern of configuration scripts. If you have specific needs, please contact a CDS administrator"),
   (ErrJobNotBooked.ID, "Job already released"),
   (ErrUserNotFound.ID, "User not found"),
   (ErrInvalidNumber.ID, "Invalid number"),
   (ErrKeyAlreadyExist.ID, "Key already exists"),
   (ErrPipelineNameImport.ID, "Pipeline name doesn\x27t correspond in your code"),
   (ErrWorkflowNameImport.ID, "Workflow name doesn\x27t correspond in your code"),
   (ErrIconBadFormat.ID, "Bad icon format. Must be an image"),
   (ErrIconBadSize.ID, "Bad icon size. Must be lower than 100Ko"),
   (ErrWorkflowConditionBadOperator.ID, "Your run conditions have bad operator"),
   (ErrColorBadFormat.ID, "The format of color isn\x27t correct. You must use hexadecimal format (example: #FFFF)"),
   (ErrInvalidHookConfiguration.ID, "Invalid hook configuration"),
   (ErrInvalidData.ID, "Cannot validate given data"),
   (ErrInvalidGroupAdmin.ID, "User is not a group\x27s admin"),
   (ErrInvalidGroupMember.ID, "User is not a group\x27s member"),
   (ErrWorkflowNotGenerated.ID, "Workflow was not generated by a template"),
   (ErrInvalidNodeDefaultPayload.ID, "Workflow node which isn\x27t a root node cannot have a default payload"),
   (ErrInvalidApplicationRepoStrategy.ID, "The repository strategy for your application is not correct"),
   (ErrWorkflowNodeRootUpdate.ID, "Unable to update/delete the root node of your workflow"),
   (ErrWorkflowAlreadyAsCode.ID, "Workflow is already as-code or there is already a pull-request to transform it"),
   (ErrNoDBMigrationID.ID, "ID does not exist in table gorp_migration"),
   (ErrCannotParseTemplate.ID, "Cannot parse workflow template"),
   (ErrGroupNotFoundInProject.ID, "Cannot add this permission group on your workflow because this group is not already in the project\x27s permissions"),
   (ErrGroupNotFoundInWorkflow.ID, "Cannot add this permission group on your workflow node because this group is not already your workflow\x27s permissions"),
   (ErrWorkflowPermInsufficient.ID, "Cannot add this permission group on your workflow because you can\x27t have less rights than rights in your project when you are in RWX"),
   (ErrApplicationUsedByWorkflow.ID, "Application still used by a workflow"),
   (ErrLocked.ID, "Resource locked"),
   (ErrInvalidJobRequirementWorkerModelPermission.ID, "Invalid job requirements: unable to use worker model due to permissions"),
   (ErrInvalidJobRequirementWorkerModelCapabilitites.ID, "Invalid job requirements: the worker model doesn\x27t match with the binary requirements"),
   (ErrMalformattedStep.ID, "Malformatted step"),
   (ErrVCSUsedByApplication.ID, "Repository manager still used by an application"),
   (ErrApplicationAsCodeOverride.ID, "You cannot override application from this repository"),
   (ErrPipelineAsCodeOverride.ID, "You cannot override pipeline from this repository"),
   (ErrEnvironmentAsCodeOverride.ID, "You cannot override environment from this repository"),
   (ErrWorkflowAsCodeOverride.ID, "You cannot override workflow from this repository"),
   (ErrProjectSecretDataUnknown.ID, "Invalid encrypted data"),
   (ErrApplicationMandatoryOnWorkflowAsCode.ID, "An application linked to a git repository is mandatory on the workflow root"),
   (ErrInvalidPayloadVariable.ID, "Your payload cannot contain keys like cds.*"),
   (ErrInvalidPassword.ID, "Your value of type password isn\x27t correct"),
   (ErrRepositoryUsedByHook.ID, "There is still a repository webhook on this repository"),
   (ErrResourceNotInProject.ID, "The resource is not attached to the project"),
   (ErrEnvironmentNotFound.ID, "Environment not found "),
   (ErrIntegrationtNotFound.ID, "Integration not found"),
   (ErrSignupDisabled.ID, "Sign up is disabled for target consumer type"),
   (ErrBadBrokerConfiguration.ID, "Cannot connect to the broker of your event integration. Check your configuration"),
   (ErrInvalidJobRequirementNetworkAccess.ID, "Invalid job requirement: network requirement must contains \x27:\x27. Example: golang.org:http, golang.org:443"),
   (ErrWorkflowAsCodeResync.ID, "You cannot resynchronize an as-code workflow"),
   (ErrWorkflowNodeNameDuplicate.ID, "You cannot have same name for different pipelines in your workflow"),
   (ErrUnsupportedMediaType.ID, "Request format invalid"),
   (ErrNothingToPush.ID, "No diff to push"),
   (ErrWorkerErrorCommand.ID, "Worker command in error")]

/-- The `map[int]string` literal `errorsFrench`, as an association list in source order. -/
def errorsFrench : List (Int × String) :=
  [(ErrUnknownError.ID, "erreur interne"),
   (ErrActionAlreadyUpdated.ID, "le status de l\x27action a d??j?? ??t?? mis ?? jour"),
   (ErrNoAction.ID, "l\x27action n\x27existe pas"),
   (ErrActionLoop.ID, "la d??finition de l\x27action contient une boucle r??cursive"),
   (ErrInvalidID.ID, "l\x27ID doit ??tre un nombre entier"),
   (ErrInvalidProject.ID, "projet manquant"),
   (ErrInvalidProjectKey.ID, "la clef de project doit uniquement contenir des lettres majuscules et des chiffres"),
   (ErrProjectHasPipeline.ID, "le project contient un pipeline"),
   (ErrProjectHasApplication.ID, "le project contient une application"),
   (ErrUnauthorized.ID, "authentification invalide"),
   (ErrForbidden.ID, "acc??s refus??"),
   (ErrPipelineNotFound.ID, "le pipeline n\x27existe pas"),
   (ErrPipelineNotAttached.ID, "le pipeline n\x27est pas li?? ?? l\x27application"),
   (ErrNoEnvironmentProvided.ID, "les pipelines de d??ploiement et de tests requi??rent un environnement"),
   (ErrEnvironmentProvided.ID, "une pipeline de build ne n??cessite pas d\x27environnement"),
   (ErrUnknownEnv.ID, "environnement inconnu"),
   (ErrEnvironmentExist.ID, "l\x27environnement existe"),
   (ErrNoPipelineBuild.ID, "ce build n\x27existe pas"),
   (ErrInvalidUsername.ID, "nom d\x27utilisateur invalide"),
   (ErrUsernamePresent.ID, "le nom d\x27utilisateur est d??j?? pr??sent"),
   (ErrInvalidEmail.ID, "addresse email invalide"),
   (ErrGroupPresent.ID, "le groupe est d??j?? pr??sent"),
   (ErrInvalidName.ID, "le nom est invalide"),
   (ErrInvalidUser.ID, "mauvaise combinaison compte/mot de passe utilisateur"),
   (ErrBuildArchived.ID, "impossible de relancer ce build car il a ??t?? archiv??"),
   (ErrNoEnvironment.ID, "l\x27environement n\x27existe pas"),
   (ErrModelNameExist.ID, "le nom du mod??le de worker est d??j?? utilis??"),
   (ErrNoProject.ID, "le projet n\x27existe pas"),
   (ErrVariableExists.ID, "la variable existe d??j??"),
   (ErrInvalidGroupPattern.ID, "nom de groupe invalide \x27^[a-zA-Z0-9.-_-]\x7b1,\x7d$\x27"),
   (ErrGroupExists.ID, "le groupe existe d??j??"),
   (ErrNotEnoughAdmin.ID, "pas assez d\x27admin restant"),
   (ErrInvalidProjectName.ID, "nom de project vide non autoris??"),
   (ErrInvalidApplicationPattern.ID, "nom de l\x27application invalide \x27^[a-zA-Z0-9.-_-]\x7b1,\x7d$\x27"),
   (ErrInvalidWorkerModelNamePattern.ID, "nom du worker model invalide \x27^[a-zA-Z0-9.-_-]\x7b1,\x7d$\x27"),
   (ErrInvalidPipelinePattern.ID, "nom du pipeline invalide \x27^[a-zA-Z0-9.-_-]\x7b1,\x7d$\x27"),
   (ErrNotFound.ID, "la ressource n\x27existe pas"),
   (ErrNoHook.ID, "le hook n\x27existe pas"),
   (ErrNoAttachedPipeline.ID, "le pipeline n\x27est pas li?? ?? l\x27application"),
   (ErrNoReposManager.ID, "le gestionnaire de d??p??t n\x27existe pas"),
   (ErrNoReposManagerAuth.ID, "connexion de CDS au gestionnaire de d??p??t refus??e, merci de contacter l\x27administrateur"),
   (ErrNoReposManagerClientAuth.ID, "connexion au gestionnaire de d??p??ts refus??e, merci de d??tacher et r??-attacher le repository manager sur votre projet CDS"),
   (ErrRepoNotFound.ID, "le d??p??t n\x27existe pas"),
   (ErrSecretStoreUnreachable.ID, "impossible de contacter vault"),
   (ErrSecretKeyFetchFailed.ID, "erreur pendnat la r??cuperation de la clef de chiffrement"),
   (ErrCommitsFetchFailed.ID, "impossible de retrouver les changements"),
   (ErrInvalidGoPath.ID, "le gopath n\x27est pas valide"),
   (ErrInvalidSecretFormat.ID, "impossibe de dechiffrer le secret, format invalide"),
   (ErrSessionNotFound.ID, "session invalide"),
   (ErrNoPreviousSuccess.ID, "il n\x27y a aucune pr??c??dente version en succ??s pour ce pipeline"),
   (ErrNoPermExecution.ID, "vous n\x27avez pas les droits d\x27??x??cution"),
   (ErrInvalidSecretValue.ID, "valeur du secret non specifi??e"),
   (ErrPipelineHasApplication.ID, "le pipeline est utilis?? par une application"),
   (ErrNoDirectSecretUse.ID, "l\x27utilisation du type de param??tre \x27password\x27 est impossible"),
   (ErrNoBranch.ID, "la branche est introuvable dans le d??p??t"),
   (ErrLDAPConn.ID, "erreur de connexion au serveur LDAP"),
   (ErrServiceUnavailable.ID, "service temporairement indisponible ou en maintenance"),
   (ErrParseUserNotification.ID, "notification non reconnue"),
   (ErrNotSupportedUserNotification.ID, "notification non support??e"),
   (ErrGroupNeedAdmin.ID, "il faut au moins 1 administrateur"),
   (ErrGroupNeedWrite.ID, "il faut au moins 1 groupe avec les droits d\x27??criture"),
   (ErrNoVariable.ID, "la variable n\x27existe pas"),
   (ErrPluginInvalid.ID, "plugin non valide"),
   (ErrApplicationExist.ID, "une application du m??me nom existe d??j??"),
   (ErrBranchNameNotProvided.ID, "le param??tre git.branch ou git.tag est obligatoire"),
   (ErrInfiniteTriggerLoop.ID, "cr??ation d\x27une boucle de trigger infinie interdite"),
   (ErrInvalidResetUser.ID, "mauvaise combinaison compte/mail utilisateur"),
   (ErrUserConflict.ID, "cet utilisateur existe deja"),
   (ErrWrongRequest.ID, "la requ??te est incorrecte"),
   (ErrAlreadyExist.ID, "conflit"),
   (ErrInvalidType.ID, "type non valide"),
   (ErrParentApplicationAndPipelineMandatory.ID, "application et pipeline parents obligatoires"),
   (ErrNoParentBuildFound.ID, "aucun build parent n\x27a pu ??tre trouv??"),
   (ErrParameterExists.ID, "le param??tre existe d??j??"),
   (ErrNoHatchery.ID, "La hatchery n\x27existe pas"),
   (ErrInvalidWorkerStatus.ID, "Le status du worker est incorrect"),
   (ErrInvalidToken.ID, "Token non valide"),
   (ErrAppBuildingPipelines.ID, "Impossible de supprimer l\x27application, il y a pipelines en cours"),
   (ErrInvalidTimezone.ID, "Fuseau horaire invalide"),
   (ErrEnvironmentCannotBeDeleted.ID, "L\x27environement ne peut etre supprim??. Il est encore utilis??."),
   (ErrInvalidPipeline.ID, "Pipeline invalide"),
   (ErrKeyNotFound.ID, "Cl?? introuvable"),
   (ErrPipelineAlreadyExists.ID, "Le pipeline existe d??j??"),
   (ErrJobAlreadyBooked.ID, "Le job est d??j?? r??serv??"),
   (ErrPipelineBuildNotFound.ID, "Le pipeline build n\x27a pu ??tre trouv??"),
   (ErrAlreadyTaken.ID, "Ce job est d??j?? en cours de traitement par un autre worker"),
   (ErrWorkflowNodeNotFound.ID, "Noeud de Workflow introuvable"),
   (ErrWorkflowInvalidRoot.ID, "Racine de Workflow invalide"),
   (ErrWorkflowNodeRef.ID, "R??f??rence de noeud de workflow invalide"),
   (ErrWorkflowInvalid.ID, "Workflow invalide"),
   (ErrWorkflowNodeJoinNotFound.ID, "Jointure introuvable"),
   (ErrInvalidJobRequirement.ID, "Pr??-requis de Job invalide"),
   (ErrNotImplemented.ID, "La fonctionnalit?? n\x27est pas impl??ment??e"),
   (ErrParameterNotExists.ID, "Ce param??tre n\x27existe pas"),
   (ErrUnknownKeyType.ID, "Le type de cl?? n\x27est pas connu"),
   (ErrInvalidKeyPattern.ID, "le nom de la cl?? doit respecter le pattern suivant; \x27^[a-zA-Z0-9.-_-]\x7b1,\x7d$\x27"),
   (ErrWebhookConfigDoesNotMatch.ID, "la configuration du webhook ne correspond pas"),
   (ErrPipelineUsedByWorkflow.ID, "Le pipeline est utilis?? par un workflow"),
   (ErrMethodNotAllowed.ID, "La m??thode n\x27est pas autoris??e"),
   (ErrInvalidNodeNamePattern.ID, "Le nom du noeud du workflow doit respecter le pattern suivant; \x27^[a-zA-Z0-9.-_-]\x7b1,\x7d$\x27"),
   (ErrWorkflowNodeParentNotRun.ID, "Il est interdit de lancer un noeuds si ses parents n\x27ont jamais ??t?? lanc??s"),
   (ErrDefaultGroupPermission.ID, "Le groupe par d??faut ne peut ??tre utilis?? qu\x27en lecture seule"),
   (ErrLastGroupWithWriteRole.ID, "Le dernier groupe doit avoir les droits d\x27??criture"),
   (ErrInvalidEmailDomain.ID, "Domaine invalide"),
   (ErrWorkflowNodeRunJobNotFound.ID, "Job non trouv??"),
   (ErrBuiltinKeyNotFound.ID, "Cl?? de chiffrage introuvable"),
   (ErrStepNotFound.ID, "Step introuvable"),
   (ErrWorkerModelAlreadyBooked.ID, "Le mod??le de worker est d??j?? r??serv??"),
   (ErrConditionsNotOk.ID, "Impossible de d??marrer ce pipeline car les conditions de lancement ne sont pas respect??es"),
   (ErrDownloadInvalidOS.ID, "OS invalide. L\x27OS doit ??tre linux, darwin, freebsd ou windows"),
   (ErrDownloadInvalidArch.ID, "Architecture invalide. L\x27architecture doit ??tre 386, i386, i686, amd64, x86_64 ou arm (d??pendant de l\x27OS)"),
   (ErrDownloadInvalidName.ID, "Nom invalide"),
   (ErrDownloadDoesNotExist.ID, "Le fichier n\x27existe pas"),
   (ErrTokenNotFound.ID, "Le token n\x27existe pas"),
   (ErrWorkflowNotificationNodeRef.ID, "Une r??f??rence de noeud de workflow est invalide dans vos notifications (si vous souhaitez supprimer un pipeline v??rifiez qu\x27il ne soit plus r??f??renc?? dans la liste de vos notifications)"),
   (ErrInvalidJobRequirementDuplicateModel.ID, "Pr??-requis de job invalides: vous ne pouvez pas s??l??ctionnez plusieurs mod??les de worker"),
   (ErrInvalidJobRequirementDuplicateHostname.ID, "Pr??-requis de job invalides: vous ne pouvez pas s??l??ctionnez plusieurs hostname"),
   (ErrInvalidKeyName.ID, "Nom de cl?? invalide. Les cl??s d\x27application doivent ??tre pr??fix??es par \x27app-\x27, les cl??s d\x27environnement doivent ??tre pr??fix??es par \x27env-\x27"),
   (ErrRepoOperationTimeout.ID, "L\x27analyse du d??p??t a pris trop de temps"),
   (ErrInvalidGitBranch.ID, "Valeur git.branch invalide, vous ne pouvez pas avoir de valeur git.branch avec une string vide dans votre payload par d??faut"),
   (ErrInvalidFavoriteType.ID, "Type de favori invalide: doit ??tre \x27projet\x27 ou \x27workflow\x27"),
   (ErrUnsupportedOSArchPlugin.ID, "OS/Architecture non support?? pour ce plugin"),
   (ErrNoBroadcast.ID, "Information invalide"),
   (ErrBroadcastNotFound.ID, "Information non trouv??e"),
   (ErrInvalidPatternModel.ID, "Pattern de mod??le de worker invalide: le nom, type et commande principale sont requis"),
   (ErrWorkerModelNoAdmin.ID, "Acc??s refus??: vous n\x27??tes ni un administrateur CDS ni un administrateur du groupe pour lequel vous tentez de cr??er votre mod??le"),
   (ErrWorkerModelNoPattern.ID, "Acc??s refus??: vous devez obligatoirement s??lectionner un pattern de script de configuration. Si vous souhaitez ajouter un pattern particulier, veuillez contacter un administrateur CDS"),
   (ErrJobNotBooked.ID, "Le job est d??j?? lib??r??"),
   (ErrUserNotFound.ID, "Utilisateur non trouv??"),
   (ErrInvalidNumber.ID, "Nombre non valide"),
   (ErrKeyAlreadyExist.ID, "La cl?? existe d??j??"),
   (ErrPipelineNameImport.ID, "Le nom du pipeline dans le code ne correspond pas au nom du pipeline que vous voulez ??diter"),
   (ErrWorkflowNameImport.ID, "Le nom du workflow dans le code ne correspond pas au nom du workflow que vous voulez ??diter"),
   (ErrIconBadFormat.ID, "Mauvais format d\x27ic??ne, doit ??tre une image"),
   (ErrIconBadSize.ID, "Taille de l\x27ic??ne trop importante. (max 100Ko)"),
   (ErrWorkflowConditionBadOperator.ID, "Op??rateur de condition de lancement incorrect"),
   (ErrColorBadFormat.ID, "Format de la couleur incorrect. Vous devez utiliser le format hexad??cimal (exemple: #FFFF)"),
   (ErrInvalidHookConfiguration.ID, "Configuration de hook invalide"),
   (ErrInvalidData.ID, "Impossible de valider les donn??es"),
   (ErrInvalidGroupAdmin.ID, "L\x27utilisateur n\x27est pas administrateur du groupe"),
   (ErrInvalidGroupMember.ID, "L\x27utilisateur n\x27est pas membre du groupe"),
   (ErrWorkflowNotGenerated.ID, "Le workflow n\x27a pas ??t?? g??n??r?? par un template"),
   (ErrInvalidNodeDefaultPayload.ID, "Le workflow est incorrect. Un payload par d??faut ne peut pas ??tre sur un pipeline autre que le premier du workflow"),
   (ErrInvalidApplicationRepoStrategy.ID, "La strat??gie de d??p??t (vcs) de l\x27application n\x27est pas correcte"),
   (ErrWorkflowNodeRootUpdate.ID, "Impossible de mettre ?? jour ou supprimer le noeud racine du workflow"),
   (ErrWorkflowAlreadyAsCode.ID, "Le workflow est d??j?? as-code ou il y a d??j?? une pull-request pour le transformer"),
   (ErrNoDBMigrationID.ID, "Cet id n\x27existe pas dans la table gorp_migrations"),
   (ErrCannotParseTemplate.ID, "Impossible de parser le mod??le de workflow"),
   (ErrGroupNotFoundInProject.ID, "Impossible d\x27ajouter ce groupe dans vos permissions de workflow car ce groupe n\x27est pas pr??sent dans les permissions de votre projet"),
   (ErrGroupNotFoundInWorkflow.ID, "Impossible d\x27ajouter ce groupe dans vos permissions de noeud du workflow car ce groupe n\x27est pas pr??sent dans les permissions de votre workflow"),
   (ErrWorkflowPermInsufficient.ID, "Impossible d\x27ajouter ce groupe dans vos permissions du workflow car ce groupe a des droits inf??rieurs (< RWX) ?? celui du workflow"),
   (ErrApplicationUsedByWorkflow.ID, "L\x27application est utilis??e par un workflow"),
   (ErrLocked.ID, "La ressource est verrouill??e"),
   (ErrInvalidJobRequirementWorkerModelPermission.ID, "Pr??-requis de job invalide: Mod??le de worker inutilisable en raison des permissions"),
   (ErrInvalidJobRequirementWorkerModelCapabilitites.ID, "Pr??-requis de job invalide: Le mod??le de worker ne dispose pas de binaires suffisants"),
   (ErrMalformattedStep.ID, "??tape malform??e"),
   (ErrVCSUsedByApplication.ID, "Le gestionnaire de d??pot est encore utilis?? par une application"),
   (ErrApplicationAsCodeOverride.ID, "Vous ne pouvez pas importer l\x27application depuis ce d??p??t"),
   (ErrPipelineAsCodeOverride.ID, "Vous ne pouvez pas importer le pipeline depuis ce d??p??t"),
   (ErrEnvironmentAsCodeOverride.ID, "Vous ne pouvez pas importer l\x27environment depuis ce d??p??t"),
   (ErrWorkflowAsCodeOverride.ID, "Vous ne pouvez pas importer le workflow depuis ce d??p??t"),
   (ErrProjectSecretDataUnknown.ID, "Donn??e chiffr??e non valide"),
   (ErrApplicationMandatoryOnWorkflowAsCode.ID, "Une application li??e ?? un d??p??t git est obligatoire ?? la racine du workflow"),
   (ErrInvalidPayloadVariable.ID, "Le payload du workflow ne peut pas contenir de cl??s nomm??es cds.*"),
   (ErrInvalidPassword.ID, "Votre valeur de type mot de passe n\x27est pas correct"),
   (ErrRepositoryUsedByHook.ID, "Il y a encore un repository webhook sur ce d??p??t"),
   (ErrResourceNotInProject.ID, "La ressource n\x27est pas li?? au projet"),
   (ErrEnvironmentNotFound.ID, "L\x27environnement n\x27existe pas"),
   (ErrIntegrationtNotFound.ID, "L\x27int??gration n\x27existe pas"),
   (ErrSignupDisabled.ID, "La cr??ation de compte est d??sactiv??e pour ce mode d\x27authentification."),
   (ErrBadBrokerConfiguration.ID, "Impossible de se connecter ?? votre int??gration de type ??v??nement. Veuillez v??rifier votre configuration"),
   (ErrInvalidJobRequirementNetworkAccess.ID, "Pr??-requis de job invalide: Le pr??-requis network doit contenir un \x27:\x27. Exemple: golang.org:http, golang.org:443"),
   (ErrWorkflowAsCodeResync.ID, "Impossible de resynchroniser un workflow en mode as-code"),
   (ErrWorkflowNodeNameDuplicate.ID, "Vous ne pouvez pas avoir plusieurs fois le m??me nom de pipeline dans votre workflow"),
   (ErrUnsupportedMediaType.ID, "Le format de la requ??te est invalide"),
   (ErrNothingToPush.ID, "Aucune modification ?? pousser"),
   (ErrWorkerErrorCommand.ID, "Commande du worker en erreur")]

/-- The package variable `errorsLanguages`. -/
def errorsLanguages : List (List (Int × String)) :=
  [errorsAmericanEnglish, errorsFrench]

/-! ## Library code the file calls -/

/-- A `language.Tag`: the two tags `Translate` compares with, and any other tag. -/
inductive language.Tag where
  | French
  | AmericanEnglish
  | other (name : String)
  deriving DecidableEq, Repr

/-- The library functions whose result depends on a caller-supplied format or
header: `fmt.Sprintf`, the message of the error built by `fmt.Errorf`,
`language.ParseAcceptLanguage` (`none` when it returns an error) and the
`Match` method of the package variable `matcher` (declared outside `error.go`). -/
structure Libs where
  Sprintf : String → List Any → String
  Errorf : String → List Any → String
  ParseAcceptLanguage : String → Option (List language.Tag)
  Match : List language.Tag → language.Tag

/-- The type `stack`: the captured program counters, each one given by the name
`runtime.FuncForPC(pc).Name()` reports for it. -/
abbrev stack := List String

/-- A value of interface type `error`.

* `nil`: the nil interface;
* `foreign msg`: an error of another package with no `Cause` method, whose
  `Error()` is `msg` (`errors.New`, `fmt.Errorf`, any library error);
* `bare e`: an `Error` value;
* `errorWithStack root stack httpError`: the struct `errorWithStack`; `stack`
  is a pointer, `none` is the nil pointer;
* `MultiError es`: a non-nil `*MultiError` pointing to the slice `es`;
* `nilMultiError`: a nil `*MultiError` pointer held in a (non-nil) interface
  value; the loops `range *e` over it panic;
* `withStack inner`: `*withStack` of `github.com/pkg/errors`;
* `withMessage cause msg`: `*withMessage` of `github.com/pkg/errors`. -/
inductive GoError where
  | nil
  | foreign (msg : String)
  | bare (e : Error)
  | errorWithStack (root : GoError) (stack : Option stack) (httpError : Error)
  | MultiError (es : List GoError)
  | nilMultiError
  | withStack (inner : GoError)
  | withMessage (cause : GoError) (msg : String)

/-- Type test `err.(errorWithStack)`. -/
def GoError.isErrorWithStack : GoError → Bool
  | .errorWithStack _ _ _ => true
  | _ => false

/-- Type test `err.(Error)`. -/
def GoError.isBare : GoError → Bool
  | .bare _ => true
  | _ => false

/-- Type test `err.(*MultiError)`: it succeeds for a nil pointer too. -/
def GoError.isMultiError : GoError → Bool
  | .MultiError _ => true
  | .nilMultiError => true
  | _ => false

mutual
/-- No loop `range *e` over the value meets a nil `*MultiError`: the value is
not a nil `*MultiError`, and when it is an aggregate neither are its elements,
the elements of its elements that are aggregates, and so on. -/
def GoError.derefOK : GoError → Bool
  | .nilMultiError => false
  | .MultiError es => GoError.derefOKAll es
  | _ => true
/-- Every element of the slice is `derefOK`. -/
def GoError.derefOKAll : List GoError → Bool
  | [] => true
  | e :: es => GoError.derefOK e && GoError.derefOKAll es
end

/-- Test `err == nil`. -/
def GoError.isNil : GoError → Bool
  | .nil => true
  | _ => false

/-- `errors.WithStack` of `github.com/pkg/errors`: nil for nil. -/
def errors.WithStack : GoError → GoError
  | .nil => .nil
  | err => .withStack err

/-- `errors.WithMessage` of `github.com/pkg/errors`: nil for nil. -/
def errors.WithMessage (err : GoError) (message : String) : GoError :=
  match err with
  | .nil => .nil
  | err => .withMessage err message

/-- `errors.Wrap` of `github.com/pkg/errors`: nil for nil, else a `withStack`
around a `withMessage`. -/
def errors.Wrap (err : GoError) (message : String) : GoError :=
  match err with
  | .nil => .nil
  | err => .withStack (.withMessage err message)

/-- `errors.New` of `github.com/pkg/errors`. -/
def errors.New (message : String) : GoError := .foreign message

/-- `errors.Cause` of `github.com/pkg/errors`: follows `Cause()` while the
error has that method. -/
def errors.Cause : GoError → GoError
  | .withStack inner => errors.Cause inner
  | .withMessage cause _ => errors.Cause cause
  | err => err

/-- `strings.Split` for a one-character separator, on the characters of the
string: always at least one piece. -/
def strings.Split (sep : Char) : List Char → List (List Char)
  | [] => [[]]
  | c :: cs =>
    if c = sep then [] :: strings.Split sep cs
    else match strings.Split sep cs with
      | [] => [[c]]
      | p :: ps => (c :: p) :: ps

/-- `strings.HasPrefix`. -/
def strings.hasPrefix (s pre : String) : Bool := pre.data.isPrefixOf s.data

/-- `StringSlice.Contains` (the type `StringSlice` is declared outside
`error.go`): membership of the value in the slice. -/
def StringSlice.Contains (s : List String) (value : String) : Bool := s.contains value

/-! ## Rendering of an `Error` -/

/-- Map index `m[k]` with the comma-ok form. -/
def mapGet (m : List (Int × String)) (k : Int) : Option String := m.lookup k

/-- Map index `m[k]` without comma-ok: the zero value when the key is absent. -/
def mapIndex (m : List (Int × String)) (k : Int) : String := (m.lookup k).getD ""

/-- The method `Error.Error`. -/
def Error.Error (e : sdk.Error) : String :=
  let message :=
    if e.Message ≠ "" then e.Message
    else match mapGet errorsAmericanEnglish e.ID with
      | some en => en
      | none => mapIndex errorsAmericanEnglish ErrUnknownError.ID
  if e.From ≠ "" then message ++ " (from: " ++ e.From ++ ")" else message

/-- The method `Error.printLight`. -/
def Error.printLight (e : sdk.Error) : String :=
  let message :=
    if e.Message ≠ "" then e.Message
    else match mapGet errorsAmericanEnglish e.ID with
      | some en => en
      | none => mapIndex errorsAmericanEnglish ErrUnknownError.ID
  if e.From ≠ "" then message ++ ": " ++ e.From else message

/-- The first two statements of `Error.Translate`: the header is parsed, a
header that does not parse is replaced by `[language.AmericanEnglish]`, and the
matcher picks the tag. -/
def Error.Translate.tag (R : Libs) (al : String) : language.Tag :=
  let acceptedLanguages :=
    match R.ParseAcceptLanguage al with
    | some tags => tags
    | none => [language.Tag.AmericanEnglish]
  R.Match acceptedLanguages

/-- The method `Error.Translate`. -/
def Error.Translate (R : Libs) (e : sdk.Error) (al : String) : String :=
  let r : Option String :=
    match Error.Translate.tag R al with
    | .French => mapGet errorsFrench e.ID
    | .AmericanEnglish => mapGet errorsAmericanEnglish e.ID
    | _ => mapGet errorsAmericanEnglish e.ID
  match r with
  | none => mapIndex errorsAmericanEnglish ErrUnknownError.ID
  | some msg => msg

/-! ## Stack capture and rendering -/

/-- The slice index `sp[i]`; `none` is the index-out-of-range panic. -/
def index? (sp : List (List Char)) (i : Nat) : Option (List Char) := sp.get? i

/-- The names `stack.String` never prints. -/
def ignoredNames : List String :=
  ["NewError", "NewErrorFrom", "WithStack", "WrapError", "Append"]

/-- The body of the loop of `stack.String` for one frame: `none` is a panic,
`some none` a frame that adds no name, `some (some n)` the appended name. -/
def frameName (name : String) : Option (Option String) :=
  if strings.hasPrefix name "github.com/ovh/cds/vendor" then some none
  else if strings.hasPrefix name "github.com/ovh/cds" then
    let sp := strings.Split '/' name.data
    let sp := strings.Split '.' (sp.getLastD [])
    match index? sp 1 with
    | none => none
    | some sp1 =>
      let name? : Option (List Char) :=
        if strings.hasPrefix (String.mk sp1) "(" then index? sp 2 else some sp1
      match name? with
      | none => none
      | some n =>
        if !(StringSlice.Contains ignoredNames (String.mk n)) then some (some (String.mk n))
        else some none
  else some none

/-- The loop of `stack.String`: the names appended, in capture order. -/
def stackNames : List String → Option (List String)
  | [] => some []
  | pc :: rest =>
    match frameName pc with
    | none => none
    | some r =>
      match stackNames rest with
      | none => none
      | some names =>
        match r with
        | none => some names
        | some n => some (n :: names)

/-- One iteration of the loop of `reverse`: `ss[i], ss[j] = ss[j], ss[i]`. -/
def reverse.swap (ss : List String) (i j : Nat) : List String :=
  (ss.set i (ss.getD j "")).set j (ss.getD i "")

/-- The loop of `reverse`, from index `i`, for `n` more iterations. -/
def reverse.loop (last : Nat) : Nat → Nat → List String → List String
  | 0, _, ss => ss
  | n + 1, i, ss => reverse.loop last n (i + 1) (reverse.swap ss i (last - i))

/-- The function `reverse`, which reverses the slice in place by `len(ss)/2`
swaps of `ss[i]` and `ss[last-i]`, `last = len(ss)-1`.  For the empty slice the
loop does not run, so the value of `last` is not used. -/
def reverse (ss : List String) : List String :=
  reverse.loop (ss.length - 1) (ss.length / 2) 0 ss

/-- The method `stack.String` on a non-nil receiver. -/
def stack.String (s : stack) : Option String :=
  match stackNames s with
  | none => none
  | some names => some (">".intercalate (reverse names))

/-- The function `callers`: at most `depth = 32` frames, starting at the caller
of the function that calls `callers` (`runtime.Callers(3, ...)`). -/
def callers (cs : List String) : Option stack := some (cs.take 32)

/-! ## Classified errors: rendering, extraction, classification -/

mutual
/-- The method `Error()` of an `error` value, by its dynamic type: `Error.Error`,
`errorWithStack.Error`, `MultiError.Error`, and the `Error` methods of the
`github.com/pkg/errors` wrappers.  `none` is a panic: a call on the nil
interface, the dereference of a nil `stack` or `*MultiError` pointer, or a panic
of `stack.String`.  The verb `%s` applied to an error prints its `Error()`. -/
def GoError.Error : GoError → Option String
  | .nil => none
  | .foreign msg => some msg
  | .bare e => some e.Error
  | .errorWithStack root stk httpError =>
    match GoError.Error root with
    | none => none
    | some r =>
      let cause := if r ≠ "" ∧ r ≠ httpError.From then " (caused by: " ++ r ++ ")" else ""
      match stk with
      | none => none
      | some s =>
        match stack.String s with
        | none => none
        | some st => some (st ++ ": " ++ httpError.Error ++ cause)
  | .MultiError es =>
    match GoError.ErrorAll es with
    | none => none
    | some ss => some (", ".intercalate ss)
  | .nilMultiError => none
  | .withStack inner => GoError.Error inner
  | .withMessage cause msg =>
    match GoError.Error cause with
    | none => none
    | some c => some (msg ++ ": " ++ c)
/-- The loop of `MultiError.Error`: `Error()` of every element, in order. -/
def GoError.ErrorAll : List GoError → Option (List String)
  | [] => some []
  | e :: es =>
    match GoError.Error e with
    | none => none
    | some s =>
      match GoError.ErrorAll es with
      | none => none
      | some ss => some (s :: ss)
end

mutual
/-- The function `ExtractHTTPError`; `none` is the panic of `range *e` on a nil
`*MultiError`, met as the source or in the loop over the elements. -/
def ExtractHTTPError (R : Libs) (source : GoError) (al : String) : Option Error :=
  let resolved : Option Error :=
    match source with
    | .nilMultiError => none
    | .MultiError es =>
      match ExtractHTTPError.loop R es al with
      | none => none
      | some ss => some { ErrUnknownError with Message := ", ".intercalate ss }
    | .errorWithStack _ _ h => some h
    | .bare e => some e
    | _ => some ErrUnknownError
  match resolved with
  | none => none
  | some httpError =>
    let httpError : Error :=
      if httpError.Status = 0 then { httpError with Status := ErrUnknownError.Status }
      else httpError
    let httpError : Error :=
      if httpError.Message = "" then { httpError with Message := httpError.Translate R al }
      else httpError
    some httpError
/-- The loop of `ExtractHTTPError` over the elements of a `*MultiError`:
`ExtractHTTPError((*e)[i], al).printLight()` for every `i`, in order; `none`
when one of the calls panics. -/
def ExtractHTTPError.loop (R : Libs) (es : List GoError) (al : String) :
    Option (List String) :=
  match es with
  | [] => some []
  | e :: rest =>
    match ExtractHTTPError R e al with
    | none => none
    | some h =>
      match ExtractHTTPError.loop R rest al with
      | none => none
      | some ss => some (h.printLight :: ss)
end

/-- The function `NewError`; `none` is a panic: `range *e` on a nil
`*MultiError`, or a panic of `ExtractHTTPError` or of `err.Error()`. -/
def NewError (R : Libs) (cs : List String) (httpError : Error) (err : GoError) :
    Option GoError :=
  match err with
  | .nil => some .nil
  | .errorWithStack root stack h =>
    some (.errorWithStack root stack { httpError with From := h.From })
  | .nilMultiError => none
  | .MultiError es =>
    match ExtractHTTPError.loop R es "" with
    | none => none
    | some ss =>
      some (.errorWithStack (errors.WithStack err) (callers cs)
        { httpError with From := ", ".intercalate ss })
  | err =>
    match err.Error with
    | none => none
    | some s =>
      some (.errorWithStack (errors.WithStack err) (callers cs) { httpError with From := s })

/-- The function `WithStack`. -/
def WithStack (R : Libs) (cs : List String) (err : GoError) : Option GoError :=
  match err with
  | .nil => some .nil
  | err =>
    let err? : Option GoError :=
      if err.isMultiError then NewError R ("github.com/ovh/cds/sdk.WithStack" :: cs) ErrUnknownError err
      else some err
    match err? with
    | none => none
    | some (.errorWithStack root stack h) => some (.errorWithStack root stack h)
    | some (.bare e) => some (.errorWithStack (errors.New "") (callers cs) e)
    | some err => some (.errorWithStack (errors.WithStack err) (callers cs) ErrUnknownError)

/-- The function `NewErrorWithStack`.  The type assertion
`WithStack(root).(errorWithStack)` panics when the value is not an
`errorWithStack`. -/
def NewErrorWithStack (R : Libs) (cs : List String) (root err : GoError) : Option GoError :=
  match WithStack R ("github.com/ovh/cds/sdk.NewErrorWithStack" :: cs) root with
  | some (.errorWithStack r s _) =>
    match err with
    | .errorWithStack _ _ h => some (.errorWithStack r s h)
    | .bare e => some (.errorWithStack r s e)
    | err =>
      match ExtractHTTPError R err "" with
      | none => none
      | some h => some (.errorWithStack r s h)
  | _ => none

/-- The function `NewErrorFrom` called on an `Error` value: the `case Error`
branch. -/
def NewErrorFrom.ofError (R : Libs) (cs : List String) (e : Error) (frm : String)
    (args : List Any) : Option GoError :=
  NewError R ("github.com/ovh/cds/sdk.NewErrorFrom" :: cs) e (.foreign (R.Errorf frm args))

/-- The function `NewErrorFrom`.  Its last line calls `NewErrorFrom` itself on
the value `ErrUnknownError`, which takes the `case Error` branch. -/
def NewErrorFrom (R : Libs) (cs : List String) (err : GoError) (frm : String)
    (args : List Any) : Option GoError :=
  match err with
  | .nil => some .nil
  | .errorWithStack root stack h =>
    some (.errorWithStack root stack { h with From := R.Errorf frm args })
  | .bare e => NewErrorFrom.ofError R cs e frm args
  | err =>
    match NewErrorFrom.ofError R ("github.com/ovh/cds/sdk.NewErrorFrom" :: cs) ErrUnknownError
        frm args with
    | none => none
    | some inner => NewErrorWithStack R ("github.com/ovh/cds/sdk.NewErrorFrom" :: cs) err inner

/-- The function `WrapError`. -/
def WrapError (R : Libs) (cs : List String) (err : GoError) (format : String)
    (args : List Any) : GoError :=
  match err with
  | .nil => .nil
  | .errorWithStack root stack h =>
    .errorWithStack (errors.WithMessage root (R.Sprintf format args)) stack h
  | .bare e =>
    .errorWithStack (errors.WithStack (.foreign (R.Errorf format args))) (callers cs) e
  | err =>
    .errorWithStack (errors.Wrap err (R.Sprintf format args)) (callers cs) ErrUnknownError

/-- The function `WithData`.  The type assertion `err.(errorWithStack)` panics
when the value is not an `errorWithStack`. -/
def WithData (R : Libs) (cs : List String) (err : GoError) (data : Any) : Option GoError :=
  match WithStack R ("github.com/ovh/cds/sdk.WithData" :: cs) err with
  | some (.errorWithStack root stack h) =>
    some (.errorWithStack root stack { h with Data := data })
  | _ => none

/-- The function `ErrorIs`. -/
def ErrorIs (err : GoError) (target : Error) : Bool :=
  match err with
  | .nil => false
  | .errorWithStack _ _ h => h.ID == target.ID
  | .bare e => e.ID == target.ID
  | _ => target.ID == ErrUnknownError.ID

/-- The function `Cause`. -/
def Cause (err : GoError) : GoError :=
  match err with
  | .errorWithStack root _ _ => errors.Cause root
  | err => errors.Cause err

/-- The function `ErrorIsUnknown`. -/
def ErrorIsUnknown (err : GoError) : Bool := ErrorIs err ErrUnknownError

/-- The function `IsErrorWithStack`. -/
def IsErrorWithStack (err : GoError) : Bool :=
  match err with
  | .errorWithStack _ _ _ => true
  | _ => false

/-! ## Field access on a classified error -/

/-- The field `stack` of an `errorWithStack`; `none` for any other value. -/
def GoError.stackField : GoError → Option (Option stack)
  | .errorWithStack _ s _ => some s
  | _ => none

/-- The field `root` of an `errorWithStack`; `none` for any other value. -/
def GoError.rootField : GoError → Option GoError
  | .errorWithStack r _ _ => some r
  | _ => none

/-- The field `httpError` of an `errorWithStack`; `none` for any other value. -/
def GoError.httpErrorField : GoError → Option sdk.Error
  | .errorWithStack _ _ h => some h
  | _ => none

/-- A sample instance of the library functions, on which the definitions can be
evaluated: formats are printed as they are, the header `fr` parses to French,
the header `*;` does not parse, and the matcher returns the first tag. -/
def sampleLibs : Libs where
  Sprintf := fun format _ => format
  Errorf := fun format _ => format
  ParseAcceptLanguage := fun al =>
    if al = "fr" then some [language.Tag.French]
    else if al = "*;" then none
    else some [language.Tag.AmericanEnglish]
  Match := fun tags => tags.headD language.Tag.AmericanEnglish

/-! ## Named parts of `ExtractHTTPError`, `Error.Translate` and the renders -/

/-- The type switch at the head of `ExtractHTTPError`: the value of `httpError`
before the status and the message are defaulted; `none` is the panic. -/
def ExtractHTTPError.resolved (R : Libs) (source : GoError) (al : String) : Option Error :=
  match source with
  | .nilMultiError => none
  | .MultiError es =>
    match ExtractHTTPError.loop R es al with
    | none => none
    | some ss => some { ErrUnknownError with Message := ", ".intercalate ss }
  | .errorWithStack _ _ h => some h
  | .bare e => some e
  | _ => some ErrUnknownError

/-- The end of `ExtractHTTPError`, after the type switch: the status and the
message are defaulted. -/
def ExtractHTTPError.defaults (R : Libs) (httpError : Error) (al : String) : Error :=
  let httpError : Error :=
    if httpError.Status = 0 then { httpError with Status := ErrUnknownError.Status }
    else httpError
  if httpError.Message = "" then { httpError with Message := httpError.Translate R al }
  else httpError

/-- The catalog that the `switch tag` of `Error.Translate` reads for a header:
`errorsFrench` for the French tag, `errorsAmericanEnglish` for every other tag. -/
def Error.Translate.catalog (R : Libs) (al : String) : List (Int × String) :=
  match Error.Translate.tag R al with
  | .French => errorsFrench
  | .AmericanEnglish => errorsAmericanEnglish
  | _ => errorsAmericanEnglish

/-- The message `msg(e)` of the render contracts, as the contract words it:
`e.Message` if non-empty, else the English catalog entry for `e.ID` if present,
else the English message of the Unknown kind. -/
def renderContractMsg (e : Error) : String :=
  if e.Message = "" then
    (mapGet errorsAmericanEnglish e.ID).getD (mapIndex errorsAmericanEnglish ErrUnknownError.ID)
  else e.Message

/-- The full render of the render contracts, as the contract words it. -/
def renderContractFull (e : Error) : String :=
  if e.From = "" then renderContractMsg e
  else renderContractMsg e ++ " (from: " ++ e.From ++ ")"

/-- The light render of the render contracts, as the contract words it. -/
def renderContractLight (e : Error) : String :=
  if e.From = "" then renderContractMsg e
  else renderContractMsg e ++ ": " ++ e.From

/-! ## Aggregates: the methods of `*MultiError` -/

/-- The method `MultiError.Join`: the new value of `*e`.  The parameter `j` is
passed by value and only read. -/
def MultiError.Join (e j : List GoError) : List GoError :=
  j.foldl (fun acc err => acc ++ [err]) e

mutual
/-- The method `MultiError.Append`: the new value of `*e`, `none` for a panic
(`range *mError` on a nil `*MultiError`).
The receiver is a non-nil pointer, given by the slice `e` it points to; the
call to `WithStack` and the recursive calls are made from `Append`, whose frame
is pushed on the call stack. -/
def MultiError.Append (R : Libs) (cs : List String) (e : List GoError) (err : GoError) :
    Option (List GoError) :=
  match err with
  | .nil => some e
  | .nilMultiError => none
  | .MultiError es =>
    MultiError.Append.loop R ("github.com/ovh/cds/sdk.(*MultiError).Append" :: cs) e es
  | err =>
    match WithStack R ("github.com/ovh/cds/sdk.(*MultiError).Append" :: cs) err with
    | none => none
    | some w => some (e ++ [w])
/-- The loop `for i := range *mError { e.Append((*mError)[i]) }` of
`MultiError.Append`, run with the call stack `cs` of the calls it makes. -/
def MultiError.Append.loop (R : Libs) (cs : List String) (e : List GoError) :
    List GoError → Option (List GoError)
  | [] => some e
  | x :: rest =>
    match MultiError.Append R cs e x with
    | none => none
    | some e₁ => MultiError.Append.loop R cs e₁ rest
end

/-- The method `MultiError.IsEmpty`. -/
def MultiError.IsEmpty (e : List GoError) : Bool := e.length == 0

/-! ## Named parts of `stack.String` -/

/-- The two prefix tests of `stack.String`: a frame is looked at further when its
name does not start with `github.com/ovh/cds/vendor` and starts with
`github.com/ovh/cds`. -/
def retainedFrame (name : String) : Bool :=
  !strings.hasPrefix name "github.com/ovh/cds/vendor" &&
    strings.hasPrefix name "github.com/ovh/cds"

/-- The reduction of a frame name in `stack.String`: the last piece of the name
split at `/` is split at `.`, and the result is `sp[2]` when `sp[1]` starts with
`(` and `sp[1]` otherwise; `none` is the index-out-of-range panic. -/
def reducedName (name : String) : Option String :=
  let sp := strings.Split '/' name.data
  let sp := strings.Split '.' (sp.getLastD [])
  match index? sp 1 with
  | none => none
  | some sp1 =>
    match (if strings.hasPrefix (String.mk sp1) "(" then index? sp 2 else some sp1) with
    | none => none
    | some n => some (String.mk n)

/-- The shape of the symbol names the Go runtime reports, as far as
`stack.String` relies on it: the last path segment contains a `.`, and when the
text after its first `.` starts with `(` (a pointer receiver), that text
contains a `.` too. -/
def symbolShape (name : String) : Bool :=
  let seg := (strings.Split '/' name.data).getLastD []
  let after := (seg.dropWhile (fun c => c != '.')).tail
  seg.contains '.' && (after.head? != some '(' || after.contains '.')

/-- The path that the description of `stack.String` words: the frames that are
kept, reduced, without the ignored names, outermost caller first, joined with
`>`. -/
def renderedPath (s : stack) : String :=
  ">".intercalate
    ((((s.filter retainedFrame).filterMap reducedName).filter
      (fun n => !ignoredNames.contains n)).reverse)

/-! ## Serialization, fallback and exit -/

/-- The keys of the JSON object that `encoding/json` writes for an `Error`, read
off the struct tags: `id` and `message` always, `data`, `request_id`,
`stack_trace` and `from` unless empty (`omitempty`), and nothing for `Status`
(tag `-`). -/
def Error.jsonKeys (e : sdk.Error) : List String :=
  ["id", "message"] ++
    (if e.Data = Any.null then [] else ["data"]) ++
    (if e.RequestID = "" then [] else ["request_id"]) ++
    (if e.StackTrace = "" then [] else ["stack_trace"]) ++
    (if e.From = "" then [] else ["from"])

set_option linter.unusedVariables false in
/-- The function `ErrorWithFallback`.  Its body does not read the parameter
`httpError`. -/
def ErrorWithFallback (R : Libs) (cs : List String) (err : GoError) (httpError : Error)
    (frm : String) (args : List Any) : Option GoError :=
  if ErrorIs err ErrUnknownError then
    match NewError R ("github.com/ovh/cds/sdk.ErrorWithFallback" :: cs) ErrWrongRequest
        (.foreign (R.Errorf frm args)) with
    | none => none
    | some inner => NewErrorWithStack R ("github.com/ovh/cds/sdk.ErrorWithFallback" :: cs) err inner
  else some err

/-- The format that `Exit` passes to `fmt.Fprintf`.  A Go string is the sequence
of its bytes, here a list of byte values; `"\n"` is the one byte 10, and
`format[:len(format)-1]` is the string without its last byte. -/
def Exit.format (format : List Nat) : List Nat :=
  if format.length > 0 ∧ format.take (format.length - 1) ≠ [10] then format ++ [10]
  else format

/-- The structural part of the invariant of classified errors: an
`errorWithStack` has a non-nil `root` and a non-nil `stack` pointer; a value of
another type has nothing to check. -/
def GoError.rootAndStackSet : GoError → Bool
  | .errorWithStack root st _ => !root.isNil && st.isSome
  | _ => true

/-- The invariant of classified errors in full.  For an `errorWithStack`: the
root and the stack are non-nil, `root.Error()` and `stack.String()` return, and
`Error()` returns `stack.String()`, `: `, `httpError.Error()`, followed by
` (caused by: ` `root.Error()` `)` exactly when `root.Error()` is non-empty and
differs from `httpError.From`.  A value of another type has nothing to check. -/
def GoError.wellFormed : GoError → Bool
  | .errorWithStack root (some s) h =>
    match root.Error, stack.String s with
    | some r, some path =>
      !root.isNil &&
        (GoError.errorWithStack root (some s) h).Error ==
          some (path ++ ": " ++ h.Error ++
            (if r ≠ "" ∧ r ≠ h.From then " (caused by: " ++ r ++ ")" else ""))
    | _, _ => false
  | .errorWithStack _ none _ => false
  | _ => true

/-- The declared kinds that have no entry in the catalogs. -/
def uncatalogued : List Error :=
  [ErrJobLocked, ErrWorkflowNodeRunLocked, ErrWorkerModelDeploymentFailed, ErrHookNotFound,
    ErrAlreadyLatestTemplate]

/-! ## The as-code pull request (`engine/api/ascode/pull_request.go`) -/

/-- The type `EventType`: the four declared values, or any other string. -/
inductive ascode.EventType where
  | PipelineEvent
  | WorkflowEvent
  | ApplicationEvent
  | EnvironmentEvent
  | other (s : String)
  deriving DecidableEq, Repr

/-- The struct `EntityData`; its field `Type` is written `Type_`. -/
structure ascode.EntityData where
  Type_ : ascode.EventType
  ID : Int
  Name : String
  FromRepo : String
  OperationUUID : String
  deriving DecidableEq, Repr

/-- The field `Data` of `sdk.AsCodeEvent`, as `createPullRequest` uses it: four
maps from an id to a name, each `none` when the map is nil. -/
structure AsCodeEventData where
  Workflows : Option (List (Int × String)) := none
  Pipelines : Option (List (Int × String)) := none
  Applications : Option (List (Int × String)) := none
  Environments : Option (List (Int × String)) := none
  deriving DecidableEq, Repr

/-- The fields of `sdk.AsCodeEvent` that `createPullRequest` reads or writes. -/
structure AsCodeEvent where
  ID : Int := 0
  WorkflowID : Int := 0
  FromRepo : String := ""
  PullRequestID : Int := 0
  PullRequestURL : String := ""
  Username : String := ""
  CreateDate : Int := 0
  Migrate : Bool := false
  Data : AsCodeEventData := {}
  deriving DecidableEq, Repr

/-- The fields of `sdk.VCSPullRequest` that `createPullRequest` reads. -/
structure VCSPullRequest where
  ID : Int
  URL : String
  BaseBranchDisplayID : String
  HeadBranchDisplayID : String
  deriving DecidableEq, Repr

/-- The fields of `opeSetup.Push` that `createPullRequest` reads. -/
structure PushSetup where
  Message : String
  FromBranch : String
  ToBranch : String
  Update : Bool
  deriving DecidableEq, Repr

/-- What the collaborators of `createPullRequest` return: the error of
`LoadProjectVCSServerLinkByProjectKeyAndVCSServerName`, the error of
`AuthorizedClient`, the results of `client.PullRequests` and
`client.PullRequestCreate`, the result of `LoadEventByWorkflowIDAndPullRequest`
for a workflow id and a pull request id (the event pointer may be nil), the
error of `UpsertEvent`, `u.GetUsername()` and `time.Now()`. -/
structure ascode.World where
  LoadVCSServerErr : GoError
  AuthorizedClientErr : GoError
  PullRequests : List VCSPullRequest × GoError
  PullRequestCreate : VCSPullRequest × GoError
  LoadEventByWorkflowIDAndPullRequest : Int → Int → Option AsCodeEvent × GoError
  UpsertEvent : AsCodeEvent → GoError
  GetUsername : String
  Now : Int

/-- One case of the `switch ed.Type`: the map is made when nil, and the name is
stored under the id unless the id is already a key. -/
def ascode.register (m : Option (List (Int × String))) (id : Int) (name : String) :
    Option (List (Int × String)) :=
  let m := m.getD []
  if m.any (fun kv => kv.1 == id) then some m else some (m ++ [(id, name)])

/-- The `switch ed.Type` of `createPullRequest`. -/
def ascode.registerEntity (ev : AsCodeEvent) (ed : ascode.EntityData) : AsCodeEvent :=
  match ed.Type_ with
  | .WorkflowEvent =>
    { ev with Data := { ev.Data with Workflows := ascode.register ev.Data.Workflows ed.ID ed.Name } }
  | .PipelineEvent =>
    { ev with Data := { ev.Data with Pipelines := ascode.register ev.Data.Pipelines ed.ID ed.Name } }
  | .ApplicationEvent =>
    { ev with
      Data := { ev.Data with
        Applications := ascode.register ev.Data.Applications ed.ID ed.Name } }
  | .EnvironmentEvent =>
    { ev with
      Data := { ev.Data with
        Environments := ascode.register ev.Data.Environments ed.ID ed.Name } }
  | .other _ => ev

/-- An error return of `createPullRequest`: `return nil, sdk.NewErrorFrom(err, msg)`. -/
def ascode.fail (R : Libs) (cs : List String) (err : GoError) (msg : String) :
    Option (Option AsCodeEvent × GoError) :=
  (NewErrorFrom R ("github.com/ovh/cds/engine/api/ascode.createPullRequest" :: cs) err msg []).map
    (fun e => (none, e))

/-- The end of `createPullRequest`, from the comment `Find existing ascode event
with this pull request info` on, for the pull request `pr`.  The result is the
returned pair, `none` for a panic (the dereference `asCodeEvent.ID` of a nil
pointer). -/
def ascode.createPullRequest.saveEvent (R : Libs) (cs : List String) (W : ascode.World)
    (workflowHolderID : Int) (ed : ascode.EntityData) (push : PushSetup)
    (pr : VCSPullRequest) : Option (Option AsCodeEvent × GoError) :=
  let (asCodeEvent, err) := W.LoadEventByWorkflowIDAndPullRequest workflowHolderID pr.ID
  if !err.isNil && ErrorIs err ErrNotFound then
    ascode.fail R cs err "unable to save pull request"
  else
    match asCodeEvent with
    | none => none
    | some ev =>
      let ev : AsCodeEvent :=
        if ev.ID = 0 then
          { WorkflowID := workflowHolderID, FromRepo := ed.FromRepo, PullRequestID := pr.ID,
            PullRequestURL := pr.URL, Username := W.GetUsername, CreateDate := W.Now,
            Migrate := !push.Update }
        else ev
      let ev := ascode.registerEntity ev ed
      let uerr := W.UpsertEvent ev
      if !uerr.isNil then ascode.fail R cs uerr "unable to insert as code event"
      else some (some ev, GoError.nil)

/-- The function `createPullRequest`. -/
def ascode.createPullRequest (R : Libs) (cs : List String) (W : ascode.World)
    (workflowHolderID : Int) (ed : ascode.EntityData) (push : PushSetup) :
    Option (Option AsCodeEvent × GoError) :=
  if !W.LoadVCSServerErr.isNil then some (none, W.LoadVCSServerErr)
  else if !W.AuthorizedClientErr.isNil then
    ascode.fail R cs W.AuthorizedClientErr "unable to create repositories manager client"
  else if !W.PullRequests.2.isNil then
    ascode.fail R cs W.PullRequests.2 "unable to list pull request"
  else
    match W.PullRequests.1.find?
        (fun prItem =>
          prItem.BaseBranchDisplayID == push.ToBranch &&
            prItem.HeadBranchDisplayID == push.FromBranch) with
    | some pr => ascode.createPullRequest.saveEvent R cs W workflowHolderID ed push pr
    | none =>
      if !W.PullRequestCreate.2.isNil then
        ascode.fail R cs W.PullRequestCreate.2 "unable to create pull request"
      else
        ascode.createPullRequest.saveEvent R cs W workflowHolderID ed push W.PullRequestCreate.1

/-- A sample of what the collaborators return: every call succeeds, no pull
request is open, the created one has id 7, and loading the event returns the
given pair. -/
def ascode.sampleWorld (loaded : Option AsCodeEvent × GoError) : ascode.World where
  LoadVCSServerErr := GoError.nil
  AuthorizedClientErr := GoError.nil
  PullRequests := ([], GoError.nil)
  PullRequestCreate :=
    ({ ID := 7, URL := "https://vcs/pr/7", BaseBranchDisplayID := "master",
       HeadBranchDisplayID := "ascode" }, GoError.nil)
  LoadEventByWorkflowIDAndPullRequest := fun _ _ => loaded
  UpsertEvent := fun _ => GoError.nil
  GetUsername := "alice"
  Now := 1000

/-! ## Auxiliary facts -/

theorem errors_WithStack_of_ne_nil (err : GoError) (h : err ≠ GoError.nil) :
    errors.WithStack err = GoError.withStack err := by
  cases err <;> first | rfl | exact absurd rfl h

theorem errors_Cause_WithStack (err : GoError) :
    errors.Cause (errors.WithStack err) = errors.Cause err := by
  cases err <;> rfl

theorem ExtractHTTPError_eq (R : Libs) (source : GoError) (al : String) :
    ExtractHTTPError R source al =
      (ExtractHTTPError.resolved R source al).map
        (fun h => ExtractHTTPError.defaults R h al) := by
  cases source with
  | MultiError es =>
    rw [ExtractHTTPError, ExtractHTTPError.resolved]
    cases h : ExtractHTTPError.loop R es al <;> rfl
  | nil => rfl
  | foreign msg => rfl
  | bare e => rfl
  | errorWithStack root st h => rfl
  | nilMultiError => rfl
  | withStack inner => rfl
  | withMessage cause msg => rfl

mutual
theorem ExtractHTTPError_isSome (R : Libs) (al : String) :
    ∀ source : GoError, (ExtractHTTPError R source al).isSome = source.derefOK
  | .MultiError es => by
    have ih := ExtractHTTPError_loop_isSome R al es
    rw [ExtractHTTPError_eq, GoError.derefOK, ← ih]
    simp only [ExtractHTTPError.resolved]
    cases ExtractHTTPError.loop R es al <;> rfl
  | .nilMultiError => rfl
  | .nil => rfl
  | .foreign _ => rfl
  | .bare _ => rfl
  | .errorWithStack _ _ _ => rfl
  | .withStack _ => rfl
  | .withMessage _ _ => rfl
theorem ExtractHTTPError_loop_isSome (R : Libs) (al : String) :
    ∀ es : List GoError, (ExtractHTTPError.loop R es al).isSome = GoError.derefOKAll es
  | [] => rfl
  | e :: rest => by
    have h1 := ExtractHTTPError_isSome R al e
    have h2 := ExtractHTTPError_loop_isSome R al rest
    rw [ExtractHTTPError.loop, GoError.derefOKAll, ← h1, ← h2]
    cases ExtractHTTPError R e al <;> cases ExtractHTTPError.loop R rest al <;> rfl
end

theorem ExtractHTTPError_returns (R : Libs) (source : GoError) (al : String)
    (h : source.derefOK = true) : ∃ e, ExtractHTTPError R source al = some e :=
  Option.isSome_iff_exists.mp ((ExtractHTTPError_isSome R al source).trans h)

theorem ExtractHTTPError_loop_returns (R : Libs) (es : List GoError) (al : String)
    (h : GoError.derefOKAll es = true) : ∃ ss, ExtractHTTPError.loop R es al = some ss :=
  Option.isSome_iff_exists.mp ((ExtractHTTPError_loop_isSome R al es).trans h)

theorem ExtractHTTPError_defaults_ID (R : Libs) (h : Error) (al : String) :
    (ExtractHTTPError.defaults R h al).ID = h.ID := by
  unfold ExtractHTTPError.defaults
  simp only []
  split_ifs <;> rfl

theorem ExtractHTTPError_ID_of_not_multi (R : Libs) (source : GoError) (al : String)
    (h : source.isMultiError = false) :
    (ExtractHTTPError R source al).map Error.ID =
      some (match source with
        | .errorWithStack _ _ h => h.ID
        | .bare e => e.ID
        | _ => ErrUnknownError.ID) := by
  rw [ExtractHTTPError_eq]
  cases source <;> first
    | (simp [GoError.isMultiError] at h; done)
    | (simp only [ExtractHTTPError.resolved, Option.map_some', ExtractHTTPError_defaults_ID])

theorem ExtractHTTPError_ID_multi (R : Libs) (es : List GoError) (al : String) :
    (ExtractHTTPError R (.MultiError es) al).map Error.ID =
      if GoError.derefOKAll es = true then some ErrUnknownError.ID else none := by
  rw [ExtractHTTPError_eq]
  have h := ExtractHTTPError_loop_isSome R al es
  simp only [ExtractHTTPError.resolved]
  cases hl : ExtractHTTPError.loop R es al with
  | none =>
    rw [hl] at h
    have h' : ¬ GoError.derefOKAll es = true := by rw [← h]; exact Bool.false_ne_true
    rw [if_neg h']
    rfl
  | some ss =>
    rw [hl] at h
    have h' : GoError.derefOKAll es = true := h.symm
    rw [if_pos h']
    simp only [Option.map_some', ExtractHTTPError_defaults_ID]

theorem WithStack_errorWithStack (R : Libs) (cs : List String) (root : GoError)
    (st : Option stack) (h : Error) :
    WithStack R cs (.errorWithStack root st h) = some (.errorWithStack root st h) := rfl

theorem NewError_MultiError (R : Libs) (cs : List String) (k : Error) (es : List GoError) :
    NewError R cs k (GoError.MultiError es) =
      (ExtractHTTPError.loop R es "").map (fun ss =>
        GoError.errorWithStack (GoError.withStack (GoError.MultiError es)) (callers cs)
          { k with From := ", ".intercalate ss }) := by
  rw [NewError]
  cases h : ExtractHTTPError.loop R es "" <;> rfl

theorem WithStack_MultiError (R : Libs) (cs : List String) (es : List GoError) :
    WithStack R cs (GoError.MultiError es) =
      (ExtractHTTPError.loop R es "").map (fun ss =>
        GoError.errorWithStack (GoError.withStack (GoError.MultiError es))
          (callers ("github.com/ovh/cds/sdk.WithStack" :: cs))
          { ErrUnknownError with From := ", ".intercalate ss }) := by
  unfold WithStack
  simp only [GoError.isMultiError, if_true]
  rw [NewError_MultiError]
  cases ExtractHTTPError.loop R es "" <;> rfl

theorem WithStack_isSome (R : Libs) (cs : List String) (err : GoError) :
    (WithStack R cs err).isSome = err.derefOK := by
  cases err with
  | MultiError es =>
    rw [WithStack_MultiError, GoError.derefOK, ← ExtractHTTPError_loop_isSome R "" es]
    cases ExtractHTTPError.loop R es "" <;> rfl
  | nil => rfl
  | foreign msg => rfl
  | bare e => rfl
  | errorWithStack root st h => rfl
  | nilMultiError => rfl
  | withStack inner => rfl
  | withMessage cause msg => rfl

theorem WithStack_classified (R : Libs) (cs : List String) (err : GoError)
    (hnil : err ≠ GoError.nil) (hd : err.derefOK = true) :
    ∃ root st h, WithStack R cs err = some (GoError.errorWithStack root st h) := by
  cases err with
  | nil => exact absurd rfl hnil
  | MultiError es =>
    obtain ⟨ss, hss⟩ := ExtractHTTPError_loop_returns R es "" hd
    rw [WithStack_MultiError, hss]
    exact ⟨_, _, _, rfl⟩
  | nilMultiError => exact absurd hd Bool.false_ne_true
  | foreign msg => exact ⟨_, _, _, rfl⟩
  | bare e => exact ⟨_, _, _, rfl⟩
  | errorWithStack root st h => exact ⟨_, _, _, rfl⟩
  | withStack inner => exact ⟨_, _, _, rfl⟩
  | withMessage cause msg => exact ⟨_, _, _, rfl⟩

/-! ## Nil propagation -/

/-- C1: `NewError`, `NewErrorFrom`, `WrapError` and `WithStack` return nil for a
nil error, for every kind, every format string and every argument list. -/
theorem nil_propagation (R : Libs) (cs : List String) (k : Error) (format : String)
    (args : List Any) :
    NewError R cs k GoError.nil = some GoError.nil ∧
    NewErrorFrom R cs GoError.nil format args = some GoError.nil ∧
    WrapError R cs GoError.nil format args = GoError.nil ∧
    WithStack R cs GoError.nil = some GoError.nil :=
  ⟨rfl, rfl, rfl, rfl⟩

/-- C2: `NewErrorWithStack(nil, err)` and `WithData(nil, data)` do not return
nil: `WithStack(nil)` is nil, and the type assertion to `errorWithStack` on that
nil value panics, for every `err` and every `data`. -/
theorem nil_root_type_assertion_panics (R : Libs) (cs : List String) (err : GoError)
    (data : Any) :
    NewErrorWithStack R cs GoError.nil err = none ∧ WithData R cs GoError.nil data = none :=
  ⟨rfl, rfl⟩

/-! ## The stack is captured once -/

/-- C3, as the code has it: on an error that already is an `errorWithStack`,
each of `NewError`, `NewErrorFrom`, `WrapError`, `WithStack` and `WithData`
returns an `errorWithStack` whose `stack` field is the one of the argument;
`NewErrorWithStack(e, x)` does so exactly when `x` holds no nil `*MultiError`
(`x` is not one, and neither are the elements of an aggregate `x`, at any
depth), and panics otherwise. -/
theorem stack_kept_on_errorWithStack (R : Libs) (cs : List String) (root : GoError)
    (st : Option stack) (h k : Error) (format : String) (args : List Any) (d : Any)
    (x : GoError) :
    (NewError R cs k (.errorWithStack root st h)).bind GoError.stackField = some st ∧
    (NewErrorFrom R cs (.errorWithStack root st h) format args).bind GoError.stackField
      = some st ∧
    (WrapError R cs (.errorWithStack root st h) format args).stackField = some st ∧
    (WithStack R cs (.errorWithStack root st h)).bind GoError.stackField = some st ∧
    (WithData R cs (.errorWithStack root st h) d).bind GoError.stackField = some st ∧
    (NewErrorWithStack R cs (.errorWithStack root st h) x).bind GoError.stackField
      = (if x.derefOK = true then some st else none) := by
  refine ⟨rfl, rfl, rfl, rfl, rfl, ?_⟩
  cases x with
  | MultiError es =>
    have hs := ExtractHTTPError_isSome R "" (GoError.MultiError es)
    unfold NewErrorWithStack
    rw [WithStack_errorWithStack]
    cases he : ExtractHTTPError R (GoError.MultiError es) "" with
    | none =>
      rw [he] at hs
      have hs' : ¬ (GoError.MultiError es).derefOK = true := by
        rw [← hs]; exact Bool.false_ne_true
      rw [if_neg hs']
      dsimp only
      rw [he]
      rfl
    | some e =>
      rw [he] at hs
      have hs' : (GoError.MultiError es).derefOK = true := hs.symm
      rw [if_pos hs']
      dsimp only
      rw [he]
      rfl
  | nil => rfl
  | foreign msg => rfl
  | bare e => rfl
  | errorWithStack root st h => rfl
  | nilMultiError => rfl
  | withStack inner => rfl
  | withMessage cause msg => rfl

/-- C3, as stated, fails: with a nil `*MultiError` as `x`, or an aggregate that
holds one, `NewErrorWithStack(e, x)` on an `errorWithStack` `e` panics in
`ExtractHTTPError`, at `range *e`, and returns no stack. -/
theorem stack_kept_fails_on_nil_MultiError :
    NewErrorWithStack sampleLibs []
      (GoError.errorWithStack (GoError.foreign "boom") (some []) ErrNotFound)
      GoError.nilMultiError = none ∧
    NewErrorWithStack sampleLibs []
      (GoError.errorWithStack (GoError.foreign "boom") (some []) ErrNotFound)
      (GoError.MultiError [GoError.bare ErrNotFound, GoError.nilMultiError]) = none :=
  ⟨rfl, rfl⟩

/-- C4, as the code has it: for an error that holds no nil `*MultiError` (it is
not one, and neither are the elements of an aggregate, at any depth),
`WithStack` returns, and applying it to its own result (from any call site)
returns that result unchanged, so the stack of the first call is kept;
`WithStack` returns for no other error. -/
theorem WithStack_idempotent (R : Libs) (cs₁ cs₂ : List String) (e : GoError)
    (hd : e.derefOK = true) :
    (∃ r, WithStack R cs₁ e = some r ∧ WithStack R cs₂ r = some r) ∧
    ∀ e₀ : GoError, (WithStack R cs₁ e₀).isSome = e₀.derefOK := by
  refine ⟨?_, WithStack_isSome R cs₁⟩
  by_cases hnil : e = GoError.nil
  · subst hnil
    exact ⟨_, rfl, rfl⟩
  · obtain ⟨root, st, h, hw⟩ := WithStack_classified R cs₁ e hnil hd
    exact ⟨_, hw, rfl⟩

theorem WithStack_idempotent_witness :
    (∃ r, WithStack sampleLibs ["github.com/ovh/cds/engine/api.load"]
        (GoError.MultiError [GoError.bare ErrNotFound, GoError.nil]) = some r ∧
      WithStack sampleLibs ["github.com/ovh/cds/engine/api.main"] r = some r) ∧
    ∀ e₀ : GoError,
      (WithStack sampleLibs ["github.com/ovh/cds/engine/api.load"] e₀).isSome = e₀.derefOK :=
  WithStack_idempotent sampleLibs ["github.com/ovh/cds/engine/api.load"]
    ["github.com/ovh/cds/engine/api.main"]
    (GoError.MultiError [GoError.bare ErrNotFound, GoError.nil]) rfl

/-- C4, as stated, fails: a nil `*MultiError` is a non-nil error of type
`*MultiError`, and `WithStack` of it panics in `NewError`, at `range *e`; so does
`WithStack` of an aggregate that holds one. -/
theorem WithStack_panics_on_nil_MultiError :
    GoError.nilMultiError.isNil = false ∧ GoError.nilMultiError.isMultiError = true ∧
    WithStack sampleLibs [] GoError.nilMultiError = none ∧
    WithStack sampleLibs [] (GoError.MultiError [GoError.nilMultiError]) = none :=
  ⟨rfl, rfl, rfl, rfl⟩

/-! ## Classification -/

/-- C5: `NewError(k, e)` on an `errorWithStack` `e` keeps the root and the stack
of `e`, and its `httpError` is `k` with the field `From` set to
`e.httpError.From`. -/
theorem NewError_on_errorWithStack (R : Libs) (cs : List String) (root : GoError)
    (st : Option stack) (h k : Error) :
    NewError R cs k (.errorWithStack root st h) =
      some (.errorWithStack root st
        { ID := k.ID, Status := k.Status, Message := k.Message, Data := k.Data,
          RequestID := k.RequestID, StackTrace := k.StackTrace, From := h.From }) :=
  rfl

theorem NewError_shape (R : Libs) (cs : List String) (k : Error) (err : GoError)
    (hnil : err ≠ GoError.nil) (hd : err.derefOK = true)
    (hE : err.isErrorWithStack = false → err.isMultiError = false → err.Error.isSome = true) :
    ∃ root st frm, NewError R cs k err = some (.errorWithStack root st { k with From := frm }) ∧
      errors.Cause root = Cause err := by
  cases err with
  | nil => exact absurd rfl hnil
  | nilMultiError => exact absurd hd Bool.false_ne_true
  | errorWithStack root st h => exact ⟨root, st, h.From, rfl, rfl⟩
  | MultiError es =>
    obtain ⟨ss, hss⟩ := ExtractHTTPError_loop_returns R es "" hd
    rw [NewError_MultiError, hss]
    exact ⟨_, _, _, rfl, rfl⟩
  | foreign msg => exact ⟨_, _, _, rfl, rfl⟩
  | bare e => exact ⟨_, _, _, rfl, rfl⟩
  | withStack inner =>
    obtain ⟨s, hs⟩ := Option.isSome_iff_exists.mp (hE rfl rfl)
    refine ⟨errors.WithStack (.withStack inner), callers cs, s, ?_, rfl⟩
    simp only [NewError, hs]
  | withMessage cause msg =>
    obtain ⟨s, hs⟩ := Option.isSome_iff_exists.mp (hE rfl rfl)
    refine ⟨errors.WithStack (.withMessage cause msg), callers cs, s, ?_, rfl⟩
    simp only [NewError, hs]

/-- C6, as the code has it: for a non-nil `raw` that holds no nil `*MultiError`
(it is not one, and neither are the elements of an aggregate, at any depth) and
whose `Error()` returns when `NewError` calls it (it is called on a value that
is neither an `errorWithStack` nor a `*MultiError`), `NewError(k, raw)` returns
a value `r` with `ErrorIs(r, k)`. -/
theorem ErrorIs_NewError (R : Libs) (cs : List String) (k : Error) (raw : GoError)
    (hnil : raw ≠ GoError.nil) (hd : raw.derefOK = true)
    (hE : raw.isErrorWithStack = false → raw.isMultiError = false → raw.Error.isSome = true) :
    ∃ r, NewError R cs k raw = some r ∧ ErrorIs r k = true := by
  obtain ⟨root, st, frm, h, _⟩ := NewError_shape R cs k raw hnil hd hE
  exact ⟨_, h, by simp [ErrorIs]⟩

theorem ErrorIs_NewError_witness :
    ∃ r, NewError sampleLibs ["github.com/ovh/cds/engine/api.main"] ErrNotFound
        (GoError.MultiError [GoError.withStack (GoError.foreign "connection refused")])
        = some r ∧
      ErrorIs r ErrNotFound = true :=
  ErrorIs_NewError sampleLibs ["github.com/ovh/cds/engine/api.main"] ErrNotFound
    (GoError.MultiError [GoError.withStack (GoError.foreign "connection refused")]) (by simp)
    rfl (fun _ _ => rfl)

/-- C6, as stated, fails: a nil `*MultiError` is a non-nil error of type
`*MultiError`, and `NewError(ErrNotFound, raw)` on it panics at `range *e`, so
there is no value for `ErrorIs` to test. -/
theorem NewError_panics_on_nil_MultiError :
    GoError.nilMultiError.isNil = false ∧
    NewError sampleLibs ["github.com/ovh/cds/engine/api.main"] ErrNotFound
      GoError.nilMultiError = none ∧
    (NewError sampleLibs ["github.com/ovh/cds/engine/api.main"] ErrNotFound
      GoError.nilMultiError).map (fun r => ErrorIs r ErrNotFound) ≠ some true := by
  refine ⟨rfl, rfl, ?_⟩
  decide

/-- C7, as the code has it: for a non-nil `err` that holds no nil `*MultiError`
(at any depth of an aggregate) and whose `Error()` returns when `NewError` calls
it, `NewError(B, NewError(A, err))` returns a value that `ErrorIs` matches with
`B`, matches with `A` exactly when `A.ID = B.ID`, and whose `Cause` is
`Cause(err)`. -/
theorem NewError_twice (R : Libs) (cs₁ cs₂ : List String) (A B : Error) (err : GoError)
    (hnil : err ≠ GoError.nil) (hd : err.derefOK = true)
    (hE : err.isErrorWithStack = false → err.isMultiError = false → err.Error.isSome = true) :
    ∃ r₁ r₂, NewError R cs₁ A err = some r₁ ∧ NewError R cs₂ B r₁ = some r₂ ∧
      ErrorIs r₂ B = true ∧ (ErrorIs r₂ A = true ↔ A.ID = B.ID) ∧ Cause r₂ = Cause err := by
  obtain ⟨root, st, frm, h₁, hc⟩ := NewError_shape R cs₁ A err hnil hd hE
  refine ⟨_, .errorWithStack root st { B with From := frm }, h₁, rfl, by simp [ErrorIs], ?_, hc⟩
  simp only [ErrorIs, beq_iff_eq]
  exact eq_comm

theorem NewError_twice_witness :
    ∃ r₁ r₂, NewError sampleLibs ["github.com/ovh/cds/engine/api.load"] ErrNoAction
        (GoError.withMessage (GoError.foreign "connection refused") "loading") = some r₁ ∧
      NewError sampleLibs ["github.com/ovh/cds/engine/api.main"] ErrNotFound r₁ = some r₂ ∧
      ErrorIs r₂ ErrNotFound = true ∧
      (ErrorIs r₂ ErrNoAction = true ↔ ErrNoAction.ID = ErrNotFound.ID) ∧
      Cause r₂ = Cause (GoError.withMessage (GoError.foreign "connection refused") "loading") :=
  NewError_twice sampleLibs ["github.com/ovh/cds/engine/api.load"]
    ["github.com/ovh/cds/engine/api.main"] ErrNoAction ErrNotFound
    (GoError.withMessage (GoError.foreign "connection refused") "loading") (by simp) rfl
    (fun _ _ => rfl)

/-- C7, as stated, fails: on an aggregate whose one element is a nil
`*MultiError` the first classification `NewError(A, err)` panics, in
`ExtractHTTPError` at `range *e`, so the double classification returns nothing;
the same holds for the nil `*MultiError` itself. -/
theorem NewError_twice_panics_on_nil_MultiError :
    GoError.MultiError [GoError.nilMultiError] ≠ GoError.nil ∧
    (NewError sampleLibs ["github.com/ovh/cds/engine/api.load"] ErrNoAction
        (GoError.MultiError [GoError.nilMultiError])).bind
      (fun r₁ => NewError sampleLibs ["github.com/ovh/cds/engine/api.main"] ErrNotFound r₁)
      = none ∧
    (NewError sampleLibs ["github.com/ovh/cds/engine/api.load"] ErrNoAction
        GoError.nilMultiError).bind
      (fun r₁ => NewError sampleLibs ["github.com/ovh/cds/engine/api.main"] ErrNotFound r₁)
      = none := by
  refine ⟨by simp, rfl, rfl⟩

/-! ## Kind equality and extraction -/

/-- C8: a non-nil error that is neither an `errorWithStack` nor an `Error`
matches a target exactly when the target has the ID of `ErrUnknownError`; the
nil error matches no target, so `ErrorIsUnknown(nil)` is false. -/
theorem ErrorIs_foreign (err : GoError) (target : Error) (hnil : err ≠ GoError.nil)
    (hws : err.isErrorWithStack = false) (hbare : err.isBare = false) :
    (ErrorIs err target = true ↔ target.ID = ErrUnknownError.ID) ∧
    ErrorIs GoError.nil target = false ∧ ErrorIsUnknown GoError.nil = false := by
  refine ⟨?_, rfl, rfl⟩
  cases err with
  | nil => exact absurd rfl hnil
  | errorWithStack root st h => simp [GoError.isErrorWithStack] at hws
  | bare e => simp [GoError.isBare] at hbare
  | MultiError es => simp [ErrorIs]
  | nilMultiError => simp [ErrorIs]
  | foreign msg => simp [ErrorIs]
  | withStack inner => simp [ErrorIs]
  | withMessage cause msg => simp [ErrorIs]

theorem ErrorIs_foreign_witness :
    (ErrorIs (GoError.foreign "connection refused") ErrNotFound = true ↔
      ErrNotFound.ID = ErrUnknownError.ID) ∧
    ErrorIs GoError.nil ErrNotFound = false ∧ ErrorIsUnknown GoError.nil = false :=
  ErrorIs_foreign (GoError.foreign "connection refused") ErrNotFound (by simp) rfl rfl

theorem ErrorIs_eq_resolved_ID (R : Libs) (err : GoError) (target : Error) (al : String)
    (hnil : err ≠ GoError.nil) (e : Error) (he : ExtractHTTPError.resolved R err al = some e) :
    ErrorIs err target = true ↔ e.ID = target.ID := by
  cases err with
  | nil => exact absurd rfl hnil
  | nilMultiError => simp [ExtractHTTPError.resolved] at he
  | MultiError es =>
    simp only [ExtractHTTPError.resolved] at he
    cases hl : ExtractHTTPError.loop R es al with
    | none => rw [hl] at he; simp at he
    | some ss =>
      rw [hl] at he
      simp only [Option.some.injEq] at he
      subst he
      simp only [ErrorIs, beq_iff_eq]
      exact eq_comm
  | errorWithStack root st h =>
    simp only [ExtractHTTPError.resolved, Option.some.injEq] at he
    subst he
    simp [ErrorIs]
  | bare b =>
    simp only [ExtractHTTPError.resolved, Option.some.injEq] at he
    subst he
    simp [ErrorIs]
  | foreign msg =>
    simp only [ExtractHTTPError.resolved, Option.some.injEq] at he
    subst he
    simp only [ErrorIs, beq_iff_eq]
    exact eq_comm
  | withStack inner =>
    simp only [ExtractHTTPError.resolved, Option.some.injEq] at he
    subst he
    simp only [ErrorIs, beq_iff_eq]
    exact eq_comm
  | withMessage cause msg =>
    simp only [ExtractHTTPError.resolved, Option.some.injEq] at he
    subst he
    simp only [ErrorIs, beq_iff_eq]
    exact eq_comm

/-- C9, as the code has it: for a non-nil error that holds no nil `*MultiError`
(it is not one, and neither are the elements of an aggregate, at any depth),
`ExtractHTTPError(err, al)` returns, and `ErrorIs(err, target)` holds exactly
when the ID of the extracted value is the ID of the target, for every header
`al`. -/
theorem ErrorIs_iff_ExtractHTTPError_ID (R : Libs) (err : GoError) (target : Error)
    (al : String) (hnil : err ≠ GoError.nil) (hd : err.derefOK = true) :
    ∃ e, ExtractHTTPError R err al = some e ∧
      (ErrorIs err target = true ↔ e.ID = target.ID) := by
  obtain ⟨e, he⟩ := ExtractHTTPError_returns R err al hd
  refine ⟨e, he, ?_⟩
  rw [ExtractHTTPError_eq] at he
  cases hr : ExtractHTTPError.resolved R err al with
  | none => rw [hr] at he; simp at he
  | some e₀ =>
    rw [hr] at he
    simp only [Option.map_some', Option.some.injEq] at he
    rw [← he, ExtractHTTPError_defaults_ID]
    exact ErrorIs_eq_resolved_ID R err target al hnil e₀ hr

theorem ErrorIs_iff_ExtractHTTPError_ID_witness :
    ∃ e, ExtractHTTPError sampleLibs (GoError.MultiError [GoError.bare ErrNotFound]) "fr"
        = some e ∧
      (ErrorIs (GoError.MultiError [GoError.bare ErrNotFound]) ErrNotFound = true ↔
        e.ID = ErrNotFound.ID) :=
  ErrorIs_iff_ExtractHTTPError_ID sampleLibs (GoError.MultiError [GoError.bare ErrNotFound])
    ErrNotFound "fr" (by simp) rfl

/-- C9, as stated, fails: for a nil `*MultiError`, a non-nil error, `ErrorIs`
answers (it matches `ErrUnknownError` and not `ErrNotFound`) while
`ExtractHTTPError` panics at `range *e`, so no extracted ID exists to agree
with; the same for an aggregate that holds one. -/
theorem ErrorIs_answers_where_extraction_panics :
    GoError.nilMultiError.isNil = false ∧
    ErrorIs GoError.nilMultiError ErrUnknownError = true ∧
    ErrorIs GoError.nilMultiError ErrNotFound = false ∧
    ExtractHTTPError sampleLibs GoError.nilMultiError "fr" = none ∧
    ErrorIs (GoError.MultiError [GoError.nilMultiError]) ErrUnknownError = true ∧
    ExtractHTTPError sampleLibs (GoError.MultiError [GoError.nilMultiError]) "fr" = none :=
  ⟨rfl, rfl, rfl, rfl, rfl, rfl⟩

theorem ExtractHTTPError_unrecognized (R : Libs) (source : GoError) (al : String)
    (hws : source.isErrorWithStack = false) (hbare : source.isBare = false)
    (hmulti : source.isMultiError = false) :
    ExtractHTTPError R source al =
      some { ErrUnknownError with Message := ErrUnknownError.Translate R al } := by
  cases source with
  | errorWithStack root st h => simp [GoError.isErrorWithStack] at hws
  | bare e => simp [GoError.isBare] at hbare
  | MultiError es => simp [GoError.isMultiError] at hmulti
  | nilMultiError => simp [GoError.isMultiError] at hmulti
  | nil => rfl
  | foreign msg => rfl
  | withStack inner => rfl
  | withMessage cause msg => rfl

/-- C10: for every value that is not an `errorWithStack`, an `Error` or a
`*MultiError` (nil included) and every header, `ExtractHTTPError` returns a
value with ID 1 (the ID of `ErrUnknownError`) and Status 500; when the library
negotiates a tag other than French for the header `en-US`, the message for
`en-US` is `internal server error`. -/
theorem ExtractHTTPError_foreign (R : Libs) (source : GoError) (al : String)
    (hws : source.isErrorWithStack = false) (hbare : source.isBare = false)
    (hmulti : source.isMultiError = false) :
    ∃ e en, ExtractHTTPError R source al = some e ∧
      ExtractHTTPError R source "en-US" = some en ∧
      e.ID = ErrUnknownError.ID ∧ e.ID = 1 ∧ e.Status = 500 ∧
      (Error.Translate.tag R "en-US" ≠ language.Tag.French →
        en.Message = "internal server error") := by
  refine ⟨_, _, ExtractHTTPError_unrecognized R source al hws hbare hmulti,
    ExtractHTTPError_unrecognized R source "en-US" hws hbare hmulti, rfl, rfl, rfl,
    fun hfr => ?_⟩
  show ErrUnknownError.Translate R "en-US" = "internal server error"
  unfold Error.Translate
  cases htag : Error.Translate.tag R "en-US" with
  | French => exact absurd htag hfr
  | AmericanEnglish => rfl
  | other name => rfl

theorem ExtractHTTPError_foreign_witness :
    ∃ e en, ExtractHTTPError sampleLibs (GoError.foreign "connection refused") "fr" = some e ∧
      ExtractHTTPError sampleLibs (GoError.foreign "connection refused") "en-US" = some en ∧
      e.ID = ErrUnknownError.ID ∧ e.ID = 1 ∧ e.Status = 500 ∧
      en.Message = "internal server error" :=
  have ⟨e, en, h1, h2, h3, h4, h5, h6⟩ :=
    ExtractHTTPError_foreign sampleLibs (GoError.foreign "connection refused") "fr" rfl rfl rfl
  ⟨e, en, h1, h2, h3, h4, h5, h6 (by decide)⟩

/-! ## Facts about strings and catalogs -/

theorem String_append_ne_empty_left (s t : String) (h : s ≠ "") : s ++ t ≠ "" := by
  intro hst
  apply h
  have hd : (s ++ t).data = [] := by rw [hst]
  rw [String.data_append] at hd
  exact String.ext (List.append_eq_nil.mp hd).1

theorem intercalate_go_ne_empty (sep : String) (l : List String) (acc : String)
    (h : acc ≠ "") : String.intercalate.go acc sep l ≠ "" := by
  induction l generalizing acc with
  | nil => simpa [String.intercalate.go] using h
  | cons b bs ih =>
    simp only [String.intercalate.go]
    exact ih _ (String_append_ne_empty_left _ _ (String_append_ne_empty_left _ _ h))

theorem intercalate_cons_ne_empty (sep a : String) (l : List String) (h : a ≠ "") :
    sep.intercalate (a :: l) ≠ "" := by
  simp only [String.intercalate]
  exact intercalate_go_ne_empty sep l a h

set_option maxRecDepth 100000 in
theorem errorsAmericanEnglish_nonempty : ∀ p ∈ errorsAmericanEnglish, p.2 ≠ "" := by decide

set_option maxRecDepth 100000 in
theorem errorsFrench_nonempty : ∀ p ∈ errorsFrench, p.2 ≠ "" := by decide

theorem mapGet_mem (m : List (Int × String)) (k : Int) (v : String)
    (h : mapGet m k = some v) : (k, v) ∈ m := by
  induction m with
  | nil => simp [mapGet, List.lookup] at h
  | cons p ps ih =>
    obtain ⟨a, b⟩ := p
    by_cases hk : k = a
    · subst hk
      simp [mapGet, List.lookup] at h
      simp [h]
    · have hne : (k == a) = false := by simpa using hk
      simp only [mapGet, List.lookup, hne] at h
      exact List.mem_cons_of_mem _ (ih h)

theorem unknown_english_message :
    mapIndex errorsAmericanEnglish ErrUnknownError.ID = "internal server error" := by decide

theorem Translate_ne_empty (R : Libs) (e : Error) (al : String) : e.Translate R al ≠ "" := by
  unfold Error.Translate
  have hen : ∀ v, mapGet errorsAmericanEnglish e.ID = some v → v ≠ "" :=
    fun v hv => errorsAmericanEnglish_nonempty _ (mapGet_mem _ _ _ hv)
  have hfr : ∀ v, mapGet errorsFrench e.ID = some v → v ≠ "" :=
    fun v hv => errorsFrench_nonempty _ (mapGet_mem _ _ _ hv)
  have hunk : mapIndex errorsAmericanEnglish ErrUnknownError.ID ≠ "" := by
    rw [unknown_english_message]; decide
  cases Error.Translate.tag R al with
  | French =>
    cases hl : mapGet errorsFrench e.ID with
    | none => simpa [hl] using hunk
    | some v => simpa [hl] using hfr v hl
  | AmericanEnglish =>
    cases hl : mapGet errorsAmericanEnglish e.ID with
    | none => simpa [hl] using hunk
    | some v => simpa [hl] using hen v hl
  | other name =>
    cases hl : mapGet errorsAmericanEnglish e.ID with
    | none => simpa [hl] using hunk
    | some v => simpa [hl] using hen v hl

theorem ExtractHTTPError_loop_spec (R : Libs) (al : String) (es : List GoError)
    (hd : GoError.derefOKAll es = true) :
    ∃ hs, List.Forall₂ (fun x h => ExtractHTTPError R x al = some h) es hs ∧
      ExtractHTTPError.loop R es al = some (hs.map Error.printLight) := by
  induction es with
  | nil => exact ⟨[], List.Forall₂.nil, rfl⟩
  | cons x rest ih =>
    rw [GoError.derefOKAll, Bool.and_eq_true] at hd
    obtain ⟨h, hx⟩ := ExtractHTTPError_returns R x al hd.1
    obtain ⟨hs, h1, h2⟩ := ih hd.2
    refine ⟨h :: hs, List.Forall₂.cons hx h1, ?_⟩
    rw [ExtractHTTPError.loop, hx, h2]
    rfl

theorem ExtractHTTPError_defaults_Message_ne_empty (R : Libs) (h : Error) (al : String) :
    (ExtractHTTPError.defaults R h al).Message ≠ "" := by
  unfold ExtractHTTPError.defaults
  simp only []
  split_ifs with h1 h2 h2
  · exact Translate_ne_empty R _ al
  · exact h2
  · exact Translate_ne_empty R _ al
  · exact h2

theorem ExtractHTTPError_defaults_Status_ne_zero (R : Libs) (h : Error) (al : String) :
    (ExtractHTTPError.defaults R h al).Status ≠ 0 := by
  unfold ExtractHTTPError.defaults
  simp only []
  split_ifs with h1 h2 h2
  · exact (by decide : ErrUnknownError.Status ≠ 0)
  · exact (by decide : ErrUnknownError.Status ≠ 0)
  · exact h1
  · exact h1

theorem ExtractHTTPError_defaults_Status (R : Libs) (h : Error) (al : String) :
    (ExtractHTTPError.defaults R h al).Status =
      (if h.Status = 0 then ErrUnknownError.Status else h.Status) := by
  unfold ExtractHTTPError.defaults
  simp only []
  split_ifs <;> rfl

theorem ExtractHTTPError_some (R : Libs) (source : GoError) (al : String) (e : Error)
    (he : ExtractHTTPError R source al = some e) :
    ∃ r, ExtractHTTPError.resolved R source al = some r ∧
      e = ExtractHTTPError.defaults R r al := by
  rw [ExtractHTTPError_eq] at he
  cases hr : ExtractHTTPError.resolved R source al with
  | none => rw [hr] at he; exact Option.noConfusion he
  | some r =>
    rw [hr] at he
    exact ⟨r, rfl, (Option.some.inj he).symm⟩

theorem ExtractHTTPError_msg_ne_empty (R : Libs) (source : GoError) (al : String) (e : Error)
    (he : ExtractHTTPError R source al = some e) : e.Message ≠ "" := by
  obtain ⟨r, _, h⟩ := ExtractHTTPError_some R source al e he
  rw [h]
  exact ExtractHTTPError_defaults_Message_ne_empty R r al

theorem ExtractHTTPError_Status_ne_zero (R : Libs) (source : GoError) (al : String) (e : Error)
    (he : ExtractHTTPError R source al = some e) : e.Status ≠ 0 := by
  obtain ⟨r, _, h⟩ := ExtractHTTPError_some R source al e he
  rw [h]
  exact ExtractHTTPError_defaults_Status_ne_zero R r al

theorem printLight_ne_empty_of_Message (e : Error) (h : e.Message ≠ "") :
    e.printLight ≠ "" := by
  unfold Error.printLight
  simp only [h, ne_eq, not_false_eq_true, if_true]
  split_ifs
  · exact h
  · exact String_append_ne_empty_left _ _ (String_append_ne_empty_left _ _ h)

theorem renderContractMsg_ne_empty (e : Error) : renderContractMsg e ≠ "" := by
  unfold renderContractMsg
  split_ifs with hm
  · cases hl : mapGet errorsAmericanEnglish e.ID with
    | none => rw [Option.getD_none, unknown_english_message]; decide
    | some v =>
      rw [Option.getD_some]
      exact errorsAmericanEnglish_nonempty _ (mapGet_mem _ _ _ hl)
  · exact hm

theorem Error_eq_renderContractFull (e : Error) : e.Error = renderContractFull e := by
  unfold Error.Error renderContractFull renderContractMsg
  by_cases hm : e.Message = "" <;> by_cases hf : e.From = "" <;>
    cases hl : mapGet errorsAmericanEnglish e.ID <;> simp [hm, hf]

theorem printLight_eq_renderContractLight (e : Error) :
    e.printLight = renderContractLight e := by
  unfold Error.printLight renderContractLight renderContractMsg
  by_cases hm : e.Message = "" <;> by_cases hf : e.From = "" <;>
    cases hl : mapGet errorsAmericanEnglish e.ID <;> simp [hm, hf]

/-! ## Extraction: status, message, aggregates -/

/-- C11, as the code has it: for a source that holds no nil `*MultiError` (it
is not one, and neither are the elements of an aggregate, at any depth),
`ExtractHTTPError(source, al)` returns, and its Status is never 0: it is the
Status of the classification resolved by the type switch when that is non-zero,
and the Status of `ErrUnknownError`, 500, otherwise, as for an
`Error{ID: n}` built without a status. -/
theorem ExtractHTTPError_Status (R : Libs) (source : GoError) (al : String) (n : Int)
    (hd : source.derefOK = true) :
    (∃ e r, ExtractHTTPError R source al = some e ∧
      ExtractHTTPError.resolved R source al = some r ∧
      e.Status ≠ 0 ∧
      e.Status = (if r.Status = 0 then ErrUnknownError.Status else r.Status)) ∧
    ErrUnknownError.Status = 500 ∧
    (ExtractHTTPError R (GoError.bare { ID := n, Status := 0 }) al).map Error.Status
      = some 500 := by
  refine ⟨?_, rfl, ?_⟩
  · obtain ⟨e, he⟩ := ExtractHTTPError_returns R source al hd
    obtain ⟨r, hr, h⟩ := ExtractHTTPError_some R source al e he
    refine ⟨e, r, he, hr, ExtractHTTPError_Status_ne_zero R source al e he, ?_⟩
    rw [h]
    exact ExtractHTTPError_defaults_Status R r al
  · rw [ExtractHTTPError_eq]
    simp only [ExtractHTTPError.resolved, Option.map_some', ExtractHTTPError_defaults_Status]
    rfl

theorem ExtractHTTPError_Status_witness :
    (∃ e r, ExtractHTTPError sampleLibs
        (GoError.MultiError [GoError.bare { ID := 7, Status := 0 }, GoError.nil]) "fr" = some e ∧
      ExtractHTTPError.resolved sampleLibs
        (GoError.MultiError [GoError.bare { ID := 7, Status := 0 }, GoError.nil]) "fr" = some r ∧
      e.Status ≠ 0 ∧
      e.Status = (if r.Status = 0 then ErrUnknownError.Status else r.Status)) ∧
    ErrUnknownError.Status = 500 ∧
    (ExtractHTTPError sampleLibs (GoError.bare { ID := 7, Status := 0 }) "fr").map Error.Status
      = some 500 :=
  ExtractHTTPError_Status sampleLibs
    (GoError.MultiError [GoError.bare { ID := 7, Status := 0 }, GoError.nil]) "fr" 7 rfl

/-- C11, as stated, fails: on a nil `*MultiError` source `ExtractHTTPError`
panics at `range *e` before the status is defaulted, and so it does on an
aggregate that holds one: no Status is returned. -/
theorem ExtractHTTPError_Status_panics_on_nil_MultiError :
    (ExtractHTTPError sampleLibs GoError.nilMultiError "en-US").map Error.Status = none ∧
    (ExtractHTTPError sampleLibs
      (GoError.MultiError [GoError.bare ErrForbidden, GoError.nilMultiError]) "en-US").map
        Error.Status = none :=
  ⟨rfl, rfl⟩

/-- C12: for an `errorWithStack` or an `Error` source with classification `c`,
`ExtractHTTPError(source, al)` returns a value whose Message is `c.Message` when
that is non-empty and `c.Translate(al)` when it is empty, and whose ID, Data,
RequestID, StackTrace and From are those of `c`. -/
theorem ExtractHTTPError_Message (R : Libs) (root : GoError) (st : Option stack) (c : Error)
    (al : String) :
    ExtractHTTPError R (GoError.errorWithStack root st c) al = ExtractHTTPError R (GoError.bare c) al ∧
    ∃ e, ExtractHTTPError R (GoError.bare c) al = some e ∧
      e.Message = (if c.Message = "" then c.Translate R al else c.Message) ∧
      e.ID = c.ID ∧ e.Data = c.Data ∧ e.RequestID = c.RequestID ∧
      e.StackTrace = c.StackTrace ∧ e.From = c.From := by
  refine ⟨rfl, ExtractHTTPError.defaults R c al, rfl, ?_, ?_, ?_, ?_, ?_, ?_⟩ <;>
    (unfold ExtractHTTPError.defaults; simp only []; split_ifs <;> rfl)

/-! ## Translation -/

/-- C13: `Translate` never returns the empty string, for every `Error` value
(whatever its ID) and every header, whatever the library makes of the header;
in particular for the headers `en-US` and `fr-FR`. -/
theorem Translate_never_empty (R : Libs) (e : Error) (al : String) :
    e.Translate R al ≠ "" ∧ e.Translate R "en-US" ≠ "" ∧ e.Translate R "fr-FR" ≠ "" :=
  ⟨Translate_ne_empty R e al, Translate_ne_empty R e "en-US", Translate_ne_empty R e "fr-FR"⟩

/-- C14, as the code has it: when the catalog read for the negotiated tag has no
entry for the ID, `Translate` returns the English message of the Unknown kind,
`internal server error`, whatever tag was negotiated. -/
theorem Translate_fallback_is_english (R : Libs) (e : Error) (al : String)
    (h : mapGet (Error.Translate.catalog R al) e.ID = none) :
    e.Translate R al = mapIndex errorsAmericanEnglish ErrUnknownError.ID ∧
    e.Translate R al = "internal server error" := by
  have key : e.Translate R al = mapIndex errorsAmericanEnglish ErrUnknownError.ID := by
    unfold Error.Translate
    unfold Error.Translate.catalog at h
    cases ht : Error.Translate.tag R al <;> simp only [ht] at h ⊢ <;> simp only [h]
  exact ⟨key, key.trans unknown_english_message⟩

theorem Translate_fallback_is_english_witness :
    ErrJobLocked.Translate sampleLibs "fr" = mapIndex errorsAmericanEnglish ErrUnknownError.ID ∧
    ErrJobLocked.Translate sampleLibs "fr" = "internal server error" :=
  Translate_fallback_is_english sampleLibs ErrJobLocked "fr" (by decide)

/-- C14, as stated, fails: the header `fr` negotiates French, the French catalog
has no entry for the declared kind `ErrJobLocked`, and `Translate` returns
`internal server error`, which is not the French message of the Unknown kind,
`erreur interne`. -/
theorem Translate_fallback_not_french :
    Error.Translate.tag sampleLibs "fr" = language.Tag.French ∧
    mapGet errorsFrench ErrJobLocked.ID = none ∧
    mapIndex errorsFrench ErrUnknownError.ID = "erreur interne" ∧
    ErrJobLocked.Translate sampleLibs "fr" = "internal server error" ∧
    ErrJobLocked.Translate sampleLibs "fr" ≠ mapIndex errorsFrench ErrUnknownError.ID := by
  decide

/-- C15, as the code has it: for a non-empty `*MultiError` none of whose
elements holds a nil `*MultiError` (no element is one, nor an element of an
element that is an aggregate, at any depth), `ExtractHTTPError` returns on every
element and on the aggregate; the result has the ID of `ErrUnknownError`, Status
500, and as Message the join with `, `, in element order, of
`ExtractHTTPError(m[i], al).printLight()`. -/
theorem ExtractHTTPError_MultiError (R : Libs) (es : List GoError) (al : String)
    (hne : es ≠ []) (hd : GoError.derefOKAll es = true) :
    ∃ hs e, List.Forall₂ (fun x h => ExtractHTTPError R x al = some h) es hs ∧
      ExtractHTTPError R (GoError.MultiError es) al = some e ∧
      e.ID = ErrUnknownError.ID ∧ e.Status = 500 ∧
      e.Message = ", ".intercalate (hs.map Error.printLight) := by
  obtain ⟨hs, hall, hloop⟩ := ExtractHTTPError_loop_spec R al es hd
  have hjoin : ", ".intercalate (hs.map Error.printLight) ≠ "" := by
    cases hall with
    | nil => exact absurd rfl hne
    | cons hx hrest =>
      rw [List.map_cons]
      exact intercalate_cons_ne_empty _ _ _
        (printLight_ne_empty_of_Message _ (ExtractHTTPError_msg_ne_empty R _ al _ hx))
  have he : ExtractHTTPError R (GoError.MultiError es) al =
      some (ExtractHTTPError.defaults R
        { ErrUnknownError with Message := ", ".intercalate (hs.map Error.printLight) } al) := by
    rw [ExtractHTTPError_eq]
    simp only [ExtractHTTPError.resolved, hloop, Option.map_some']
  refine ⟨hs, _, hall, he, ExtractHTTPError_defaults_ID R _ al, ?_, ?_⟩
  · rw [ExtractHTTPError_defaults_Status]
    rfl
  · unfold ExtractHTTPError.defaults
    simp only []
    split_ifs <;> rfl

theorem ExtractHTTPError_MultiError_witness :
    ∃ hs e,
      List.Forall₂ (fun x h => ExtractHTTPError sampleLibs x "fr" = some h)
        [GoError.bare ErrNotFound, GoError.foreign "boom"] hs ∧
      ExtractHTTPError sampleLibs
        (GoError.MultiError [GoError.bare ErrNotFound, GoError.foreign "boom"]) "fr" = some e ∧
      e.ID = ErrUnknownError.ID ∧ e.Status = 500 ∧
      e.Message = ", ".intercalate (hs.map Error.printLight) :=
  ExtractHTTPError_MultiError sampleLibs [GoError.bare ErrNotFound, GoError.foreign "boom"] "fr"
    (by simp) rfl

/-- C15, as stated, fails: the aggregate whose elements are `ErrNotFound` and a
nil `*MultiError` is not empty, and `ExtractHTTPError` of it panics in the loop,
in the call on the nil pointer (`range *e`): no message is returned. -/
theorem ExtractHTTPError_MultiError_panics_on_nil_element :
    [GoError.bare ErrNotFound, GoError.nilMultiError] ≠ [] ∧
    ExtractHTTPError sampleLibs GoError.nilMultiError "fr" = none ∧
    ExtractHTTPError sampleLibs
      (GoError.MultiError [GoError.bare ErrNotFound, GoError.nilMultiError]) "fr" = none := by
  refine ⟨by simp, rfl, rfl⟩

/-! ## Renders -/

/-- C16: `Error.Error` and `Error.printLight` are the full and the light render
of the render contracts (`msg(e)`, followed by ` (from: X)`, respectively `: X`,
when `From` is non-empty); neither is ever empty, and neither depends on the
fields `StackTrace`, `Status`, `Data` or `RequestID`. -/
theorem render_contracts (e : Error) (status : Int) (data : Any) (rid trace : String) :
    e.Error = renderContractFull e ∧ e.printLight = renderContractLight e ∧
    e.Error ≠ "" ∧ e.printLight ≠ "" ∧
    Error.Error { e with Status := status, Data := data, RequestID := rid, StackTrace := trace }
      = e.Error ∧
    Error.printLight
      { e with Status := status, Data := data, RequestID := rid, StackTrace := trace }
      = e.printLight := by
  refine ⟨Error_eq_renderContractFull e, printLight_eq_renderContractLight e, ?_, ?_, rfl, rfl⟩
  · rw [Error_eq_renderContractFull]
    unfold renderContractFull
    split_ifs
    · exact renderContractMsg_ne_empty e
    · exact String_append_ne_empty_left _ _ (String_append_ne_empty_left _ _
        (String_append_ne_empty_left _ _ (renderContractMsg_ne_empty e)))
  · rw [printLight_eq_renderContractLight]
    unfold renderContractLight
    split_ifs
    · exact renderContractMsg_ne_empty e
    · exact String_append_ne_empty_left _ _ (String_append_ne_empty_left _ _
        (renderContractMsg_ne_empty e))

/-! ## Classification of aggregates and of fresh errors -/

/-- C17, as the code has it: on a `*MultiError` none of whose elements holds a
nil `*MultiError` (at any depth), `ExtractHTTPError` returns on every element
and `NewError(k, m)` is an `errorWithStack` whose `httpError` has the ID,
Status, Message, Data, RequestID and StackTrace of `k` and whose `From` is the
join with `, `, in element order, of `ExtractHTTPError(m[i], "").printLight()`;
its root wraps `m` and its stack is captured at the call. -/
theorem NewError_on_MultiError (R : Libs) (cs : List String) (k : Error) (es : List GoError)
    (hd : GoError.derefOKAll es = true) :
    ∃ hs, List.Forall₂ (fun x h => ExtractHTTPError R x "" = some h) es hs ∧
      NewError R cs k (GoError.MultiError es) =
        some (GoError.errorWithStack (GoError.withStack (GoError.MultiError es)) (callers cs)
          { ID := k.ID, Status := k.Status, Message := k.Message, Data := k.Data,
            RequestID := k.RequestID, StackTrace := k.StackTrace,
            From := ", ".intercalate (hs.map Error.printLight) }) := by
  obtain ⟨hs, hall, hloop⟩ := ExtractHTTPError_loop_spec R "" es hd
  refine ⟨hs, hall, ?_⟩
  rw [NewError_MultiError, hloop]
  rfl

theorem NewError_on_MultiError_witness :
    ∃ hs,
      List.Forall₂ (fun x h => ExtractHTTPError sampleLibs x "" = some h)
        [GoError.bare ErrForbidden, GoError.foreign "boom", GoError.nil] hs ∧
      NewError sampleLibs ["github.com/ovh/cds/engine/api.main"] ErrNotFound
          (GoError.MultiError [GoError.bare ErrForbidden, GoError.foreign "boom", GoError.nil]) =
        some (GoError.errorWithStack
          (GoError.withStack
            (GoError.MultiError [GoError.bare ErrForbidden, GoError.foreign "boom", GoError.nil]))
          (callers ["github.com/ovh/cds/engine/api.main"])
          { ID := ErrNotFound.ID, Status := ErrNotFound.Status, Message := ErrNotFound.Message,
            Data := ErrNotFound.Data, RequestID := ErrNotFound.RequestID,
            StackTrace := ErrNotFound.StackTrace,
            From := ", ".intercalate (hs.map Error.printLight) }) :=
  NewError_on_MultiError sampleLibs ["github.com/ovh/cds/engine/api.main"] ErrNotFound
    [GoError.bare ErrForbidden, GoError.foreign "boom", GoError.nil] rfl

/-- C17, as stated, fails: `NewError(k, m)` panics at `range *e` when `m` is a
nil `*MultiError`, and in `ExtractHTTPError` when an element of `m` is one: no
`errorWithStack` is returned. -/
theorem NewError_on_MultiError_panics_on_nil_pointer :
    GoError.nilMultiError.isMultiError = true ∧
    NewError sampleLibs [] ErrForbidden GoError.nilMultiError = none ∧
    NewError sampleLibs [] ErrForbidden
      (GoError.MultiError [GoError.foreign "boom", GoError.nilMultiError]) = none :=
  ⟨rfl, rfl, rfl⟩

/-- C18: for a non-nil `raw` that is neither an `errorWithStack` nor a
`*MultiError` and whose `Error()` returns `s`, `NewError(k, raw)` is an
`errorWithStack` whose root wraps `raw`, whose `Cause` is `Cause(raw)`, and whose
`httpError` is `k` with `From` replaced by `s`. -/
theorem NewError_fresh (R : Libs) (cs : List String) (k : Error) (raw : GoError) (s : String)
    (hnil : raw ≠ GoError.nil) (hws : raw.isErrorWithStack = false)
    (hmulti : raw.isMultiError = false) (hE : raw.Error = some s) :
    NewError R cs k raw =
      some (GoError.errorWithStack (GoError.withStack raw) (callers cs)
        { ID := k.ID, Status := k.Status, Message := k.Message, Data := k.Data,
          RequestID := k.RequestID, StackTrace := k.StackTrace, From := s }) ∧
    Cause (GoError.errorWithStack (GoError.withStack raw) (callers cs)
        { ID := k.ID, Status := k.Status, Message := k.Message, Data := k.Data,
          RequestID := k.RequestID, StackTrace := k.StackTrace, From := s }) = Cause raw := by
  cases raw with
  | nil => exact absurd rfl hnil
  | errorWithStack root st h => simp [GoError.isErrorWithStack] at hws
  | MultiError es => simp [GoError.isMultiError] at hmulti
  | nilMultiError => simp [GoError.isMultiError] at hmulti
  | foreign msg => exact ⟨by simp only [NewError, hE]; rfl, rfl⟩
  | bare e => exact ⟨by simp only [NewError, hE]; rfl, rfl⟩
  | withStack inner => exact ⟨by simp only [NewError, hE]; rfl, rfl⟩
  | withMessage cause msg => exact ⟨by simp only [NewError, hE]; rfl, rfl⟩

theorem NewError_fresh_witness :
    NewError sampleLibs ["github.com/ovh/cds/engine/api.main"]
        { ID := 38, Status := 404, From := "earlier" } (GoError.foreign "connection refused") =
      some (GoError.errorWithStack (GoError.withStack (GoError.foreign "connection refused"))
        (callers ["github.com/ovh/cds/engine/api.main"])
        { ID := 38, Status := 404, Message := "", Data := Any.null, RequestID := "",
          StackTrace := "", From := "connection refused" }) ∧
    Cause (GoError.errorWithStack (GoError.withStack (GoError.foreign "connection refused"))
        (callers ["github.com/ovh/cds/engine/api.main"])
        { ID := 38, Status := 404, Message := "", Data := Any.null, RequestID := "",
          StackTrace := "", From := "connection refused" }) =
      Cause (GoError.foreign "connection refused") :=
  NewError_fresh sampleLibs ["github.com/ovh/cds/engine/api.main"]
    { ID := 38, Status := 404, From := "earlier" } (GoError.foreign "connection refused")
    "connection refused" (by simp) rfl rfl rfl

/-! ## Wrapping and annotation -/

/-- C19: on an `errorWithStack`, `WrapError` keeps `httpError` and `stack` and
wraps the root with the message `m`, so that the root renders as `m`, `: ` and
the render of the old root; on a non-nil error that is neither an
`errorWithStack` nor an `Error` it returns an `errorWithStack` of kind
`ErrUnknownError` whose `Cause` is the `Cause` of the error, which for an error
with no `Cause` method is the error itself. -/
theorem WrapError_frame (R : Libs) (cs : List String) (root : GoError) (st : Option stack)
    (h : Error) (format : String) (args : List Any) (msg : String) (err : GoError)
    (hnil : err ≠ GoError.nil) (hws : err.isErrorWithStack = false)
    (hbare : err.isBare = false) :
    WrapError R cs (GoError.errorWithStack root st h) format args =
      GoError.errorWithStack (errors.WithMessage root (R.Sprintf format args)) st h ∧
    (errors.WithMessage root (R.Sprintf format args)).Error =
      root.Error.map (fun r => R.Sprintf format args ++ ": " ++ r) ∧
    (WrapError R cs err format args).httpErrorField = some ErrUnknownError ∧
    Cause (WrapError R cs err format args) = Cause err ∧
    Cause (WrapError R cs (GoError.foreign msg) format args) = GoError.foreign msg := by
  refine ⟨rfl, ?_, ?_, ?_, rfl⟩
  · cases root <;> simp only [errors.WithMessage, GoError.Error] <;>
      first | rfl | (split <;> simp_all)
  · cases err with
    | nil => exact absurd rfl hnil
    | errorWithStack root st h => simp [GoError.isErrorWithStack] at hws
    | bare e => simp [GoError.isBare] at hbare
    | MultiError es => rfl
    | nilMultiError => rfl
    | foreign msg => rfl
    | withStack inner => rfl
    | withMessage cause msg => rfl
  · cases err with
    | nil => exact absurd rfl hnil
    | errorWithStack root st h => simp [GoError.isErrorWithStack] at hws
    | bare e => simp [GoError.isBare] at hbare
    | MultiError es => rfl
    | nilMultiError => rfl
    | foreign msg => rfl
    | withStack inner => rfl
    | withMessage cause msg => rfl

theorem WrapError_frame_witness :
    WrapError sampleLibs [] (GoError.errorWithStack (GoError.foreign "boom") (some []) ErrNotFound)
        "loading project" [] =
      GoError.errorWithStack
        (errors.WithMessage (GoError.foreign "boom") (sampleLibs.Sprintf "loading project" []))
        (some []) ErrNotFound ∧
    (errors.WithMessage (GoError.foreign "boom") (sampleLibs.Sprintf "loading project" [])).Error =
      (GoError.foreign "boom").Error.map
        (fun r => sampleLibs.Sprintf "loading project" [] ++ ": " ++ r) ∧
    (WrapError sampleLibs [] (GoError.withStack (GoError.foreign "eof")) "loading project"
        []).httpErrorField = some ErrUnknownError ∧
    Cause (WrapError sampleLibs [] (GoError.withStack (GoError.foreign "eof")) "loading project" [])
      = Cause (GoError.withStack (GoError.foreign "eof")) ∧
    Cause (WrapError sampleLibs [] (GoError.foreign "refused") "loading project" [])
      = GoError.foreign "refused" :=
  WrapError_frame sampleLibs [] (GoError.foreign "boom") (some []) ErrNotFound "loading project" []
    "refused" (GoError.withStack (GoError.foreign "eof")) (by simp) rfl rfl

/-- C20: `NewErrorFrom` on an `errorWithStack` keeps the root, the stack and
the fields ID, Status, Message, Data, RequestID and StackTrace of its
`httpError`, and sets `From` to the formatted context. -/
theorem NewErrorFrom_on_errorWithStack (R : Libs) (cs : List String) (root : GoError)
    (st : Option stack) (h : Error) (frm : String) (args : List Any) :
    NewErrorFrom R cs (GoError.errorWithStack root st h) frm args =
      some (GoError.errorWithStack root st
        { ID := h.ID, Status := h.Status, Message := h.Message, Data := h.Data,
          RequestID := h.RequestID, StackTrace := h.StackTrace, From := R.Errorf frm args }) :=
  rfl


/-! ## The in-place `reverse` -/

theorem reverse_swap_length (ss : List String) (i j : Nat) :
    (reverse.swap ss i j).length = ss.length := by
  simp [reverse.swap]

theorem reverse_swap_getElem? (ss : List String) (i j k : Nat) (hi : i < ss.length)
    (hj : j < ss.length) :
    (reverse.swap ss i j)[k]? =
      if k = j then ss[i]? else if k = i then ss[j]? else ss[k]? := by
  unfold reverse.swap
  rw [List.getElem?_set]
  by_cases hkj : k = j
  · subst hkj
    simp [hi, List.getD_eq_getElem?_getD, List.getElem?_eq_getElem, hj]
  · have hjk : ¬ j = k := fun h => hkj h.symm
    simp only [hjk, hkj, if_false]
    rw [List.getElem?_set]
    by_cases hki : k = i
    · subst hki
      simp [hi, List.getD_eq_getElem?_getD, List.getElem?_eq_getElem, hj]
    · have hik : ¬ i = k := fun h => hki h.symm
      simp [hik, hki]

theorem reverse_loop_spec (orig : List String) :
    ∀ (n i : Nat) (ss : List String), ss.length = orig.length → i + n = orig.length / 2 →
      (∀ k, k < orig.length →
        ss[k]? = if k < i ∨ orig.length - i ≤ k then orig[orig.length - 1 - k]? else orig[k]?) →
      ∀ k, k < orig.length →
        (reverse.loop (orig.length - 1) n i ss)[k]? = orig[orig.length - 1 - k]? := by
  intro n
  induction n with
  | zero =>
    intro i ss hlen hin hinv k hk
    simp only [reverse.loop]
    rw [hinv k hk]
    by_cases hc : k < i ∨ orig.length - i ≤ k
    · rw [if_pos hc]
    · rw [if_neg hc]
      have : orig.length - 1 - k = k := by omega
      rw [this]
  | succ n ih =>
    intro i ss hlen hin hinv k hk
    simp only [reverse.loop]
    have hi : i < ss.length := by omega
    have hj : orig.length - 1 - i < ss.length := by omega
    apply ih (i + 1) _ (by rw [reverse_swap_length]; exact hlen) (by omega) _ k hk
    intro k' hk'
    rw [reverse_swap_getElem? ss i _ k' hi hj]
    by_cases h1 : k' = orig.length - 1 - i
    · have e1 : orig.length - 1 - k' = i := by omega
      have c1 : ¬ (i < i ∨ orig.length - i ≤ i) := by omega
      have c2 : (k' < i + 1 ∨ orig.length - (i + 1) ≤ k') := by omega
      rw [if_pos h1, if_pos c2, hinv i (by omega), if_neg c1, e1]
    · rw [if_neg h1]
      by_cases h2 : k' = i
      · have c1 : ¬ (orig.length - 1 - i < i ∨ orig.length - i ≤ orig.length - 1 - i) := by
          omega
        have c2 : (k' < i + 1 ∨ orig.length - (i + 1) ≤ k') := by omega
        rw [if_pos h2, if_pos c2, hinv (orig.length - 1 - i) (by omega), if_neg c1, h2]
      · rw [if_neg h2, hinv k' hk']
        by_cases hc : k' < i ∨ orig.length - i ≤ k'
        · have hc' : (k' < i + 1 ∨ orig.length - (i + 1) ≤ k') := by omega
          rw [if_pos hc, if_pos hc']
        · have hc' : ¬ (k' < i + 1 ∨ orig.length - (i + 1) ≤ k') := by omega
          rw [if_neg hc, if_neg hc']

theorem reverse_loop_length (last : Nat) :
    ∀ (n i : Nat) (ss : List String), (reverse.loop last n i ss).length = ss.length := by
  intro n
  induction n with
  | zero => intro i ss; rfl
  | succ n ih => intro i ss; simp only [reverse.loop]; rw [ih, reverse_swap_length]

theorem reverse_eq_reverse (ss : List String) : reverse ss = ss.reverse := by
  apply List.ext_getElem?
  intro k
  unfold reverse
  by_cases hk : k < ss.length
  · have hinv : ∀ k', k' < ss.length → ss[k']? =
        if k' < 0 ∨ ss.length - 0 ≤ k' then ss[ss.length - 1 - k']? else ss[k']? := by
      intro k' hk'
      have hc : ¬ (k' < 0 ∨ ss.length - 0 ≤ k') := by omega
      rw [if_neg hc]
    rw [reverse_loop_spec ss (ss.length / 2) 0 ss rfl (by omega) hinv k hk]
    rw [List.getElem?_reverse hk]
  · have h1 : (reverse.loop (ss.length - 1) (ss.length / 2) 0 ss).length ≤ k := by
      rw [reverse_loop_length]; omega
    have h2 : ss.reverse.length ≤ k := by simp; omega
    rw [List.getElem?_eq_none h1, List.getElem?_eq_none h2]

/-! ## Facts about `strings.Split` and the frame reduction -/

theorem Split_eq (sep : Char) (l : List Char) :
    strings.Split sep l =
      l.takeWhile (fun c => c != sep) ::
        (if sep ∈ l then strings.Split sep ((l.dropWhile (fun c => c != sep)).tail) else []) := by
  induction l with
  | nil => simp [strings.Split]
  | cons c cs ih =>
    by_cases hc : c = sep
    · subst hc
      simp [strings.Split, List.takeWhile, List.dropWhile]
    · have hne : (c != sep) = true := by simpa using hc
      have hmem : (sep ∈ c :: cs) ↔ sep ∈ cs := by
        constructor
        · intro h
          rcases List.mem_cons.mp h with h | h
          · exact absurd h.symm hc
          · exact h
        · exact List.mem_cons_of_mem _
      rw [strings.Split, if_neg hc, ih]
      simp only [List.takeWhile, List.dropWhile, hne, hmem]

theorem index?_Split_one (sep : Char) (l : List Char) :
    index? (strings.Split sep l) 1 =
      if sep ∈ l then
        some (((l.dropWhile (fun c => c != sep)).tail).takeWhile (fun c => c != sep))
      else none := by
  rw [Split_eq]
  by_cases h : sep ∈ l
  · rw [if_pos h, if_pos h, Split_eq]
    rfl
  · rw [if_neg h, if_neg h]
    rfl

theorem index?_Split_two (sep : Char) (l : List Char) (h : sep ∈ l) :
    index? (strings.Split sep l) 2 =
      index? (strings.Split sep ((l.dropWhile (fun c => c != sep)).tail)) 1 := by
  rw [Split_eq, if_pos h]
  rfl

theorem paren_prefix_takeWhile (l : List Char) :
    strings.hasPrefix (String.mk (l.takeWhile (fun c => c != '.'))) "(" =
      (l.head? == some '(') := by
  cases l with
  | nil => rfl
  | cons c cs =>
    by_cases hc : c = '('
    · subst hc
      simp [strings.hasPrefix, List.takeWhile, List.isPrefixOf]
    · by_cases hd : c = '.'
      · subst hd
        simp [strings.hasPrefix, List.takeWhile, List.isPrefixOf]
      · have hne : (c != '.') = true := by simpa using hd
        simp [strings.hasPrefix, List.takeWhile, List.isPrefixOf, hne, hc]
        exact fun h => hc h.symm

theorem reducedName_isSome_of_symbolShape (name : String) (h : symbolShape name = true) :
    (reducedName name).isSome = true := by
  unfold symbolShape at h
  simp only [Bool.and_eq_true, Bool.or_eq_true, bne_iff_ne, ne_eq] at h
  obtain ⟨hdot0, hafter0⟩ := h
  have hdot : '.' ∈ (strings.Split '/' name.data).getLastD [] := List.elem_iff.mp hdot0
  have hafter : ¬ (List.dropWhile (fun c => c != '.')
        ((strings.Split '/' name.data).getLastD [])).tail.head? = some '(' ∨
      '.' ∈ (List.dropWhile (fun c => c != '.')
        ((strings.Split '/' name.data).getLastD [])).tail :=
    hafter0.imp id (fun hc => List.elem_iff.mp hc)
  unfold reducedName
  simp only [index?_Split_one, if_pos hdot, paren_prefix_takeWhile]
  by_cases hp : (List.dropWhile (fun c => c != '.')
      ((strings.Split '/' name.data).getLastD [])).tail.head? = some '('
  · have hdot2 := hafter.resolve_left (fun hn => hn hp)
    simp only [hp, beq_self_eq_true, if_true, index?_Split_two _ _ hdot, index?_Split_one,
      if_pos hdot2]
    rfl
  · have hb : ((List.dropWhile (fun c => c != '.')
        ((strings.Split '/' name.data).getLastD [])).tail.head? == some '(') = false := by
      simpa using hp
    simp only [hb, Bool.false_eq_true, if_false]
    rfl

theorem frameName_eq (name : String) :
    frameName name =
      if retainedFrame name then
        match reducedName name with
        | none => none
        | some n => if !(ignoredNames.contains n) then some (some n) else some none
      else some none := by
  unfold frameName retainedFrame reducedName StringSlice.Contains
  by_cases hv : strings.hasPrefix name "github.com/ovh/cds/vendor" = true
  · simp [hv]
  · by_cases hc : strings.hasPrefix name "github.com/ovh/cds" = true
    · simp only [hv, hc, Bool.not_false, Bool.and_self, if_true, Bool.false_eq_true, if_false]
      cases index? (strings.Split '.' ((strings.Split '/' name.data).getLastD [])) 1 with
      | none => rfl
      | some sp1 =>
        simp only []
        cases (if strings.hasPrefix (String.mk sp1) "(" = true then
            index? (strings.Split '.' ((strings.Split '/' name.data).getLastD [])) 2
          else some sp1) with
        | none => rfl
        | some n => rfl
    · simp [hv, hc]

theorem stackNames_eq (s : stack)
    (h : ∀ name ∈ s, retainedFrame name = true → (reducedName name).isSome = true) :
    stackNames s =
      some (((s.filter retainedFrame).filterMap reducedName).filter
        (fun n => !ignoredNames.contains n)) := by
  induction s with
  | nil => rfl
  | cons pc rest ih =>
    have ih' := ih (fun name hn => h name (List.mem_cons_of_mem _ hn))
    have hpc := h pc (List.mem_cons_self _ _)
    rw [stackNames, frameName_eq, ih']
    by_cases hr : retainedFrame pc = true
    · obtain ⟨n, hn⟩ := Option.isSome_iff_exists.mp (hpc hr)
      rw [if_pos hr, hn, List.filter_cons_of_pos hr, List.filterMap_cons_some hn]
      by_cases hi : (!ignoredNames.contains n) = true
      · simp only [hi, if_true, List.filter_cons_of_pos]
      · simp only [hi, if_false, Bool.false_eq_true]
        rw [@List.filter_cons_of_neg _ (fun n => !ignoredNames.contains n) n _ hi]
    · rw [if_neg hr, List.filter_cons_of_neg hr]

/-! ## Facts about `WithStack` and `MultiError.Append` -/

theorem derefOK_of_not_multi (err : GoError) (hm : err.isMultiError = false) :
    err.derefOK = true := by
  cases err <;> first | rfl | simp [GoError.isMultiError] at hm

theorem WithStack_isErrorWithStack (R : Libs) (cs : List String) (err : GoError)
    (hnil : err ≠ GoError.nil) (hd : err.derefOK = true) :
    ∃ w, WithStack R cs err = some w ∧ IsErrorWithStack w = true := by
  obtain ⟨root, st, h, hw⟩ := WithStack_classified R cs err hnil hd
  exact ⟨_, hw, rfl⟩

theorem Append_of_not_multi (R : Libs) (cs : List String) (e : List GoError) (err : GoError)
    (hnil : err ≠ GoError.nil) (hm : err.isMultiError = false) :
    MultiError.Append R cs e err =
      (WithStack R ("github.com/ovh/cds/sdk.(*MultiError).Append" :: cs) err).map
        (fun w => e ++ [w]) := by
  cases err <;> first
    | exact absurd rfl hnil
    | (simp [GoError.isMultiError] at hm; done)
    | rfl

mutual
theorem Append_adds (R : Libs) : ∀ (err : GoError) (cs : List String) (e : List GoError),
    err.derefOK = true →
    ∃ added, MultiError.Append R cs e err = some (e ++ added) ∧
      ∀ x ∈ added, IsErrorWithStack x = true
  | .nil, _, e, _ => ⟨[], by simp [MultiError.Append], by simp⟩
  | .nilMultiError, _, _, hd => absurd hd Bool.false_ne_true
  | .MultiError es, cs, e, hd => by
    obtain ⟨added, h1, h2⟩ :=
      Append_loop_adds R es ("github.com/ovh/cds/sdk.(*MultiError).Append" :: cs) e hd
    exact ⟨added, by rw [MultiError.Append]; exact h1, h2⟩
  | .foreign _, _, _, _ => ⟨[_], rfl, by simp [IsErrorWithStack]⟩
  | .bare _, _, _, _ => ⟨[_], rfl, by simp [IsErrorWithStack]⟩
  | .errorWithStack _ _ _, _, _, _ => ⟨[_], rfl, by simp [IsErrorWithStack]⟩
  | .withStack _, _, _, _ => ⟨[_], rfl, by simp [IsErrorWithStack]⟩
  | .withMessage _ _, _, _, _ => ⟨[_], rfl, by simp [IsErrorWithStack]⟩
theorem Append_loop_adds (R : Libs) : ∀ (es : List GoError) (cs : List String)
    (e : List GoError), GoError.derefOKAll es = true →
    ∃ added, MultiError.Append.loop R cs e es = some (e ++ added) ∧
      ∀ x ∈ added, IsErrorWithStack x = true
  | [], _, e, _ => ⟨[], by simp [MultiError.Append.loop], by simp⟩
  | x :: rest, cs, e, hd => by
    rw [GoError.derefOKAll, Bool.and_eq_true] at hd
    obtain ⟨a₁, h1, h2⟩ := Append_adds R x cs e hd.1
    obtain ⟨a₂, h3, h4⟩ := Append_loop_adds R rest cs (e ++ a₁) hd.2
    refine ⟨a₁ ++ a₂, ?_, ?_⟩
    · rw [MultiError.Append.loop, h1]
      simp only [h3, List.append_assoc]
    · intro y hy
      rcases List.mem_append.mp hy with hy | hy
      · exact h2 y hy
      · exact h4 y hy
end

mutual
theorem Append_panics (R : Libs) : ∀ (err : GoError) (cs : List String) (e : List GoError),
    err.derefOK = false → MultiError.Append R cs e err = none
  | .nilMultiError, _, _, _ => rfl
  | .MultiError es, cs, e, hd => by
    rw [MultiError.Append]
    exact Append_loop_panics R es _ e hd
  | .nil, _, _, hd => absurd hd Bool.noConfusion
  | .foreign _, _, _, hd => absurd hd Bool.noConfusion
  | .bare _, _, _, hd => absurd hd Bool.noConfusion
  | .errorWithStack _ _ _, _, _, hd => absurd hd Bool.noConfusion
  | .withStack _, _, _, hd => absurd hd Bool.noConfusion
  | .withMessage _ _, _, _, hd => absurd hd Bool.noConfusion
theorem Append_loop_panics (R : Libs) : ∀ (es : List GoError) (cs : List String)
    (e : List GoError), GoError.derefOKAll es = false → MultiError.Append.loop R cs e es = none
  | [], _, _, hd => absurd hd Bool.noConfusion
  | x :: rest, cs, e, hd => by
    rw [GoError.derefOKAll, Bool.and_eq_false_iff] at hd
    rw [MultiError.Append.loop]
    cases hx : MultiError.Append R cs e x with
    | none => rfl
    | some e₁ =>
      rcases hd with hd | hd
      · rw [Append_panics R x cs e hd] at hx
        exact Option.noConfusion hx
      · exact Append_loop_panics R rest cs e₁ hd
end

theorem Append_isSome (R : Libs) (cs : List String) (e : List GoError) (err : GoError) :
    (MultiError.Append R cs e err).isSome = err.derefOK := by
  cases hd : err.derefOK with
  | true =>
    obtain ⟨added, h, _⟩ := Append_adds R err cs e hd
    rw [h]; rfl
  | false => rw [Append_panics R err cs e hd]; rfl

theorem Append_loop_eq_foldlM (R : Libs) (cs : List String) (es : List GoError) :
    ∀ e, MultiError.Append.loop R cs e es =
      es.foldlM (fun acc x => MultiError.Append R cs acc x) e := by
  induction es with
  | nil => intro e; rfl
  | cons x rest ih =>
    intro e
    rw [MultiError.Append.loop, List.foldlM_cons]
    cases h : MultiError.Append R cs e x with
    | none => rfl
    | some e₁ => exact ih e₁

theorem Append_loop_flat (R : Libs) (cs : List String) (m : List GoError)
    (hflat : ∀ x ∈ m, x ≠ GoError.nil ∧ x.isMultiError = false) :
    ∀ e, ∃ added, MultiError.Append.loop R cs e m = some (e ++ added) ∧
      List.Forall₂
        (fun x w => WithStack R ("github.com/ovh/cds/sdk.(*MultiError).Append" :: cs) x = some w)
        m added := by
  induction m with
  | nil => intro e; exact ⟨[], by simp [MultiError.Append.loop], List.Forall₂.nil⟩
  | cons x rest ih =>
    intro e
    obtain ⟨hx1, hx2⟩ := hflat x (List.mem_cons_self _ _)
    obtain ⟨w, hw, _⟩ :=
      WithStack_isErrorWithStack R ("github.com/ovh/cds/sdk.(*MultiError).Append" :: cs) x hx1
        (derefOK_of_not_multi x hx2)
    obtain ⟨added, h1, h2⟩ :=
      ih (fun y hy => hflat y (List.mem_cons_of_mem _ hy)) (e ++ [w])
    refine ⟨w :: added, ?_, List.Forall₂.cons hw h2⟩
    rw [MultiError.Append.loop, Append_of_not_multi R cs e x hx1 hx2, hw]
    simp only [Option.map_some', h1, List.append_assoc, List.singleton_append]

theorem Join_eq_append (j : List GoError) : ∀ e, MultiError.Join e j = e ++ j := by
  induction j with
  | nil => intro e; simp [MultiError.Join]
  | cons x rest ih =>
    intro e
    have := ih (e ++ [x])
    simp only [MultiError.Join, List.foldl_cons] at this ⊢
    rw [this]; simp

/-! ## Annotation replaces the context -/

/-- C21, as the code has it: on an `errorWithStack`, `NewErrorFrom` sets `From`
to the formatted context whatever `From` was, so of two successive annotations
only the second is kept: annotating twice gives the same value as annotating
once with the second context. -/
theorem NewErrorFrom_replaces_From (R : Libs) (cs₁ cs₂ : List String) (root : GoError)
    (st : Option stack) (h : Error) (b₁ b₂ : String) (args₁ args₂ : List Any) :
    ((NewErrorFrom R cs₁ (GoError.errorWithStack root st h) b₁ args₁).bind
        GoError.httpErrorField).map Error.From = some (R.Errorf b₁ args₁) ∧
    (NewErrorFrom R cs₁ (GoError.errorWithStack root st h) b₁ args₁).bind
        (fun r => NewErrorFrom R cs₂ r b₂ args₂) =
      NewErrorFrom R cs₂ (GoError.errorWithStack root st h) b₂ args₂ :=
  ⟨rfl, rfl⟩

/-- C21, as stated, fails: an `errorWithStack` whose `From` is `loading project`
annotated with `saving` has `From` equal to `saving`, in which `loading project`
does not occur. -/
theorem NewErrorFrom_drops_previous_From :
    ((NewErrorFrom sampleLibs []
        (GoError.errorWithStack (GoError.foreign "boom") (some [])
          { ID := 38, Status := 404, From := "loading project" }) "saving" []).bind
        GoError.httpErrorField).map Error.From = some "saving" ∧
    ¬ ("loading project".data <:+: "saving".data) := by
  refine ⟨rfl, ?_⟩
  decide

/-! ## `WithStack` -/

/-- C22, as the code has it: for a non-nil error that holds no nil
`*MultiError` (it is not one, and neither are the elements of an aggregate, at
any depth) `WithStack` returns an `errorWithStack`; for an `Error` value `e` the
result carries `e` and a root whose message is empty; for an error of another
package the kind is `ErrUnknownError` and the `Cause` is the `Cause` of the
error, the error itself when it has no `Cause` method. -/
theorem WithStack_guarantees_stack (R : Libs) (cs : List String) (err : GoError) (e : Error)
    (msg : String) (inner : GoError) (m : String) (hnil : err ≠ GoError.nil)
    (hd : err.derefOK = true) :
    (∃ r, WithStack R cs err = some r ∧ IsErrorWithStack r = true) ∧
    WithStack R cs (GoError.bare e) =
      some (GoError.errorWithStack (errors.New "") (callers cs) e) ∧
    (errors.New "").Error = some "" ∧
    WithStack R cs (GoError.foreign msg) =
      some (GoError.errorWithStack (GoError.withStack (GoError.foreign msg)) (callers cs)
        ErrUnknownError) ∧
    Cause (GoError.errorWithStack (GoError.withStack (GoError.foreign msg)) (callers cs)
        ErrUnknownError) = GoError.foreign msg ∧
    WithStack R cs (GoError.withStack inner) =
      some (GoError.errorWithStack (GoError.withStack (GoError.withStack inner)) (callers cs)
        ErrUnknownError) ∧
    WithStack R cs (GoError.withMessage inner m) =
      some (GoError.errorWithStack (GoError.withStack (GoError.withMessage inner m))
        (callers cs) ErrUnknownError) ∧
    Cause (GoError.errorWithStack (GoError.withStack (GoError.withStack inner)) (callers cs)
        ErrUnknownError) = Cause (GoError.withStack inner) ∧
    Cause (GoError.errorWithStack (GoError.withStack (GoError.withMessage inner m))
        (callers cs) ErrUnknownError) = Cause (GoError.withMessage inner m) :=
  ⟨WithStack_isErrorWithStack R cs err hnil hd, rfl, rfl, rfl, rfl, rfl, rfl, rfl, rfl⟩

theorem WithStack_guarantees_stack_witness :
    ∃ r, WithStack sampleLibs ["github.com/ovh/cds/engine/api.main"]
        (GoError.MultiError [GoError.bare ErrNotFound]) = some r ∧
      IsErrorWithStack r = true :=
  (WithStack_guarantees_stack sampleLibs ["github.com/ovh/cds/engine/api.main"]
    (GoError.MultiError [GoError.bare ErrNotFound]) ErrNotFound "boom" (GoError.foreign "eof")
    "reading" (by simp) rfl).1

/-- C22, as stated, fails: a nil `*MultiError` is a non-nil error of type
`*MultiError`, and `WithStack` of it, or of an aggregate that holds one, panics
in `NewError` before any `errorWithStack` is built, so `IsErrorWithStack` has
nothing to test. -/
theorem WithStack_gives_no_stack_on_nil_MultiError :
    GoError.nilMultiError ≠ GoError.nil ∧
    (WithStack sampleLibs ["github.com/ovh/cds/engine/api.main"] GoError.nilMultiError).map
      IsErrorWithStack = none ∧
    (WithStack sampleLibs ["github.com/ovh/cds/engine/api.main"]
      (GoError.MultiError [GoError.bare ErrNotFound, GoError.nilMultiError])).map
      IsErrorWithStack = none := by
  refine ⟨by simp, rfl, rfl⟩

/-! ## Aggregates -/

/-- C23: `Append(nil)` leaves the aggregate unchanged; for a non-nil error that
is not a `*MultiError`, `Append` keeps the elements and adds at the end the one
value `WithStack(err)`, which is `err` itself for an `errorWithStack`, so the
aggregate is not empty; three such appends to the empty aggregate give the three
values in insertion order. -/
theorem Append_single (R : Libs) (cs : List String) (e : List GoError)
    (err err₁ err₂ err₃ : GoError) (root : GoError) (st : Option stack) (h : Error)
    (hnil : err ≠ GoError.nil) (hm : err.isMultiError = false)
    (hnil₁ : err₁ ≠ GoError.nil) (hm₁ : err₁.isMultiError = false)
    (hnil₂ : err₂ ≠ GoError.nil) (hm₂ : err₂.isMultiError = false)
    (hnil₃ : err₃ ≠ GoError.nil) (hm₃ : err₃.isMultiError = false) :
    MultiError.Append R cs e GoError.nil = some e ∧
    (∃ w, WithStack R ("github.com/ovh/cds/sdk.(*MultiError).Append" :: cs) err = some w ∧
      MultiError.Append R cs e err = some (e ++ [w]) ∧
      MultiError.IsEmpty (e ++ [w]) = false) ∧
    MultiError.Append R cs e (GoError.errorWithStack root st h) =
      some (e ++ [GoError.errorWithStack root st h]) ∧
    (∃ w₁ w₂ w₃,
      WithStack R ("github.com/ovh/cds/sdk.(*MultiError).Append" :: cs) err₁ = some w₁ ∧
      WithStack R ("github.com/ovh/cds/sdk.(*MultiError).Append" :: cs) err₂ = some w₂ ∧
      WithStack R ("github.com/ovh/cds/sdk.(*MultiError).Append" :: cs) err₃ = some w₃ ∧
      ((MultiError.Append R cs [] err₁).bind (fun a => MultiError.Append R cs a err₂)).bind
        (fun a => MultiError.Append R cs a err₃) = some [w₁, w₂, w₃] ∧
      MultiError.IsEmpty [w₁, w₂, w₃] = false ∧ [w₁, w₂, w₃].length = 3) := by
  obtain ⟨w, hw, _⟩ :=
    WithStack_isErrorWithStack R ("github.com/ovh/cds/sdk.(*MultiError).Append" :: cs) err hnil
      (derefOK_of_not_multi err hm)
  obtain ⟨w₁, hw₁, _⟩ :=
    WithStack_isErrorWithStack R ("github.com/ovh/cds/sdk.(*MultiError).Append" :: cs) err₁ hnil₁
      (derefOK_of_not_multi err₁ hm₁)
  obtain ⟨w₂, hw₂, _⟩ :=
    WithStack_isErrorWithStack R ("github.com/ovh/cds/sdk.(*MultiError).Append" :: cs) err₂ hnil₂
      (derefOK_of_not_multi err₂ hm₂)
  obtain ⟨w₃, hw₃, _⟩ :=
    WithStack_isErrorWithStack R ("github.com/ovh/cds/sdk.(*MultiError).Append" :: cs) err₃ hnil₃
      (derefOK_of_not_multi err₃ hm₃)
  refine ⟨by simp [MultiError.Append], ⟨w, hw, ?_, ?_⟩, rfl, w₁, w₂, w₃, hw₁, hw₂, hw₃, ?_, rfl, rfl⟩
  · rw [Append_of_not_multi R cs e err hnil hm, hw]; rfl
  · simp [MultiError.IsEmpty]
  · rw [Append_of_not_multi R cs [] err₁ hnil₁ hm₁, hw₁]
    simp only [Option.map_some', Option.some_bind, List.nil_append]
    rw [Append_of_not_multi R cs [w₁] err₂ hnil₂ hm₂, hw₂]
    simp only [Option.map_some', Option.some_bind, List.singleton_append]
    rw [Append_of_not_multi R cs [w₁, w₂] err₃ hnil₃ hm₃, hw₃]
    rfl

theorem Append_single_witness :
    MultiError.Append sampleLibs [] [GoError.foreign "kept"] GoError.nil
      = some [GoError.foreign "kept"] ∧
    (∃ w, WithStack sampleLibs ["github.com/ovh/cds/sdk.(*MultiError).Append"]
        (GoError.foreign "boom") = some w ∧
      MultiError.Append sampleLibs [] [GoError.foreign "kept"] (GoError.foreign "boom")
        = some ([GoError.foreign "kept"] ++ [w]) ∧
      MultiError.IsEmpty ([GoError.foreign "kept"] ++ [w]) = false) ∧
    MultiError.Append sampleLibs [] [GoError.foreign "kept"]
        (GoError.errorWithStack (GoError.foreign "r") (some []) ErrNotFound) =
      some ([GoError.foreign "kept"] ++
        [GoError.errorWithStack (GoError.foreign "r") (some []) ErrNotFound]) ∧
    (∃ w₁ w₂ w₃,
      WithStack sampleLibs ["github.com/ovh/cds/sdk.(*MultiError).Append"]
        (GoError.bare ErrNotFound) = some w₁ ∧
      WithStack sampleLibs ["github.com/ovh/cds/sdk.(*MultiError).Append"]
        (GoError.foreign "eof") = some w₂ ∧
      WithStack sampleLibs ["github.com/ovh/cds/sdk.(*MultiError).Append"]
        (GoError.bare ErrNotFound) = some w₃ ∧
      ((MultiError.Append sampleLibs [] [] (GoError.bare ErrNotFound)).bind
          (fun a => MultiError.Append sampleLibs [] a (GoError.foreign "eof"))).bind
        (fun a => MultiError.Append sampleLibs [] a (GoError.bare ErrNotFound))
        = some [w₁, w₂, w₃] ∧
      MultiError.IsEmpty [w₁, w₂, w₃] = false ∧ [w₁, w₂, w₃].length = 3) :=
  Append_single sampleLibs [] [GoError.foreign "kept"] (GoError.foreign "boom")
    (GoError.bare ErrNotFound) (GoError.foreign "eof") (GoError.bare ErrNotFound)
    (GoError.foreign "r") (some []) ErrNotFound
    (by simp) rfl (by simp) rfl (by simp) rfl (by simp) rfl

/-- C24, as the code has it: `e.Append(&m)` is the successive `e.Append` of the
elements of `m`, in order (called from `Append`), and it returns exactly when no
element of `m` holds a nil `*MultiError` (no element is one, nor an element of
an element that is an aggregate, at any depth); it then keeps the elements of
`e`, and every element it adds is an `errorWithStack`, hence neither nil nor a
`*MultiError`; so the elements after the call are all `errorWithStack` when
those of `e` were. -/
theorem Append_flattens (R : Libs) (cs : List String) (e m : List GoError)
    (hd : GoError.derefOKAll m = true) :
    MultiError.Append R cs e (GoError.MultiError m) =
      m.foldlM
        (fun acc x =>
          MultiError.Append R ("github.com/ovh/cds/sdk.(*MultiError).Append" :: cs) acc x) e ∧
    (∀ m₀ : List GoError,
      (MultiError.Append R cs e (GoError.MultiError m₀)).isSome = GoError.derefOKAll m₀) ∧
    ∃ added, MultiError.Append R cs e (GoError.MultiError m) = some (e ++ added) ∧
      (∀ x ∈ added, IsErrorWithStack x = true ∧ x ≠ GoError.nil ∧ x.isMultiError = false) ∧
      ((∀ x ∈ e, IsErrorWithStack x = true) → ∀ x ∈ e ++ added, IsErrorWithStack x = true) := by
  refine ⟨?_, fun m₀ => Append_isSome R cs e (GoError.MultiError m₀), ?_⟩
  · rw [MultiError.Append, Append_loop_eq_foldlM]
  · obtain ⟨added, h1, h2⟩ := Append_adds R (GoError.MultiError m) cs e hd
    refine ⟨added, h1, ?_, ?_⟩
    · intro x hx
      have hx' := h2 x hx
      refine ⟨hx', ?_, ?_⟩
      · intro hn; rw [hn] at hx'; simp [IsErrorWithStack] at hx'
      · cases x <;> first | rfl | simp [IsErrorWithStack] at hx'
    · intro he x hx
      rcases List.mem_append.mp hx with hx | hx
      · exact he x hx
      · exact h2 x hx

theorem Append_flattens_witness :
    MultiError.Append sampleLibs []
        [GoError.errorWithStack (GoError.foreign "r") (some []) ErrNotFound]
        (GoError.MultiError
          [GoError.nil, GoError.MultiError [GoError.bare ErrForbidden], GoError.foreign "eof"]) =
      [GoError.nil, GoError.MultiError [GoError.bare ErrForbidden], GoError.foreign "eof"].foldlM
        (fun acc x =>
          MultiError.Append sampleLibs ("github.com/ovh/cds/sdk.(*MultiError).Append" :: []) acc x)
        [GoError.errorWithStack (GoError.foreign "r") (some []) ErrNotFound] ∧
    (∀ m₀ : List GoError,
      (MultiError.Append sampleLibs []
        [GoError.errorWithStack (GoError.foreign "r") (some []) ErrNotFound]
        (GoError.MultiError m₀)).isSome = GoError.derefOKAll m₀) ∧
    ∃ added,
      MultiError.Append sampleLibs []
          [GoError.errorWithStack (GoError.foreign "r") (some []) ErrNotFound]
          (GoError.MultiError
            [GoError.nil, GoError.MultiError [GoError.bare ErrForbidden], GoError.foreign "eof"]) =
        some ([GoError.errorWithStack (GoError.foreign "r") (some []) ErrNotFound] ++ added) ∧
      (∀ x ∈ added, IsErrorWithStack x = true ∧ x ≠ GoError.nil ∧ x.isMultiError = false) ∧
      ((∀ x ∈ [GoError.errorWithStack (GoError.foreign "r") (some []) ErrNotFound],
          IsErrorWithStack x = true) →
        ∀ x ∈ [GoError.errorWithStack (GoError.foreign "r") (some []) ErrNotFound] ++ added,
          IsErrorWithStack x = true) :=
  Append_flattens sampleLibs []
    [GoError.errorWithStack (GoError.foreign "r") (some []) ErrNotFound]
    [GoError.nil, GoError.MultiError [GoError.bare ErrForbidden], GoError.foreign "eof"] rfl

/-- C24, as stated, fails: appending the aggregate whose one element is a nil
`*MultiError` panics in the recursive `Append`, at `range *mError`, and so does
appending an aggregate that holds one deeper; nothing is added. -/
theorem Append_panics_on_nil_MultiError :
    MultiError.Append sampleLibs [] [GoError.foreign "kept"]
      (GoError.MultiError [GoError.nilMultiError]) = none ∧
    MultiError.Append sampleLibs [] [GoError.foreign "kept"]
      (GoError.MultiError [GoError.bare ErrNotFound,
        GoError.MultiError [GoError.nilMultiError]]) = none :=
  ⟨rfl, rfl⟩

/-- C25, as the code has it: when no element of `m` is nil or a `*MultiError`,
`e.Append(&m)` adds one element for each element of `m`, in order, the value
`WithStack` returns for it: the result has `len(e) + len(m)` elements and starts
with the elements of `e`, unchanged and in order. -/
theorem Append_flat_count (R : Libs) (cs : List String) (e m : List GoError)
    (hflat : ∀ x ∈ m, x ≠ GoError.nil ∧ x.isMultiError = false) :
    ∃ added, MultiError.Append R cs e (GoError.MultiError m) = some (e ++ added) ∧
      (e ++ added).length = e.length + m.length ∧
      (e ++ added).take e.length = e ∧
      List.Forall₂
        (fun x w =>
          WithStack R ("github.com/ovh/cds/sdk.(*MultiError).Append" ::
            "github.com/ovh/cds/sdk.(*MultiError).Append" :: cs) x = some w)
        m added := by
  obtain ⟨added, h1, h2⟩ :=
    Append_loop_flat R ("github.com/ovh/cds/sdk.(*MultiError).Append" :: cs) m hflat e
  refine ⟨added, by rw [MultiError.Append]; exact h1, ?_, ?_, h2⟩
  · rw [List.length_append, h2.length_eq]
  · simp

theorem Append_flat_count_witness :
    ∃ added, MultiError.Append sampleLibs [] [GoError.foreign "kept"]
        (GoError.MultiError [GoError.bare ErrNotFound, GoError.bare ErrNotFound]) =
        some ([GoError.foreign "kept"] ++ added) ∧
      ([GoError.foreign "kept"] ++ added).length =
        [GoError.foreign "kept"].length +
          [GoError.bare ErrNotFound, GoError.bare ErrNotFound].length ∧
      ([GoError.foreign "kept"] ++ added).take [GoError.foreign "kept"].length =
        [GoError.foreign "kept"] ∧
      List.Forall₂
        (fun x w =>
          WithStack sampleLibs ("github.com/ovh/cds/sdk.(*MultiError).Append" ::
            "github.com/ovh/cds/sdk.(*MultiError).Append" :: []) x = some w)
        [GoError.bare ErrNotFound, GoError.bare ErrNotFound] added :=
  Append_flat_count sampleLibs [] [GoError.foreign "kept"]
    [GoError.bare ErrNotFound, GoError.bare ErrNotFound]
    (by
      intro x hx
      simp only [List.mem_cons, List.mem_singleton, List.not_mem_nil, or_false, or_self] at hx
      subst hx
      exact ⟨by simp, rfl⟩)

/-- C25, as stated, fails: appending the aggregate whose one element is nil to
the empty aggregate adds nothing, and appending the aggregate whose one element
is an aggregate of two errors adds two elements; neither result has
`0 + 1` elements. -/
theorem Append_count_differs :
    (MultiError.Append sampleLibs [] [] (GoError.MultiError [GoError.nil])).map List.length
      = some 0 ∧
    (MultiError.Append sampleLibs [] []
      (GoError.MultiError
        [GoError.MultiError [GoError.bare ErrNotFound, GoError.bare ErrNotFound]])).map
      List.length = some 2 ∧
    [GoError.nil].length = 1 ∧
    [GoError.MultiError [GoError.bare ErrNotFound, GoError.bare ErrNotFound]].length = 1 :=
  ⟨rfl, rfl, rfl, rfl⟩

/-- C26: after `e.Join(j)` the elements of `e` are the old elements of `e`
followed by the elements of `j`, in order and as they are, so the length is
`len(e) + len(j)`. -/
theorem Join_concatenates (e j : List GoError) :
    MultiError.Join e j = e ++ j ∧
    (MultiError.Join e j).length = e.length + j.length ∧
    (MultiError.Join e j).take e.length = e ∧
    (MultiError.Join e j).drop e.length = j := by
  rw [Join_eq_append]
  simp

/-! ## The rendered stack path -/

theorem symbolShape_of_reducedName_isSome (name : String)
    (h : (reducedName name).isSome = true) : symbolShape name = true := by
  unfold reducedName at h
  simp only [index?_Split_one, paren_prefix_takeWhile] at h
  by_cases hdot : '.' ∈ (strings.Split '/' name.data).getLastD []
  · simp only [if_pos hdot] at h
    unfold symbolShape
    simp only [Bool.and_eq_true, Bool.or_eq_true, bne_iff_ne, ne_eq]
    refine ⟨List.elem_iff.mpr hdot, ?_⟩
    by_cases hp : (List.dropWhile (fun c => c != '.')
        ((strings.Split '/' name.data).getLastD [])).tail.head? = some '('
    · right
      simp only [paren_prefix_takeWhile, hp, beq_self_eq_true, if_true,
        index?_Split_two _ _ hdot, index?_Split_one] at h
      by_cases hdot2 : '.' ∈ (List.dropWhile (fun c => c != '.')
          ((strings.Split '/' name.data).getLastD [])).tail
      · exact List.elem_iff.mpr hdot2
      · simp only [if_neg hdot2, Option.isSome_none, Bool.false_eq_true] at h
    · left
      exact hp
  · simp only [if_neg hdot, Option.isSome_none, Bool.false_eq_true] at h

theorem stackNames_cons_isSome (pc : String) (rest : List String)
    (h : (stackNames (pc :: rest)).isSome = true) :
    (frameName pc).isSome = true ∧ (stackNames rest).isSome = true := by
  rw [stackNames] at h
  cases hf : frameName pc with
  | none => rw [hf] at h; exact Bool.noConfusion h
  | some r =>
    cases hr : stackNames rest with
    | none => rw [hf, hr] at h; exact Bool.noConfusion h
    | some names => exact ⟨rfl, rfl⟩

theorem reducedName_isSome_of_frameName (pc : String) (hret : retainedFrame pc = true)
    (h : (frameName pc).isSome = true) : (reducedName pc).isSome = true := by
  rw [frameName_eq, if_pos hret] at h
  cases hn : reducedName pc with
  | none => rw [hn] at h; exact Bool.noConfusion h
  | some n => rfl

theorem stackNames_isSome_iff (s : stack) :
    (stackNames s).isSome = true ↔
      ∀ name ∈ s, retainedFrame name = true → symbolShape name = true := by
  constructor
  · intro h
    induction s with
    | nil => intro name hn; cases hn
    | cons pc rest ih =>
      obtain ⟨hf, hrest⟩ := stackNames_cons_isSome pc rest h
      intro name hn hret
      rcases List.mem_cons.mp hn with hn | hn
      · subst hn
        exact symbolShape_of_reducedName_isSome name
          (reducedName_isSome_of_frameName name hret hf)
      · exact ih hrest name hn hret
  · intro h
    rw [stackNames_eq s (fun name hn hret =>
      reducedName_isSome_of_symbolShape name (h name hn hret))]
    rfl

theorem stack_String_isSome (s : stack) :
    (stack.String s).isSome = (stackNames s).isSome := by
  unfold stack.String
  cases stackNames s <;> rfl

/-- C27: for a captured list of frame names (every kept name has the shape of
a Go symbol name), `stack.String` is the join with `>` of the reduced names of
the frames that are kept, in reverse capture order: a frame is dropped when its
name starts with `github.com/ovh/cds/vendor` or does not start with
`github.com/ovh/cds`, or when its reduced name is one of the five ignored names;
no joined name is one of those five. -/
theorem stack_String_path (s : stack)
    (h : ∀ name ∈ s, retainedFrame name = true → symbolShape name = true) :
    stack.String s = some (renderedPath s) ∧
    (∀ name, retainedFrame name =
      (!strings.hasPrefix name "github.com/ovh/cds/vendor" &&
        strings.hasPrefix name "github.com/ovh/cds")) ∧
    ignoredNames = ["NewError", "NewErrorFrom", "WithStack", "WrapError", "Append"] ∧
    ∀ n ∈ ((s.filter retainedFrame).filterMap reducedName).filter
        (fun n => !ignoredNames.contains n), n ∉ ignoredNames := by
  refine ⟨?_, fun _ => rfl, rfl, ?_⟩
  · unfold stack.String renderedPath
    rw [stackNames_eq s (fun name hn hret =>
      reducedName_isSome_of_symbolShape name (h name hn hret))]
    simp only [reverse_eq_reverse]
  · intro n hn hmem
    have hkeep := (List.mem_filter.mp hn).2
    have hc : ignoredNames.contains n = true := List.elem_iff.mpr hmem
    rw [hc] at hkeep
    exact Bool.noConfusion hkeep

theorem stack_String_path_witness :
    stack.String
        ["github.com/ovh/cds/sdk.NewError", "github.com/ovh/cds/engine/api.(*API).getProject",
          "github.com/ovh/cds/vendor/github.com/gorilla/mux.(*Router).ServeHTTP",
          "net/http.serverHandler.ServeHTTP", "github.com/ovh/cds/engine/api.Serve"] =
      some (renderedPath
        ["github.com/ovh/cds/sdk.NewError", "github.com/ovh/cds/engine/api.(*API).getProject",
          "github.com/ovh/cds/vendor/github.com/gorilla/mux.(*Router).ServeHTTP",
          "net/http.serverHandler.ServeHTTP", "github.com/ovh/cds/engine/api.Serve"]) ∧
    renderedPath
        ["github.com/ovh/cds/sdk.NewError", "github.com/ovh/cds/engine/api.(*API).getProject",
          "github.com/ovh/cds/vendor/github.com/gorilla/mux.(*Router).ServeHTTP",
          "net/http.serverHandler.ServeHTTP", "github.com/ovh/cds/engine/api.Serve"] =
      "Serve>getProject" :=
  ⟨(stack_String_path
    ["github.com/ovh/cds/sdk.NewError", "github.com/ovh/cds/engine/api.(*API).getProject",
      "github.com/ovh/cds/vendor/github.com/gorilla/mux.(*Router).ServeHTTP",
      "net/http.serverHandler.ServeHTTP", "github.com/ovh/cds/engine/api.Serve"]
    (by decide)).1, by decide⟩

/-- C28: the reduction keeps the function name of `pkgpath.Func` and the method
name of `pkgpath.(*T).Method`, but for a value receiver, `pkgpath.T.Method`, it
keeps the type name `T`: the frame `github.com/ovh/cds/sdk.Error.Translate` is
rendered as `Error`. -/
theorem value_receiver_renders_type_name :
    reducedName "github.com/ovh/cds/sdk.Exit" = some "Exit" ∧
    reducedName "github.com/ovh/cds/sdk.(*MultiError).Join" = some "Join" ∧
    reducedName "github.com/ovh/cds/sdk.Error.Translate" = some "Error" ∧
    stack.String ["github.com/ovh/cds/sdk.Error.Translate"] = some "Error" := by
  decide

/-- C29, as the code has it: `stack.String` completes exactly when every frame
name that starts with `github.com/ovh/cds` and not with
`github.com/ovh/cds/vendor` has the shape of a Go symbol name: a `.` in its last
path segment, and a second `.` when the text after the first starts with `(`. -/
theorem stack_String_completes (s : stack) :
    (stack.String s).isSome = true ↔
      ∀ name ∈ s, retainedFrame name = true → symbolShape name = true := by
  rw [stack_String_isSome]
  exact stackNames_isSome_iff s

/-- C29, as stated, fails: on a name that starts with `github.com/ovh/cds` and
whose last path segment has no `.`, the index `sp[1]` is out of range, and on a
name with nothing after `(*MultiError)` the index `sp[2]` is out of range. -/
theorem stack_String_panics :
    stack.String ["github.com/ovh/cds/sdk"] = none ∧
    stack.String ["github.com/ovh/cds/sdk.(*MultiError)"] = none := by
  decide

/-! ## Wrap, then classify, then extract -/

set_option maxRecDepth 100000 in
theorem ErrNotFound_messages :
    mapGet errorsAmericanEnglish ErrNotFound.ID = some "resource not found" ∧
    mapGet errorsFrench ErrNotFound.ID = some "la ressource n\x27existe pas" := by
  decide

theorem Translate_ErrNotFound (R : Libs) (al : String) (k : Error) (hk : k.ID = ErrNotFound.ID) :
    k.Translate R al = mapIndex (Error.Translate.catalog R al) ErrNotFound.ID := by
  unfold Error.Translate Error.Translate.catalog mapIndex
  rw [hk]
  have h1 := ErrNotFound_messages.1
  have h2 := ErrNotFound_messages.2
  simp only [mapGet] at h1 h2
  cases Error.Translate.tag R al <;> simp only [mapGet, h1, h2, Option.getD_some]

/-- C30: for an error `raw` of another package, a context message and a header,
`NewError(ErrNotFound, WrapError(raw, c))` returns a value whose extraction
returns and has ID 38, Status 404, as Message the entry of `ErrNotFound` in the
catalog read for the header (`resource not found` when the library does not
negotiate French for `en-US`) and an empty `From`, and whose `Cause` is the
`Cause` of `raw`, `raw` itself when it has no `Cause` method. -/
theorem wrap_then_classify (R : Libs) (cs₁ cs₂ : List String) (raw : GoError) (format : String)
    (args : List Any) (al msg : String)
    (hnil : raw ≠ GoError.nil) (hws : raw.isErrorWithStack = false)
    (hbare : raw.isBare = false) :
    ∃ r e en, NewError R cs₂ ErrNotFound (WrapError R cs₁ raw format args) = some r ∧
      ExtractHTTPError R r al = some e ∧ ExtractHTTPError R r "en-US" = some en ∧
      e.ID = ErrNotFound.ID ∧ ErrNotFound.ID = 38 ∧
      e.Status = 404 ∧
      e.Message = mapIndex (Error.Translate.catalog R al) ErrNotFound.ID ∧
      (Error.Translate.tag R "en-US" ≠ language.Tag.French →
        en.Message = "resource not found") ∧
      e.From = "" ∧
      Cause r = Cause raw ∧
      (NewError R cs₂ ErrNotFound (WrapError R cs₁ (GoError.foreign msg) format args)).map Cause
        = some (GoError.foreign msg) := by
  have hw : WrapError R cs₁ raw format args =
      GoError.errorWithStack (errors.Wrap raw (R.Sprintf format args)) (callers cs₁)
        ErrUnknownError := by
    cases raw with
    | nil => exact absurd rfl hnil
    | errorWithStack root st h => simp [GoError.isErrorWithStack] at hws
    | bare e => simp [GoError.isBare] at hbare
    | MultiError es => rfl
    | nilMultiError => rfl
    | foreign m => rfl
    | withStack inner => rfl
    | withMessage cause m => rfl
  have hc : errors.Cause (errors.Wrap raw (R.Sprintf format args)) = Cause raw := by
    cases raw with
    | nil => exact absurd rfl hnil
    | errorWithStack root st h => simp [GoError.isErrorWithStack] at hws
    | bare e => simp [GoError.isBare] at hbare
    | MultiError es => rfl
    | nilMultiError => rfl
    | foreign m => rfl
    | withStack inner => rfl
    | withMessage cause m => rfl
  have hmsg : ∀ al', (ExtractHTTPError.defaults R
      { ErrNotFound with From := ErrUnknownError.From } al').Message =
      mapIndex (Error.Translate.catalog R al') ErrNotFound.ID := by
    intro al'
    exact Translate_ErrNotFound R al' _ rfl
  refine ⟨GoError.errorWithStack (errors.Wrap raw (R.Sprintf format args)) (callers cs₁)
    { ErrNotFound with From := ErrUnknownError.From },
    ExtractHTTPError.defaults R { ErrNotFound with From := ErrUnknownError.From } al,
    ExtractHTTPError.defaults R { ErrNotFound with From := ErrUnknownError.From } "en-US",
    by rw [hw]; rfl, rfl, rfl, rfl, rfl, rfl, hmsg al, ?_, rfl, hc, rfl⟩
  intro hfr
  rw [hmsg "en-US"]
  unfold Error.Translate.catalog mapIndex
  cases htag : Error.Translate.tag R "en-US" with
  | French => exact absurd htag hfr
  | AmericanEnglish =>
    have h1 := ErrNotFound_messages.1
    simp only [mapGet] at h1
    simp only [h1, Option.getD_some]
  | other name =>
    have h1 := ErrNotFound_messages.1
    simp only [mapGet] at h1
    simp only [h1, Option.getD_some]

theorem wrap_then_classify_witness :
    ∃ r e en,
      NewError sampleLibs ["github.com/ovh/cds/engine/api.(*API).getProject"] ErrNotFound
        (WrapError sampleLibs ["github.com/ovh/cds/engine/api/project.Load"]
          (GoError.foreign "connection refused") "loading project KEY-1" []) = some r ∧
      ExtractHTTPError sampleLibs r "fr" = some e ∧
      ExtractHTTPError sampleLibs r "en-US" = some en ∧
      e.ID = ErrNotFound.ID ∧ ErrNotFound.ID = 38 ∧
      e.Status = 404 ∧
      e.Message = mapIndex (Error.Translate.catalog sampleLibs "fr") ErrNotFound.ID ∧
      en.Message = "resource not found" ∧
      e.From = "" ∧
      Cause r = Cause (GoError.foreign "connection refused") ∧
      (NewError sampleLibs ["github.com/ovh/cds/engine/api.(*API).getProject"] ErrNotFound
        (WrapError sampleLibs ["github.com/ovh/cds/engine/api/project.Load"]
          (GoError.foreign "connection refused") "loading project KEY-1" [])).map Cause
        = some (GoError.foreign "connection refused") :=
  have ⟨r, e, en, h1, h2, h3, h4, h5, h6, h7, h8, h9, h10, h11⟩ :=
    wrap_then_classify sampleLibs ["github.com/ovh/cds/engine/api/project.Load"]
      ["github.com/ovh/cds/engine/api.(*API).getProject"] (GoError.foreign "connection refused")
      "loading project KEY-1" [] "fr" "connection refused" (by simp) rfl rfl
  ⟨r, e, en, h1, h2, h3, h4, h5, h6, h7, h8 (by decide), h9, h10, h11⟩


/-! ## Wire shape -/

/-- C31, as the code has it: the keys of the JSON object of an `Error` are `id`
and `message`, plus `data`, `request_id`, `stack_trace` and `from`, each
exactly when the field is non-empty; no other key, and never the status. -/
theorem jsonKeys_shape (e : Error) (key : String) :
    (key ∈ e.jsonKeys ↔
      key = "id" ∨ key = "message" ∨ (key = "data" ∧ e.Data ≠ Any.null) ∨
        (key = "request_id" ∧ e.RequestID ≠ "") ∨ (key = "stack_trace" ∧ e.StackTrace ≠ "") ∨
        (key = "from" ∧ e.From ≠ "")) ∧
    "status" ∉ e.jsonKeys ∧ "Status" ∉ e.jsonKeys := by
  unfold Error.jsonKeys
  refine ⟨?_, ?_, ?_⟩
  · by_cases h1 : e.Data = Any.null <;> by_cases h2 : e.RequestID = "" <;>
      by_cases h3 : e.StackTrace = "" <;> by_cases h4 : e.From = "" <;>
      simp [h1, h2, h3, h4]
  · by_cases h1 : e.Data = Any.null <;> by_cases h2 : e.RequestID = "" <;>
      by_cases h3 : e.StackTrace = "" <;> by_cases h4 : e.From = "" <;>
      simp [h1, h2, h3, h4]
  · by_cases h1 : e.Data = Any.null <;> by_cases h2 : e.RequestID = "" <;>
      by_cases h3 : e.StackTrace = "" <;> by_cases h4 : e.From = "" <;>
      simp [h1, h2, h3, h4]

/-- C31, as stated, fails: an `Error` with a non-empty `From` is serialized
with the key `from`, which is none of `id`, `message`, `data`, `request_id`,
`stack_trace`. -/
theorem jsonKeys_has_from :
    Error.jsonKeys { ID := 38, Status := 404, From := "loading project" } =
      ["id", "message", "from"] ∧
    "from" ∉ ["id", "message", "data", "request_id", "stack_trace"] := by
  decide

/-! ## The declared kinds and the catalogs -/

set_option maxRecDepth 100000 in
theorem declaredKinds_ids_increasing :
    (declaredKinds.map Error.ID).Pairwise (fun a b => a < b) := by
  decide

set_option maxRecDepth 100000 in
theorem declaredKinds_positive : ∀ k ∈ declaredKinds, 0 < k.ID ∧ k.Status ≠ 0 := by
  decide

/-- C32: the declared kinds, 182 of them, have pairwise distinct IDs (they are
declared in increasing order of ID), every ID is positive, hence not 0, and
every Status is non-zero. -/
theorem kind_ids_unique :
    (declaredKinds.map Error.ID).Nodup ∧
    (∀ k ∈ declaredKinds, 0 < k.ID ∧ k.ID ≠ 0 ∧ k.Status ≠ 0) ∧
    declaredKinds.length = 182 ∧
    declaredKinds.head? = some ErrUnknownError ∧
    declaredKinds.getLast? = some ErrWorkerErrorCommand := by
  refine ⟨?_, ?_, rfl, rfl, rfl⟩
  · exact declaredKinds_ids_increasing.imp (fun h => ne_of_lt h)
  · intro k hk
    have h := declaredKinds_positive k hk
    exact ⟨h.1, ne_of_gt h.1, h.2⟩

set_option maxRecDepth 100000 in
theorem declaredKinds_catalogued :
    ∀ k ∈ declaredKinds, k ∈ uncatalogued ∨
      ((mapGet errorsAmericanEnglish k.ID).isSome = true ∧
        (mapGet errorsFrench k.ID).isSome = true) := by
  decide

set_option maxRecDepth 100000 in
theorem uncatalogued_facts :
    (∀ u ∈ uncatalogued, u ∈ declaredKinds ∧ mapGet errorsAmericanEnglish u.ID = none ∧
      mapGet errorsFrench u.ID = none) ∧
    errorsAmericanEnglish.map Prod.fst = errorsFrench.map Prod.fst := by
  decide

theorem Translate_of_mapGet (R : Libs) (e : Error) (al v : String)
    (h : mapGet (Error.Translate.catalog R al) e.ID = some v) : e.Translate R al = v := by
  unfold Error.Translate
  unfold Error.Translate.catalog at h
  cases ht : Error.Translate.tag R al <;> simp only [ht] at h ⊢ <;> simp only [h]

/-- What the catalogs do hold: every declared kind other than `ErrJobLocked`,
`ErrWorkflowNodeRunLocked`, `ErrWorkerModelDeploymentFailed`, `ErrHookNotFound`
and `ErrAlreadyLatestTemplate` has a non-empty message in both tables, and
`Translate` returns its message of the table read for the header; those five are
declared and have no entry in either table; the two tables have the same keys. -/
theorem catalog_complete_but_five (R : Libs) (al : String) (k : Error)
    (hk : k ∈ declaredKinds) (hn : k ∉ uncatalogued) :
    (∃ en fr, mapGet errorsAmericanEnglish k.ID = some en ∧ en ≠ "" ∧
      mapGet errorsFrench k.ID = some fr ∧ fr ≠ "" ∧
      k.Translate R al =
        (if Error.Translate.tag R al = language.Tag.French then fr else en)) ∧
    (∀ u ∈ uncatalogued, u ∈ declaredKinds ∧ mapGet errorsAmericanEnglish u.ID = none ∧
      mapGet errorsFrench u.ID = none) ∧
    errorsAmericanEnglish.map Prod.fst = errorsFrench.map Prod.fst := by
  refine ⟨?_, uncatalogued_facts.1, uncatalogued_facts.2⟩
  rcases declaredKinds_catalogued k hk with h | ⟨h1, h2⟩
  · exact absurd h hn
  · obtain ⟨en, hen⟩ := Option.isSome_iff_exists.mp h1
    obtain ⟨fr, hfr⟩ := Option.isSome_iff_exists.mp h2
    refine ⟨en, fr, hen, errorsAmericanEnglish_nonempty _ (mapGet_mem _ _ _ hen), hfr,
      errorsFrench_nonempty _ (mapGet_mem _ _ _ hfr), ?_⟩
    apply Translate_of_mapGet
    unfold Error.Translate.catalog
    cases ht : Error.Translate.tag R al with
    | French => simpa using hfr
    | AmericanEnglish => simpa using hen
    | other name => simpa using hen

/-- C33: the catalogs miss declared kinds: `ErrHookNotFound` is declared,
neither table has a message for its ID, and `Translate` returns the message of
the Unknown kind for it; the two tables do have the same keys. -/
theorem catalog_misses_declared_kind :
    ErrHookNotFound ∈ declaredKinds ∧
    mapGet errorsAmericanEnglish ErrHookNotFound.ID = none ∧
    mapGet errorsFrench ErrHookNotFound.ID = none ∧
    ErrHookNotFound.Translate sampleLibs "en-US" = "internal server error" ∧
    ErrHookNotFound.Translate sampleLibs "en-US" = ErrUnknownError.Translate sampleLibs "en-US" ∧
    ErrHookNotFound.Translate sampleLibs "fr" = "internal server error" := by
  decide

/-! ## `ErrorWithFallback` -/

/-- C34: `ErrorWithFallback` returns `err` itself when `ErrorIs(err,
ErrUnknownError)` is false; when it is true, the kind of the result is
`ErrWrongRequest` whatever `httpError` the caller supplied: with the caller's
kind `ErrNotFound` and a foreign error the result has ID 74, not 38. -/
theorem ErrorWithFallback_ignores_httpError :
    ErrorWithFallback sampleLibs [] (GoError.bare ErrForbidden) ErrNotFound "no project" []
      = some (GoError.bare ErrForbidden) ∧
    ErrorWithFallback sampleLibs [] GoError.nil ErrNotFound "no project" [] = some GoError.nil ∧
    ErrorIs (GoError.foreign "boom") ErrUnknownError = true ∧
    ((ErrorWithFallback sampleLibs [] (GoError.foreign "boom") ErrNotFound "no project" []).bind
      GoError.httpErrorField).map Error.ID = some 74 ∧
    ((ErrorWithFallback sampleLibs [] (GoError.foreign "boom") ErrForbidden "no project" []).bind
      GoError.httpErrorField).map Error.ID = some 74 ∧
    ErrWrongRequest.ID = 74 ∧ ErrNotFound.ID = 38 ∧
    ((ErrorWithFallback sampleLibs [] (GoError.foreign "boom") ErrNotFound "no project" []).bind
      GoError.httpErrorField).map Error.From = some "no project" :=
  ⟨rfl, rfl, rfl, rfl, rfl, rfl, rfl, rfl⟩

/-! ## Extraction is idempotent -/

theorem ExtractHTTPError_bare_of_filled (R : Libs) (e : Error) (al : String)
    (hs : e.Status ≠ 0) (hm : e.Message ≠ "") :
    ExtractHTTPError R (GoError.bare e) al = some e := by
  rw [ExtractHTTPError_eq]
  simp only [ExtractHTTPError.resolved, Option.map_some', ExtractHTTPError.defaults, if_neg hs,
    if_neg hm]

/-- C35, as the code has it: for an error value that holds no nil `*MultiError`
(nil and the empty aggregate included), `ExtractHTTPError` returns, and
extracting its result, with any header, returns it unchanged; the result has a
non-zero Status and a non-empty Message, and an `Error` is returned as itself
exactly when it has both.  For every error value, extracting the result of an
extraction that returned gives that result. -/
theorem ExtractHTTPError_idempotent (R : Libs) (x : GoError) (al al2 : String) (e : Error)
    (hd : x.derefOK = true) :
    (∃ h, ExtractHTTPError R x al = some h ∧
      ExtractHTTPError R (GoError.bare h) al2 = some h ∧ h.Status ≠ 0 ∧ h.Message ≠ "") ∧
    (ExtractHTTPError R (GoError.bare e) al = some e ↔ (e.Status ≠ 0 ∧ e.Message ≠ "")) ∧
    ∀ x₀ : GoError,
      (ExtractHTTPError R x₀ al).bind (fun h => ExtractHTTPError R (GoError.bare h) al2) =
        ExtractHTTPError R x₀ al := by
  refine ⟨?_, ?_, ?_⟩
  · obtain ⟨h, hh⟩ := ExtractHTTPError_returns R x al hd
    exact ⟨h, hh,
      ExtractHTTPError_bare_of_filled R h al2 (ExtractHTTPError_Status_ne_zero R x al h hh)
        (ExtractHTTPError_msg_ne_empty R x al h hh),
      ExtractHTTPError_Status_ne_zero R x al h hh, ExtractHTTPError_msg_ne_empty R x al h hh⟩
  · constructor
    · intro h
      exact ⟨ExtractHTTPError_Status_ne_zero R _ al e h, ExtractHTTPError_msg_ne_empty R _ al e h⟩
    · intro h
      exact ExtractHTTPError_bare_of_filled R e al h.1 h.2
  · intro x₀
    cases hh : ExtractHTTPError R x₀ al with
    | none => rfl
    | some h =>
      exact ExtractHTTPError_bare_of_filled R h al2 (ExtractHTTPError_Status_ne_zero R x₀ al h hh)
        (ExtractHTTPError_msg_ne_empty R x₀ al h hh)

theorem ExtractHTTPError_idempotent_witness :
    (∃ h, ExtractHTTPError sampleLibs (GoError.MultiError []) "fr" = some h ∧
      ExtractHTTPError sampleLibs (GoError.bare h) "en-US" = some h ∧ h.Status ≠ 0 ∧
      h.Message ≠ "") ∧
    (ExtractHTTPError sampleLibs (GoError.bare ErrNotFound) "fr" = some ErrNotFound ↔
      (ErrNotFound.Status ≠ 0 ∧ ErrNotFound.Message ≠ "")) ∧
    ∀ x₀ : GoError,
      (ExtractHTTPError sampleLibs x₀ "fr").bind
          (fun h => ExtractHTTPError sampleLibs (GoError.bare h) "en-US") =
        ExtractHTTPError sampleLibs x₀ "fr" :=
  ExtractHTTPError_idempotent sampleLibs (GoError.MultiError []) "fr" "en-US" ErrNotFound rfl

/-- C35, as stated, fails: on a nil `*MultiError` the first extraction panics at
`range *e`, so there is no result to extract again, and no Status or Message;
the same on an aggregate that holds one. -/
theorem ExtractHTTPError_idempotent_fails_on_nil_MultiError :
    (ExtractHTTPError sampleLibs GoError.nilMultiError "fr").isSome = false ∧
    ((ExtractHTTPError sampleLibs GoError.nilMultiError "fr").bind
      (fun h => ExtractHTTPError sampleLibs (GoError.bare h) "en-US")).isSome = false ∧
    (ExtractHTTPError sampleLibs
      (GoError.MultiError [GoError.nil, GoError.nilMultiError]) "fr").isSome = false :=
  ⟨rfl, rfl, rfl⟩

/-! ## Wrapping and stack-forcing keep the resolved kind -/

theorem beq_comm_Int (a b : Int) : (a == b) = (b == a) := by
  by_cases h : a = b
  · subst h; rfl
  · have h' : ¬ b = a := fun hb => h hb.symm
    simp [h, h']

/-- C36, as the code has it: for every error (nil included), every message and
every target, `ErrorIs(WrapError(err, m), t) = ErrorIs(err, t)`; for every error
that holds no nil `*MultiError` (it is not one, and neither are the elements of
an aggregate, at any depth), `WithStack(err)` returns a value with
`ErrorIs(WithStack(err), t) = ErrorIs(err, t)`. -/
theorem ErrorIs_WrapError_WithStack (R : Libs) (cs : List String) (err : GoError)
    (format : String) (args : List Any) (t : Error) (hd : err.derefOK = true) :
    (∀ err₀ : GoError, ErrorIs (WrapError R cs err₀ format args) t = ErrorIs err₀ t) ∧
    ∃ r, WithStack R cs err = some r ∧ ErrorIs r t = ErrorIs err t := by
  constructor
  · intro err₀
    cases err₀ with
    | nil => rfl
    | errorWithStack root st h => rfl
    | bare e => rfl
    | MultiError es => exact beq_comm_Int _ _
    | nilMultiError => exact beq_comm_Int _ _
    | foreign msg => exact beq_comm_Int _ _
    | withStack inner => exact beq_comm_Int _ _
    | withMessage cause msg => exact beq_comm_Int _ _
  · cases err with
    | nil => exact ⟨_, rfl, rfl⟩
    | errorWithStack root st h => exact ⟨_, rfl, rfl⟩
    | bare e => exact ⟨_, rfl, rfl⟩
    | nilMultiError => exact absurd hd Bool.false_ne_true
    | MultiError es =>
      obtain ⟨ss, hss⟩ := ExtractHTTPError_loop_returns R es "" hd
      rw [WithStack_MultiError, hss]
      exact ⟨_, rfl, beq_comm_Int _ _⟩
    | foreign msg => exact ⟨_, rfl, beq_comm_Int _ _⟩
    | withStack inner => exact ⟨_, rfl, beq_comm_Int _ _⟩
    | withMessage cause msg => exact ⟨_, rfl, beq_comm_Int _ _⟩

theorem ErrorIs_WrapError_WithStack_witness :
    (∀ err₀ : GoError,
      ErrorIs (WrapError sampleLibs [] err₀ "loading project" []) ErrUnknownError =
        ErrorIs err₀ ErrUnknownError) ∧
    ∃ r, WithStack sampleLibs [] (GoError.MultiError [GoError.bare ErrNotFound]) = some r ∧
      ErrorIs r ErrUnknownError =
        ErrorIs (GoError.MultiError [GoError.bare ErrNotFound]) ErrUnknownError :=
  ErrorIs_WrapError_WithStack sampleLibs [] (GoError.MultiError [GoError.bare ErrNotFound])
    "loading project" [] ErrUnknownError rfl

/-- C36, as stated, fails: for a nil `*MultiError`, `ErrorIs(err,
ErrUnknownError)` is true, while `WithStack(err)` panics in `NewError`, at
`range *e`, and returns no value whose kind could be compared. -/
theorem WithStack_panics_where_ErrorIs_answers :
    ErrorIs GoError.nilMultiError ErrUnknownError = true ∧
    (WithStack sampleLibs [] GoError.nilMultiError).map (fun r => ErrorIs r ErrUnknownError)
      = none ∧
    (WithStack sampleLibs [] GoError.nilMultiError).map (fun r => ErrorIs r ErrUnknownError)
      ≠ some (ErrorIs GoError.nilMultiError ErrUnknownError) := by
  refine ⟨rfl, rfl, ?_⟩
  intro h
  exact Option.noConfusion h

/-! ## The invariant of classified errors -/

theorem NewErrorWithStack_of_WithStack (R : Libs) (cs : List String) (err x root : GoError)
    (st : Option stack) (h : Error)
    (hw : WithStack R ("github.com/ovh/cds/sdk.NewErrorWithStack" :: cs) err =
      some (GoError.errorWithStack root st h)) :
    (NewErrorWithStack R cs err x = none ∧ x.derefOK = false) ∨
    ∃ h₁, NewErrorWithStack R cs err x = some (GoError.errorWithStack root st h₁) ∧
      x.derefOK = true := by
  have hs := ExtractHTTPError_isSome R "" x
  unfold NewErrorWithStack
  rw [hw]
  cases x with
  | errorWithStack r s h₁ => exact Or.inr ⟨_, rfl, rfl⟩
  | bare e => exact Or.inr ⟨_, rfl, rfl⟩
  | nil => exact Or.inr ⟨_, rfl, rfl⟩
  | foreign msg => exact Or.inr ⟨_, rfl, rfl⟩
  | withStack inner => exact Or.inr ⟨_, rfl, rfl⟩
  | withMessage cause msg => exact Or.inr ⟨_, rfl, rfl⟩
  | nilMultiError => exact Or.inl ⟨rfl, rfl⟩
  | MultiError es =>
    dsimp only
    cases he : ExtractHTTPError R (GoError.MultiError es) "" with
    | none =>
      rw [he] at hs
      exact Or.inl ⟨rfl, hs.symm⟩
    | some h₁ =>
      rw [he] at hs
      exact Or.inr ⟨_, rfl, hs.symm⟩

theorem rootAndStackSet_NewError (R : Libs) (cs : List String) (k : Error) (err : GoError)
    (hnil : err ≠ GoError.nil) (hwf : err.rootAndStackSet = true) :
    (NewError R cs k err).all GoError.rootAndStackSet = true := by
  cases err with
  | nil => exact absurd rfl hnil
  | nilMultiError => rfl
  | errorWithStack root st h => exact hwf
  | MultiError es =>
    rw [NewError_MultiError]
    cases ExtractHTTPError.loop R es "" <;> rfl
  | foreign msg => rfl
  | bare e => rfl
  | withStack inner =>
    cases h : (GoError.withStack inner).Error with
    | none => simp only [NewError, h]; rfl
    | some s => simp only [NewError, h]; rfl
  | withMessage cause msg =>
    cases h : (GoError.withMessage cause msg).Error with
    | none => simp only [NewError, h]; rfl
    | some s => simp only [NewError, h]; rfl

theorem rootAndStackSet_WithStack (R : Libs) (cs : List String) (err : GoError)
    (hnil : err ≠ GoError.nil) (hwf : err.rootAndStackSet = true) :
    WithStack R cs err = none ∨
    ∃ root st h, WithStack R cs err = some (GoError.errorWithStack root st h) ∧
      (GoError.errorWithStack root st h).rootAndStackSet = true := by
  cases err with
  | nil => exact absurd rfl hnil
  | nilMultiError => exact Or.inl rfl
  | errorWithStack root st h => exact Or.inr ⟨root, st, h, rfl, hwf⟩
  | MultiError es =>
    rw [WithStack_MultiError]
    cases ExtractHTTPError.loop R es "" with
    | none => exact Or.inl rfl
    | some ss => exact Or.inr ⟨_, _, _, rfl, rfl⟩
  | foreign msg => exact Or.inr ⟨_, _, _, rfl, rfl⟩
  | bare e => exact Or.inr ⟨_, _, _, rfl, rfl⟩
  | withStack inner => exact Or.inr ⟨_, _, _, rfl, rfl⟩
  | withMessage cause msg => exact Or.inr ⟨_, _, _, rfl, rfl⟩

theorem rootAndStackSet_NewErrorWithStack (R : Libs) (cs : List String) (err x : GoError)
    (hnil : err ≠ GoError.nil) (hwf : err.rootAndStackSet = true) :
    (NewErrorWithStack R cs err x).all GoError.rootAndStackSet = true := by
  rcases rootAndStackSet_WithStack R ("github.com/ovh/cds/sdk.NewErrorWithStack" :: cs) err hnil
    hwf with hw | ⟨root, st, h, hw, hset⟩
  · unfold NewErrorWithStack
    rw [hw]
    rfl
  · rcases NewErrorWithStack_of_WithStack R cs err x root st h hw with ⟨hn, _⟩ | ⟨h₁, hs, _⟩
    · rw [hn]; rfl
    · rw [hs]; exact hset

theorem rootAndStackSet_WrapError (R : Libs) (cs : List String) (err : GoError)
    (format : String) (args : List Any)
    (hnil : err ≠ GoError.nil) (hwf : err.rootAndStackSet = true) :
    (WrapError R cs err format args).rootAndStackSet = true := by
  cases err with
  | nil => exact absurd rfl hnil
  | errorWithStack root st h =>
    cases root <;> exact hwf
  | MultiError es => rfl
  | nilMultiError => rfl
  | foreign msg => rfl
  | bare e => rfl
  | withStack inner => rfl
  | withMessage cause msg => rfl

theorem rootAndStackSet_NewErrorFrom (R : Libs) (cs : List String) (err : GoError)
    (frm : String) (args : List Any)
    (hnil : err ≠ GoError.nil) (hwf : err.rootAndStackSet = true) :
    (NewErrorFrom R cs err frm args).all GoError.rootAndStackSet = true := by
  have hother : ∀ e : GoError, e ≠ GoError.nil → e.rootAndStackSet = true →
      (match NewErrorFrom.ofError R ("github.com/ovh/cds/sdk.NewErrorFrom" :: cs) ErrUnknownError
          frm args with
        | none => none
        | some inner =>
          NewErrorWithStack R ("github.com/ovh/cds/sdk.NewErrorFrom" :: cs) e inner).all
        GoError.rootAndStackSet = true := by
    intro e he hwe
    cases NewErrorFrom.ofError R ("github.com/ovh/cds/sdk.NewErrorFrom" :: cs) ErrUnknownError
        frm args with
    | none => rfl
    | some inner => exact rootAndStackSet_NewErrorWithStack R _ e inner he hwe
  cases err with
  | nil => exact absurd rfl hnil
  | errorWithStack root st h => exact hwf
  | bare e => rfl
  | MultiError es => exact hother _ hnil hwf
  | nilMultiError => exact hother _ hnil hwf
  | foreign msg => exact hother _ hnil hwf
  | withStack inner => exact hother _ hnil hwf
  | withMessage cause msg => exact hother _ hnil hwf

theorem rootAndStackSet_WithData (R : Libs) (cs : List String) (err : GoError) (data : Any)
    (hnil : err ≠ GoError.nil) (hwf : err.rootAndStackSet = true) :
    (WithData R cs err data).all GoError.rootAndStackSet = true := by
  rcases rootAndStackSet_WithStack R ("github.com/ovh/cds/sdk.WithData" :: cs) err hnil hwf with
    hw | ⟨root, st, h, hw, hset⟩
  · unfold WithData
    rw [hw]
    rfl
  · unfold WithData
    rw [hw]
    exact hset

theorem rootAndStackSet_ErrorWithFallback (R : Libs) (cs : List String) (err : GoError)
    (httpError : Error) (frm : String) (args : List Any)
    (hnil : err ≠ GoError.nil) (hwf : err.rootAndStackSet = true) :
    (ErrorWithFallback R cs err httpError frm args).all GoError.rootAndStackSet = true := by
  unfold ErrorWithFallback
  split_ifs
  · cases NewError R ("github.com/ovh/cds/sdk.ErrorWithFallback" :: cs) ErrWrongRequest
        (GoError.foreign (R.Errorf frm args)) with
    | none => rfl
    | some inner => exact rootAndStackSet_NewErrorWithStack R _ err inner hnil hwf
  · exact hwf

mutual
theorem derefOK_of_Error : ∀ err : GoError, err.Error.isSome = true → err.derefOK = true
  | .MultiError es, h => by
    rw [GoError.derefOK]
    apply derefOKAll_of_ErrorAll es
    rw [GoError.Error] at h
    cases hh : GoError.ErrorAll es with
    | none => rw [hh] at h; exact absurd h Bool.false_ne_true
    | some ss => rfl
  | .nilMultiError, h => by
    rw [GoError.Error] at h
    exact absurd h Bool.false_ne_true
  | .nil, _ => rfl
  | .foreign _, _ => rfl
  | .bare _, _ => rfl
  | .errorWithStack _ _ _, _ => rfl
  | .withStack _, _ => rfl
  | .withMessage _ _, _ => rfl
theorem derefOKAll_of_ErrorAll :
    ∀ es : List GoError, (GoError.ErrorAll es).isSome = true → GoError.derefOKAll es = true
  | [], _ => rfl
  | e :: rest, h => by
    rw [GoError.ErrorAll] at h
    cases he : GoError.Error e with
    | none => rw [he] at h; exact absurd h Bool.false_ne_true
    | some s =>
      cases hr : GoError.ErrorAll rest with
      | none => rw [he, hr] at h; exact absurd h Bool.false_ne_true
      | some ss =>
        rw [GoError.derefOKAll, derefOK_of_Error e (by rw [he]; rfl),
          derefOKAll_of_ErrorAll rest (by rw [hr]; rfl)]
        rfl
end

theorem Error_ne_nil (err : GoError) (r : String) (h : err.Error = some r) :
    err ≠ GoError.nil := by
  intro hn
  rw [hn, GoError.Error] at h
  exact Option.noConfusion h

theorem Error_withStack (inner : GoError) :
    (GoError.withStack inner).Error = inner.Error := by
  rw [GoError.Error]

theorem Error_withMessage (cause : GoError) (m r : String) (h : cause.Error = some r) :
    (GoError.withMessage cause m).Error = some (m ++ ": " ++ r) := by
  rw [GoError.Error, h]

theorem errors_Wrap_of_ne_nil (err : GoError) (m : String) (h : err ≠ GoError.nil) :
    errors.Wrap err m = GoError.withStack (GoError.withMessage err m) := by
  cases err <;> first | rfl | exact absurd rfl h

theorem errors_WithMessage_of_ne_nil (err : GoError) (m : String) (h : err ≠ GoError.nil) :
    errors.WithMessage err m = GoError.withMessage err m := by
  cases err <;> first | rfl | exact absurd rfl h

theorem wellFormed_of_parts (root : GoError) (s : stack) (h : Error) (r : String)
    (hr : root.Error = some r) (hs : (stack.String s).isSome = true) :
    (GoError.errorWithStack root (some s) h).wellFormed = true := by
  obtain ⟨path, hp⟩ := Option.isSome_iff_exists.mp hs
  have hnil : root.isNil = false := by
    cases root with
    | nil => rw [GoError.Error] at hr; exact Option.noConfusion hr
    | _ => rfl
  rw [GoError.wellFormed, GoError.Error]
  simp only [hr, hp, hnil, Bool.not_false, Bool.true_and, beq_self_eq_true]

theorem parts_of_Error (root : GoError) (st : Option stack) (h : Error)
    (hE : (GoError.errorWithStack root st h).Error.isSome = true) :
    ∃ r s, root.Error = some r ∧ st = some s ∧ (stack.String s).isSome = true := by
  rw [GoError.Error] at hE
  cases hr : root.Error with
  | none => rw [hr] at hE; exact absurd hE Bool.false_ne_true
  | some r =>
    rw [hr] at hE
    cases st with
    | none => exact absurd hE Bool.false_ne_true
    | some s =>
      dsimp only at hE
      cases hs : stack.String s with
      | none => rw [hs] at hE; exact absurd hE Bool.false_ne_true
      | some path => exact ⟨r, s, rfl, rfl, by rw [hs]; rfl⟩

theorem wellFormed_of_Error (err : GoError) (hE : err.Error.isSome = true) :
    err.wellFormed = true := by
  cases err with
  | errorWithStack root st h =>
    obtain ⟨r, s, hr, hst, hs⟩ := parts_of_Error root st h hE
    subst hst
    exact wellFormed_of_parts root s h r hr hs
  | _ => rfl

theorem callers_String (cs : List String)
    (hcs : ∀ name ∈ cs, retainedFrame name = true → symbolShape name = true) :
    ∃ s, callers cs = some s ∧ (stack.String s).isSome = true := by
  refine ⟨cs.take 32, rfl, ?_⟩
  rw [stack_String_isSome]
  exact (stackNames_isSome_iff _).mpr (fun name hn => hcs name (List.mem_of_mem_take hn))

theorem frames_cons (name : String) (cs : List String) (hname : symbolShape name = true)
    (hcs : ∀ n ∈ cs, retainedFrame n = true → symbolShape n = true) :
    ∀ n ∈ name :: cs, retainedFrame n = true → symbolShape n = true := by
  intro n hn hr
  rcases List.mem_cons.mp hn with h | h
  · rw [h]; exact hname
  · exact hcs n h hr

theorem sdk_frames_symbolShape :
    symbolShape "github.com/ovh/cds/sdk.NewErrorFrom" = true ∧
    symbolShape "github.com/ovh/cds/sdk.WithStack" = true ∧
    symbolShape "github.com/ovh/cds/sdk.NewErrorWithStack" = true ∧
    symbolShape "github.com/ovh/cds/sdk.WithData" = true ∧
    symbolShape "github.com/ovh/cds/sdk.ErrorWithFallback" = true := by
  decide

theorem classified_NewError (R : Libs) (cs : List String) (k : Error) (err : GoError)
    (hE : err.Error.isSome = true)
    (hcs : ∀ name ∈ cs, retainedFrame name = true → symbolShape name = true) :
    ∃ root s h r, NewError R cs k err = some (GoError.errorWithStack root (some s) h) ∧
      root.Error = some r ∧ (stack.String s).isSome = true := by
  obtain ⟨msg, hmsg⟩ := Option.isSome_iff_exists.mp hE
  obtain ⟨s, hcal, hs⟩ := callers_String cs hcs
  cases err with
  | nil => rw [GoError.Error] at hmsg; exact Option.noConfusion hmsg
  | nilMultiError => rw [GoError.Error] at hmsg; exact Option.noConfusion hmsg
  | errorWithStack root st h =>
    obtain ⟨r, s', hr, hst, hs'⟩ := parts_of_Error root st h hE
    subst hst
    exact ⟨root, s', _, r, rfl, hr, hs'⟩
  | MultiError es =>
    obtain ⟨ss, hss⟩ := ExtractHTTPError_loop_returns R es "" (derefOK_of_Error _ hE)
    rw [NewError_MultiError, hss, hcal]
    exact ⟨GoError.withStack (GoError.MultiError es), s, _, msg, rfl,
      (Error_withStack _).trans hmsg, hs⟩
  | foreign m =>
    refine ⟨GoError.withStack (GoError.foreign m), s, { k with From := msg }, msg, ?_,
      (Error_withStack _).trans hmsg, hs⟩
    simp only [NewError, hmsg, hcal, errors.WithStack]
  | bare e =>
    refine ⟨GoError.withStack (GoError.bare e), s, { k with From := msg }, msg, ?_,
      (Error_withStack _).trans hmsg, hs⟩
    simp only [NewError, hmsg, hcal, errors.WithStack]
  | withStack inner =>
    refine ⟨GoError.withStack (GoError.withStack inner), s, { k with From := msg }, msg, ?_,
      (Error_withStack _).trans hmsg, hs⟩
    simp only [NewError, hmsg, hcal, errors.WithStack]
  | withMessage cause m =>
    refine ⟨GoError.withStack (GoError.withMessage cause m), s, { k with From := msg }, msg, ?_,
      (Error_withStack _).trans hmsg, hs⟩
    simp only [NewError, hmsg, hcal, errors.WithStack]

theorem classified_WithStack (R : Libs) (cs : List String) (err : GoError)
    (hE : err.Error.isSome = true)
    (hcs : ∀ name ∈ cs, retainedFrame name = true → symbolShape name = true) :
    ∃ root s h r, WithStack R cs err = some (GoError.errorWithStack root (some s) h) ∧
      root.Error = some r ∧ (stack.String s).isSome = true := by
  obtain ⟨msg, hmsg⟩ := Option.isSome_iff_exists.mp hE
  obtain ⟨s, hcal, hs⟩ := callers_String cs hcs
  obtain ⟨s₁, hcal₁, hs₁⟩ := callers_String ("github.com/ovh/cds/sdk.WithStack" :: cs)
    (frames_cons _ cs sdk_frames_symbolShape.2.1 hcs)
  cases err with
  | nil => rw [GoError.Error] at hmsg; exact Option.noConfusion hmsg
  | nilMultiError => rw [GoError.Error] at hmsg; exact Option.noConfusion hmsg
  | errorWithStack root st h =>
    obtain ⟨r, s', hr, hst, hs'⟩ := parts_of_Error root st h hE
    subst hst
    exact ⟨root, s', _, r, rfl, hr, hs'⟩
  | MultiError es =>
    obtain ⟨ss, hss⟩ := ExtractHTTPError_loop_returns R es "" (derefOK_of_Error _ hE)
    rw [WithStack_MultiError, hss, hcal₁]
    exact ⟨GoError.withStack (GoError.MultiError es), s₁, _, msg, rfl,
      (Error_withStack _).trans hmsg, hs₁⟩
  | foreign m =>
    refine ⟨GoError.withStack (GoError.foreign m), s, ErrUnknownError, msg, ?_,
      (Error_withStack _).trans hmsg, hs⟩
    rw [← hcal]
    rfl
  | bare e =>
    refine ⟨errors.New "", s, e, "", ?_, rfl, hs⟩
    rw [← hcal]
    rfl
  | withStack inner =>
    refine ⟨GoError.withStack (GoError.withStack inner), s, ErrUnknownError, msg, ?_,
      (Error_withStack _).trans hmsg, hs⟩
    rw [← hcal]
    rfl
  | withMessage cause m =>
    refine ⟨GoError.withStack (GoError.withMessage cause m), s, ErrUnknownError, msg, ?_,
      (Error_withStack _).trans hmsg, hs⟩
    rw [← hcal]
    rfl

theorem classified_WrapError (R : Libs) (cs : List String) (err : GoError) (format : String)
    (args : List Any) (hE : err.Error.isSome = true)
    (hcs : ∀ name ∈ cs, retainedFrame name = true → symbolShape name = true) :
    ∃ root s h r, WrapError R cs err format args = GoError.errorWithStack root (some s) h ∧
      root.Error = some r ∧ (stack.String s).isSome = true := by
  obtain ⟨msg, hmsg⟩ := Option.isSome_iff_exists.mp hE
  obtain ⟨s, hcal, hs⟩ := callers_String cs hcs
  have hwrap : ∀ e : GoError, e.Error = some msg →
      (errors.Wrap e (R.Sprintf format args)).Error =
        some (R.Sprintf format args ++ ": " ++ msg) := by
    intro e he
    rw [errors_Wrap_of_ne_nil e _ (Error_ne_nil e msg he), Error_withStack]
    exact Error_withMessage e _ msg he
  cases err with
  | nil => rw [GoError.Error] at hmsg; exact Option.noConfusion hmsg
  | errorWithStack root st h =>
    obtain ⟨r, s', hr, hst, hs'⟩ := parts_of_Error root st h hE
    subst hst
    refine ⟨errors.WithMessage root (R.Sprintf format args), s', h,
      R.Sprintf format args ++ ": " ++ r, rfl, ?_, hs'⟩
    rw [errors_WithMessage_of_ne_nil root _ (Error_ne_nil root r hr)]
    exact Error_withMessage root _ r hr
  | bare e =>
    refine ⟨GoError.withStack (GoError.foreign (R.Errorf format args)), s, e,
      R.Errorf format args, ?_, rfl, hs⟩
    rw [← hcal]
    rfl
  | nilMultiError => rw [GoError.Error] at hmsg; exact Option.noConfusion hmsg
  | MultiError es =>
    refine ⟨_, s, ErrUnknownError, _, ?_, hwrap _ hmsg, hs⟩
    rw [← hcal]
    rfl
  | foreign m =>
    refine ⟨_, s, ErrUnknownError, _, ?_, hwrap _ hmsg, hs⟩
    rw [← hcal]
    rfl
  | withStack inner =>
    refine ⟨_, s, ErrUnknownError, _, ?_, hwrap _ hmsg, hs⟩
    rw [← hcal]
    rfl
  | withMessage cause m =>
    refine ⟨_, s, ErrUnknownError, _, ?_, hwrap _ hmsg, hs⟩
    rw [← hcal]
    rfl

theorem classified_NewErrorWithStack (R : Libs) (cs : List String) (err x : GoError)
    (hE : err.Error.isSome = true)
    (hcs : ∀ name ∈ cs, retainedFrame name = true → symbolShape name = true) :
    ∃ root s r, root.Error = some r ∧ (stack.String s).isSome = true ∧
      ((NewErrorWithStack R cs err x = none ∧ x.derefOK = false) ∨
        ∃ h, NewErrorWithStack R cs err x = some (GoError.errorWithStack root (some s) h) ∧
          x.derefOK = true) := by
  obtain ⟨root, s, h, r, hw, hr, hs⟩ :=
    classified_WithStack R ("github.com/ovh/cds/sdk.NewErrorWithStack" :: cs) err hE
      (frames_cons _ cs sdk_frames_symbolShape.2.2.1 hcs)
  exact ⟨root, s, r, hr, hs, NewErrorWithStack_of_WithStack R cs err x root (some s) h hw⟩

theorem classified_WithData (R : Libs) (cs : List String) (err : GoError) (data : Any)
    (hE : err.Error.isSome = true)
    (hcs : ∀ name ∈ cs, retainedFrame name = true → symbolShape name = true) :
    ∃ root s h r, WithData R cs err data = some (GoError.errorWithStack root (some s) h) ∧
      root.Error = some r ∧ (stack.String s).isSome = true := by
  obtain ⟨root, s, h, r, hw, hr, hs⟩ :=
    classified_WithStack R ("github.com/ovh/cds/sdk.WithData" :: cs) err hE
      (frames_cons _ cs sdk_frames_symbolShape.2.2.2.1 hcs)
  refine ⟨root, s, { h with Data := data }, r, ?_, hr, hs⟩
  unfold WithData
  rw [hw]

theorem classified_NewErrorFrom (R : Libs) (cs : List String) (err : GoError) (frm : String)
    (args : List Any) (hE : err.Error.isSome = true)
    (hcs : ∀ name ∈ cs, retainedFrame name = true → symbolShape name = true) :
    ∃ root s h r, NewErrorFrom R cs err frm args =
        some (GoError.errorWithStack root (some s) h) ∧
      root.Error = some r ∧ (stack.String s).isSome = true := by
  have hcs₁ := frames_cons _ cs sdk_frames_symbolShape.1 hcs
  have hother : ∀ e : GoError, e.Error.isSome = true →
      ∃ root s h r,
        (match NewErrorFrom.ofError R ("github.com/ovh/cds/sdk.NewErrorFrom" :: cs)
            ErrUnknownError frm args with
          | none => none
          | some inner =>
            NewErrorWithStack R ("github.com/ovh/cds/sdk.NewErrorFrom" :: cs) e inner) =
          some (GoError.errorWithStack root (some s) h) ∧
        root.Error = some r ∧ (stack.String s).isSome = true := by
    intro e he
    obtain ⟨root, s, r, hr, hs, hcase⟩ :=
      classified_NewErrorWithStack R ("github.com/ovh/cds/sdk.NewErrorFrom" :: cs) e
        (GoError.errorWithStack
          (errors.WithStack (GoError.foreign (R.Errorf frm args)))
          (callers ("github.com/ovh/cds/sdk.NewErrorFrom" ::
            "github.com/ovh/cds/sdk.NewErrorFrom" :: cs))
          { ErrUnknownError with From := R.Errorf frm args }) he hcs₁
    rcases hcase with ⟨_, hx⟩ | ⟨h, hn, _⟩
    · exact absurd hx Bool.noConfusion
    · exact ⟨root, s, h, r, hn, hr, hs⟩
  obtain ⟨msg, hmsg⟩ := Option.isSome_iff_exists.mp hE
  cases err with
  | nil => rw [GoError.Error] at hmsg; exact Option.noConfusion hmsg
  | errorWithStack root st h =>
    obtain ⟨r, s', hr, hst, hs'⟩ := parts_of_Error root st h hE
    subst hst
    exact ⟨root, s', _, r, rfl, hr, hs'⟩
  | bare e =>
    obtain ⟨s, hcal, hs⟩ := callers_String _ hcs₁
    refine ⟨GoError.withStack (GoError.foreign (R.Errorf frm args)), s,
      { e with From := R.Errorf frm args }, R.Errorf frm args, ?_, rfl, hs⟩
    rw [← hcal]
    rfl
  | nilMultiError => exact hother _ hE
  | MultiError es => exact hother _ hE
  | foreign m => exact hother _ hE
  | withStack inner => exact hother _ hE
  | withMessage cause m => exact hother _ hE

theorem classified_ErrorWithFallback (R : Libs) (cs : List String) (err : GoError)
    (httpError : Error) (frm : String) (args : List Any) (hE : err.Error.isSome = true)
    (hcs : ∀ name ∈ cs, retainedFrame name = true → symbolShape name = true) :
    ∃ r, ErrorWithFallback R cs err httpError frm args = some r ∧ r.wellFormed = true := by
  unfold ErrorWithFallback
  split_ifs with hu
  · obtain ⟨root, s, r, hr, hs, hcase⟩ :=
      classified_NewErrorWithStack R ("github.com/ovh/cds/sdk.ErrorWithFallback" :: cs) err
        (GoError.errorWithStack
          (errors.WithStack (GoError.foreign (R.Errorf frm args)))
          (callers ("github.com/ovh/cds/sdk.ErrorWithFallback" :: cs))
          { ErrWrongRequest with From := R.Errorf frm args }) hE
        (frames_cons _ cs sdk_frames_symbolShape.2.2.2.2 hcs)
    rcases hcase with ⟨_, hx⟩ | ⟨h, hn, _⟩
    · exact absurd hx Bool.noConfusion
    · exact ⟨_, hn, wellFormed_of_parts root s h r hr hs⟩
  · exact ⟨err, rfl, wellFormed_of_Error err hE⟩

/-- C37, as the code has it: on a non-nil input (whose root and stack are
non-nil when it is an `errorWithStack`) every value returned by `NewError`,
`NewErrorFrom`, `WrapError`, `WithStack`, `WithData`, `NewErrorWithStack` and
`ErrorWithFallback` has a non-nil root and a non-nil stack.  When moreover
`Error()` of the input returns and every frame name of the call stack that
starts with `github.com/ovh/cds` and not with `github.com/ovh/cds/vendor` has
the shape of a Go symbol name, `NewError`, `NewErrorFrom`, `WrapError`,
`WithStack` and `WithData` return an `errorWithStack`, `NewErrorWithStack(err,
x)` returns one exactly when `x` holds no nil `*MultiError`, `ErrorWithFallback`
returns, and `Error()` of every `errorWithStack` returned is defined: it is
`stack.String()`, `: `, `httpError.Error()`, followed by ` (caused by: `
`root.Error()` `)` exactly when `root.Error()` is non-empty and differs from
`httpError.From`. -/
theorem classified_invariant (R : Libs) (cs : List String) (err x : GoError) (k httpError : Error)
    (frm : String) (args : List Any) (data : Any)
    (hnil : err ≠ GoError.nil) (hwf : err.rootAndStackSet = true) :
    ((NewError R cs k err).all GoError.rootAndStackSet = true ∧
      (NewErrorFrom R cs err frm args).all GoError.rootAndStackSet = true ∧
      (WrapError R cs err frm args).rootAndStackSet = true ∧
      (WithStack R cs err).all GoError.rootAndStackSet = true ∧
      (WithData R cs err data).all GoError.rootAndStackSet = true ∧
      (NewErrorWithStack R cs err x).all GoError.rootAndStackSet = true ∧
      (ErrorWithFallback R cs err httpError frm args).all GoError.rootAndStackSet = true) ∧
    (err.Error.isSome = true →
      (∀ name ∈ cs, retainedFrame name = true → symbolShape name = true) →
      (∃ r, NewError R cs k err = some r ∧ IsErrorWithStack r = true ∧ r.wellFormed = true) ∧
      (∃ r, NewErrorFrom R cs err frm args = some r ∧ IsErrorWithStack r = true ∧
        r.wellFormed = true) ∧
      (IsErrorWithStack (WrapError R cs err frm args) = true ∧
        (WrapError R cs err frm args).wellFormed = true) ∧
      (∃ r, WithStack R cs err = some r ∧ IsErrorWithStack r = true ∧ r.wellFormed = true) ∧
      (∃ r, WithData R cs err data = some r ∧ IsErrorWithStack r = true ∧
        r.wellFormed = true) ∧
      ((NewErrorWithStack R cs err x).isSome = x.derefOK ∧
        (NewErrorWithStack R cs err x).all
          (fun r => IsErrorWithStack r && r.wellFormed) = true) ∧
      (∃ r, ErrorWithFallback R cs err httpError frm args = some r ∧ r.wellFormed = true)) := by
  refine ⟨⟨rootAndStackSet_NewError R cs k err hnil hwf,
    rootAndStackSet_NewErrorFrom R cs err frm args hnil hwf,
    rootAndStackSet_WrapError R cs err frm args hnil hwf, ?_,
    rootAndStackSet_WithData R cs err data hnil hwf,
    rootAndStackSet_NewErrorWithStack R cs err x hnil hwf,
    rootAndStackSet_ErrorWithFallback R cs err httpError frm args hnil hwf⟩, ?_⟩
  · rcases rootAndStackSet_WithStack R cs err hnil hwf with hw | ⟨root, st, h, hw, hset⟩
    · rw [hw]; rfl
    · rw [hw]; exact hset
  · intro hE hcs
    refine ⟨?_, ?_, ?_, ?_, ?_, ?_, classified_ErrorWithFallback R cs err httpError frm args hE hcs⟩
    · obtain ⟨root, s, h, r, hf, hr, hs⟩ := classified_NewError R cs k err hE hcs
      exact ⟨_, hf, rfl, wellFormed_of_parts root s h r hr hs⟩
    · obtain ⟨root, s, h, r, hf, hr, hs⟩ := classified_NewErrorFrom R cs err frm args hE hcs
      exact ⟨_, hf, rfl, wellFormed_of_parts root s h r hr hs⟩
    · obtain ⟨root, s, h, r, hf, hr, hs⟩ := classified_WrapError R cs err frm args hE hcs
      rw [hf]
      exact ⟨rfl, wellFormed_of_parts root s h r hr hs⟩
    · obtain ⟨root, s, h, r, hf, hr, hs⟩ := classified_WithStack R cs err hE hcs
      exact ⟨_, hf, rfl, wellFormed_of_parts root s h r hr hs⟩
    · obtain ⟨root, s, h, r, hf, hr, hs⟩ := classified_WithData R cs err data hE hcs
      exact ⟨_, hf, rfl, wellFormed_of_parts root s h r hr hs⟩
    · obtain ⟨root, s, r, hr, hs, hcase⟩ := classified_NewErrorWithStack R cs err x hE hcs
      rcases hcase with ⟨hn, hx⟩ | ⟨h, hn, hx⟩
      · rw [hn, hx]
        exact ⟨rfl, rfl⟩
      · rw [hn, hx]
        refine ⟨rfl, ?_⟩
        show (IsErrorWithStack (GoError.errorWithStack root (some s) h) &&
          (GoError.errorWithStack root (some s) h).wellFormed) = true
        rw [wellFormed_of_parts root s h r hr hs]
        rfl

theorem classified_invariant_witness :
    ((NewError sampleLibs ["github.com/ovh/cds/engine/api.Serve"] ErrNotFound
        (GoError.foreign "boom")).all GoError.rootAndStackSet = true ∧
      (WithStack sampleLibs ["github.com/ovh/cds/engine/api.Serve"]
        (GoError.foreign "boom")).all GoError.rootAndStackSet = true) ∧
    (∃ r, NewError sampleLibs ["github.com/ovh/cds/engine/api.Serve"] ErrNotFound
        (GoError.foreign "boom") = some r ∧ IsErrorWithStack r = true ∧ r.wellFormed = true) ∧
    (∃ r, WithStack sampleLibs ["github.com/ovh/cds/engine/api.Serve"]
        (GoError.foreign "boom") = some r ∧ IsErrorWithStack r = true ∧ r.wellFormed = true) ∧
    (NewErrorWithStack sampleLibs ["github.com/ovh/cds/engine/api.Serve"]
        (GoError.foreign "boom") GoError.nilMultiError).isSome
      = GoError.nilMultiError.derefOK ∧
    (∃ r, ErrorWithFallback sampleLibs ["github.com/ovh/cds/engine/api.Serve"]
        (GoError.foreign "boom") ErrForbidden "ctx" [] = some r ∧ r.wellFormed = true) :=
  have h := classified_invariant sampleLibs ["github.com/ovh/cds/engine/api.Serve"]
    (GoError.foreign "boom") GoError.nilMultiError ErrNotFound ErrForbidden "ctx" [] Any.null
    (by simp) rfl
  have h2 := h.2 rfl (by decide)
  ⟨⟨h.1.1, h.1.2.2.2.1⟩, h2.1, h2.2.2.2.1, h2.2.2.2.2.2.1.1, h2.2.2.2.2.2.2⟩

/-- C37, as stated, fails: `WithStack` of the aggregate whose one element is nil
returns an `errorWithStack` with a non-nil root and a non-nil stack, and
`Error()` of that value panics, in `MultiError.Error` on the nil element. -/
theorem classified_Error_panics :
    ∃ r, WithStack sampleLibs [] (GoError.MultiError [GoError.nil]) = some r ∧
      r.rootAndStackSet = true ∧ IsErrorWithStack r = true ∧ r.Error = none :=
  ⟨_, rfl, rfl, rfl, rfl⟩

/-! ## Annotation of a bare kind and of a foreign error -/

/-- C38: `NewErrorFrom` on an `Error` value `e` returns an `errorWithStack`
whose `httpError` is `e` with `From` set to the formatted context (the kind is
not replaced); on an error that is neither nil, an `errorWithStack` nor an
`Error` (and holds no nil `*MultiError`) it returns an `errorWithStack` of kind
`ErrUnknownError` with `From` the formatted context and with the `Cause` of the
error, the error itself when it has no `Cause` method. -/
theorem NewErrorFrom_keeps_kind (R : Libs) (cs : List String) (e : Error) (frm : String)
    (args : List Any) (msg : String) (err : GoError)
    (hnil : err ≠ GoError.nil) (hws : err.isErrorWithStack = false)
    (hbare : err.isBare = false) (hd : err.derefOK = true) :
    NewErrorFrom R cs (GoError.bare e) frm args =
      some (GoError.errorWithStack (GoError.withStack (GoError.foreign (R.Errorf frm args)))
        (callers ("github.com/ovh/cds/sdk.NewErrorFrom" :: cs))
        { ID := e.ID, Status := e.Status, Message := e.Message, Data := e.Data,
          RequestID := e.RequestID, StackTrace := e.StackTrace, From := R.Errorf frm args }) ∧
    (∃ root st, NewErrorFrom R cs err frm args =
        some (GoError.errorWithStack root st
          { ID := ErrUnknownError.ID, Status := ErrUnknownError.Status,
            Message := ErrUnknownError.Message, Data := ErrUnknownError.Data,
            RequestID := ErrUnknownError.RequestID, StackTrace := ErrUnknownError.StackTrace,
            From := R.Errorf frm args }) ∧
      errors.Cause root = Cause err) ∧
    (NewErrorFrom R cs (GoError.foreign msg) frm args).map Cause = some (GoError.foreign msg) := by
  refine ⟨rfl, ?_, rfl⟩
  cases err with
  | nil => exact absurd rfl hnil
  | errorWithStack root st h => simp [GoError.isErrorWithStack] at hws
  | bare b => simp [GoError.isBare] at hbare
  | nilMultiError => exact absurd hd Bool.false_ne_true
  | MultiError es =>
    obtain ⟨ss, hss⟩ := ExtractHTTPError_loop_returns R es "" hd
    have hw := WithStack_MultiError R
      ("github.com/ovh/cds/sdk.NewErrorWithStack" :: "github.com/ovh/cds/sdk.NewErrorFrom" :: cs)
      es
    rw [hss] at hw
    refine ⟨GoError.withStack (GoError.MultiError es),
      callers ("github.com/ovh/cds/sdk.WithStack" ::
        "github.com/ovh/cds/sdk.NewErrorWithStack" :: "github.com/ovh/cds/sdk.NewErrorFrom" :: cs),
      ?_, rfl⟩
    show (match NewErrorFrom.ofError R ("github.com/ovh/cds/sdk.NewErrorFrom" :: cs)
        ErrUnknownError frm args with
      | none => none
      | some inner =>
        NewErrorWithStack R ("github.com/ovh/cds/sdk.NewErrorFrom" :: cs)
          (GoError.MultiError es) inner) = _
    unfold NewErrorWithStack
    rw [hw]
    rfl
  | foreign m => exact ⟨_, _, rfl, rfl⟩
  | withStack inner => exact ⟨_, _, rfl, rfl⟩
  | withMessage cause m => exact ⟨_, _, rfl, rfl⟩

theorem NewErrorFrom_keeps_kind_witness :
    NewErrorFrom sampleLibs [] (GoError.bare ErrNotFound) "unable to load" [] =
      some (GoError.errorWithStack (GoError.withStack (GoError.foreign
          (sampleLibs.Errorf "unable to load" [])))
        (callers ("github.com/ovh/cds/sdk.NewErrorFrom" :: []))
        { ID := ErrNotFound.ID, Status := ErrNotFound.Status, Message := ErrNotFound.Message,
          Data := ErrNotFound.Data, RequestID := ErrNotFound.RequestID,
          StackTrace := ErrNotFound.StackTrace, From := sampleLibs.Errorf "unable to load" [] }) ∧
    (∃ root st, NewErrorFrom sampleLibs [] (GoError.withStack (GoError.foreign "eof"))
        "unable to load" [] =
        some (GoError.errorWithStack root st
          { ID := ErrUnknownError.ID, Status := ErrUnknownError.Status,
            Message := ErrUnknownError.Message, Data := ErrUnknownError.Data,
            RequestID := ErrUnknownError.RequestID, StackTrace := ErrUnknownError.StackTrace,
            From := sampleLibs.Errorf "unable to load" [] }) ∧
      errors.Cause root = Cause (GoError.withStack (GoError.foreign "eof"))) ∧
    (NewErrorFrom sampleLibs [] (GoError.foreign "refused") "unable to load" []).map Cause
      = some (GoError.foreign "refused") :=
  NewErrorFrom_keeps_kind sampleLibs [] ErrNotFound "unable to load" [] "refused"
    (GoError.withStack (GoError.foreign "eof")) (by simp) rfl rfl rfl

/-! ## `Exit` -/

/-- C39: `Exit` compares the format without its last byte with `"\n"`, not its
last byte: the format `done\n` (bytes 100 111 110 101 10) is printed with a
second newline, the format `\nx` (bytes 10 120) is printed without a final
newline; in general a newline is appended to every non-empty format except the
two-byte formats that start with a newline. -/
theorem Exit_format_newline (format : List Nat) :
    Exit.format [100, 111, 110, 101, 10] = [100, 111, 110, 101, 10, 10] ∧
    Exit.format [10, 120] = [10, 120] ∧
    Exit.format [100, 111, 110, 101] = [100, 111, 110, 101, 10] ∧
    Exit.format format =
      (if format = [] ∨ (format.length = 2 ∧ format.head? = some 10) then format
       else format ++ [10]) := by
  refine ⟨by decide, by decide, by decide, ?_⟩
  unfold Exit.format
  match format with
  | [] => simp
  | [a] => simp
  | [a, b] => by_cases h : a = 10 <;> simp [h]
  | a :: b :: c :: rest => simp

/-! ## `createPullRequest` -/

/-- C40: after the pull request is found or created, `createPullRequest` returns
an error when loading the event fails with an error that resolves to
`ErrNotFound` (the test lacks the negation), whether the returned event pointer
is nil or not; when loading fails with another error it goes on: it
dereferences the event, which panics for a nil pointer, and for a zero event it
builds, registers and upserts a fresh event and returns no error. -/
theorem createPullRequest_returns_on_not_found :
    ascode.createPullRequest sampleLibs []
        (ascode.sampleWorld
          (none, GoError.errorWithStack (GoError.foreign "") (some []) ErrNotFound)) 3
        { Type_ := ascode.EventType.WorkflowEvent, ID := 5, Name := "wf", FromRepo := "repo",
          OperationUUID := "op" }
        { Message := "update", FromBranch := "ascode", ToBranch := "master", Update := false } =
      some (none, GoError.errorWithStack (GoError.foreign "") (some [])
        { ID := 38, Status := 404, From := "unable to save pull request" }) ∧
    ErrorIs (GoError.errorWithStack (GoError.foreign "") (some []) ErrNotFound) ErrNotFound
      = true ∧
    ascode.createPullRequest sampleLibs []
        (ascode.sampleWorld
          (some {}, GoError.errorWithStack (GoError.foreign "") (some []) ErrNotFound)) 3
        { Type_ := ascode.EventType.WorkflowEvent, ID := 5, Name := "wf", FromRepo := "repo",
          OperationUUID := "op" }
        { Message := "update", FromBranch := "ascode", ToBranch := "master", Update := false } =
      some (none, GoError.errorWithStack (GoError.foreign "") (some [])
        { ID := 38, Status := 404, From := "unable to save pull request" }) ∧
    ErrorIs (GoError.foreign "connection refused") ErrNotFound = false ∧
    ascode.createPullRequest sampleLibs []
        (ascode.sampleWorld (none, GoError.foreign "connection refused")) 3
        { Type_ := ascode.EventType.WorkflowEvent, ID := 5, Name := "wf", FromRepo := "repo",
          OperationUUID := "op" }
        { Message := "update", FromBranch := "ascode", ToBranch := "master", Update := false } =
      none ∧
    ascode.createPullRequest sampleLibs []
        (ascode.sampleWorld (some {}, GoError.foreign "connection refused")) 3
        { Type_ := ascode.EventType.WorkflowEvent, ID := 5, Name := "wf", FromRepo := "repo",
          OperationUUID := "op" }
        { Message := "update", FromBranch := "ascode", ToBranch := "master", Update := false } =
      some (some { WorkflowID := 3, FromRepo := "repo", PullRequestID := 7,
                   PullRequestURL := "https://vcs/pr/7", Username := "alice", CreateDate := 1000,
                   Migrate := true, Data := { Workflows := some [(5, "wf")] } },
            GoError.nil) :=
  ⟨rfl, rfl, rfl, rfl, rfl, rfl⟩


end sdk
